import Mathlib

/-!
MyAvatar: a shallow embedding of the avatar core.

The definitions below follow `interface/src/avatar/MyAvatar.cpp`.  C++ `float`
values are embedded as rationals (exact arithmetic, no rounding, no NaN), Qt
UUIDs as natural numbers, `std::vector` as `List`, and calls into the entity
tree as an explicit trace of operations.  Where a statement turns on a float
comparison at its boundary (the sit/stand timeouts, the gap test of the landing
probe), the function is given a second time with its float operations as
parameters (`updateSitStandStateRounded`, `requiresSafeLandingWith`) and the
statement is proved for every choice of them.
-/

namespace MyAvatar

/-! ## Locomotion gearing (`calculateGearedSpeed`) -/

/-- Value of `LocomotionControlsMode::CONTROLS_ANALOG`. -/
def CONTROLS_ANALOG : Int := 1

/-- Value of `LocomotionControlsMode::CONTROLS_ANALOG_PLUS`. -/
def CONTROLS_ANALOG_PLUS : Int := 2

/-- The members read by `getDriveGear1` .. `getDriveGear5`: the control scheme,
the five user-set breakpoints, and the five `ANALOG_AVATAR_GEAR_n` constants
(declared outside this file, hence taken as parameters). -/
structure GearSettings where
  _controlSchemeIndex : Int
  _driveGear1 : ℚ
  _driveGear2 : ℚ
  _driveGear3 : ℚ
  _driveGear4 : ℚ
  _driveGear5 : ℚ
  ANALOG_AVATAR_GEAR_1 : ℚ
  ANALOG_AVATAR_GEAR_2 : ℚ
  ANALOG_AVATAR_GEAR_3 : ℚ
  ANALOG_AVATAR_GEAR_4 : ℚ
  ANALOG_AVATAR_GEAR_5 : ℚ

/-- `MyAvatar::getDriveGear1`. -/
def getDriveGear1 (s : GearSettings) : ℚ :=
  if s._controlSchemeIndex = CONTROLS_ANALOG then s.ANALOG_AVATAR_GEAR_1
  else if s._controlSchemeIndex = CONTROLS_ANALOG_PLUS then s._driveGear1
  else 1

/-- `MyAvatar::getDriveGear2`. -/
def getDriveGear2 (s : GearSettings) : ℚ :=
  if s._controlSchemeIndex = CONTROLS_ANALOG then s.ANALOG_AVATAR_GEAR_2
  else if s._controlSchemeIndex = CONTROLS_ANALOG_PLUS then s._driveGear2
  else 1

/-- `MyAvatar::getDriveGear3`. -/
def getDriveGear3 (s : GearSettings) : ℚ :=
  if s._controlSchemeIndex = CONTROLS_ANALOG then s.ANALOG_AVATAR_GEAR_3
  else if s._controlSchemeIndex = CONTROLS_ANALOG_PLUS then s._driveGear3
  else 1

/-- `MyAvatar::getDriveGear4`. -/
def getDriveGear4 (s : GearSettings) : ℚ :=
  if s._controlSchemeIndex = CONTROLS_ANALOG then s.ANALOG_AVATAR_GEAR_4
  else if s._controlSchemeIndex = CONTROLS_ANALOG_PLUS then s._driveGear4
  else 1

/-- `MyAvatar::getDriveGear5`. -/
def getDriveGear5 (s : GearSettings) : ℚ :=
  if s._controlSchemeIndex = CONTROLS_ANALOG then s.ANALOG_AVATAR_GEAR_5
  else if s._controlSchemeIndex = CONTROLS_ANALOG_PLUS then s._driveGear5
  else 1

/-- `MyAvatar::calculateGearedSpeed`: a cascade of strict comparisons from the
highest gear down; the result carries the sign of the stick value.  (The file
has `using namespace std`, so `abs` is the floating-point absolute value.) -/
def calculateGearedSpeed (s : GearSettings) (driveKey : ℚ) : ℚ :=
  let absDriveKey := |driveKey|
  let sign : ℚ := if driveKey < 0 then -1 else 1
  if absDriveKey > getDriveGear5 s then sign * 1
  else if absDriveKey > getDriveGear4 s then sign * (8 / 10)
  else if absDriveKey > getDriveGear3 s then sign * (6 / 10)
  else if absDriveKey > getDriveGear2 s then sign * (4 / 10)
  else if absDriveKey > getDriveGear1 s then sign * (2 / 10)
  else sign * 0

/-- An analog-plus configuration with breakpoints 0.1 .. 0.5, used in examples. -/
def sampleGears : GearSettings :=
  { _controlSchemeIndex := CONTROLS_ANALOG_PLUS
    _driveGear1 := 1 / 10, _driveGear2 := 2 / 10, _driveGear3 := 3 / 10
    _driveGear4 := 4 / 10, _driveGear5 := 5 / 10
    ANALOG_AVATAR_GEAR_1 := 1 / 10, ANALOG_AVATAR_GEAR_2 := 2 / 10
    ANALOG_AVATAR_GEAR_3 := 3 / 10, ANALOG_AVATAR_GEAR_4 := 4 / 10
    ANALOG_AVATAR_GEAR_5 := 5 / 10 }

/-! ## Follow timers (`MyAvatar::FollowHelper`) -/

/-- The three follow axes; `_timeRemaining` is an array indexed by this enum. -/
inductive FollowType where
  | Rotation
  | Horizontal
  | Vertical
  deriving DecidableEq, Repr

/-- Data members of `MyAvatar::FollowHelper`. -/
structure FollowHelper where
  _timeRemaining : FollowType → ℚ
  _forceActivateRotation : Bool
  _forceActivateVertical : Bool
  _forceActivateHorizontal : Bool
  _squatDetected : Bool

/-- The constant `FOLLOW_TIME` (0.5 s). -/
def FOLLOW_TIME : ℚ := 1 / 2

/-- `FollowHelper::deactivate(FollowType)`. -/
def FollowHelper.deactivate (f : FollowHelper) (type : FollowType) : FollowHelper :=
  { f with _timeRemaining := Function.update f._timeRemaining type 0 }

/-- `FollowHelper::activate(FollowType)`. -/
def FollowHelper.activate (f : FollowHelper) (type : FollowType) : FollowHelper :=
  { f with _timeRemaining := Function.update f._timeRemaining type FOLLOW_TIME }

/-- `FollowHelper::isActive(FollowType)`. -/
def FollowHelper.isActive (f : FollowHelper) (type : FollowType) : Bool :=
  decide (f._timeRemaining type > 0)

/-- `FollowHelper::decrementTimeRemaining`: subtracts `dt` from each of the
three timers (the loop over `NumFollowTypes`), with no other effect. -/
def FollowHelper.decrementTimeRemaining (f : FollowHelper) (dt : ℚ) : FollowHelper :=
  { f with _timeRemaining := fun i => f._timeRemaining i - dt }

/-- A follow state right after `activate(Rotation)` on an idle helper:
rotation timer 0.5 s, the other two timers 0. -/
def rotationOnlyFollow : FollowHelper :=
  { _timeRemaining := fun i => if i = FollowType.Rotation then FOLLOW_TIME else 0
    _forceActivateRotation := false
    _forceActivateVertical := false
    _forceActivateHorizontal := false
    _squatDetected := false }

/-! ## Sit/stand classifier (`updateSitStandState`) -/

/-- The members read or written by `updateSitStandState` and
`setIsInSittingState`.  `_isAway`, `headPoseValid` (the validity of the HEAD
controller pose) and `_currentStandingHeight` are inputs of the classifier. -/
structure SitStandState where
  _lockSitStandState : Bool
  _isAway : Bool
  headPoseValid : Bool
  _isInSittingState : Bool
  _tippingPoint : ℚ
  _averageUserHeightSensorSpace : ℚ
  _sitStandStateTimer : ℚ
  _squatTimer : ℚ
  _userHeight : ℚ
  _currentStandingHeight : ℚ
  _resetMode : Bool
  _centerOfGravityModelEnabled : Bool
  _sitStandStateChange : Bool
  deriving DecidableEq

/-- `MyAvatar::setIsInSittingState`: resets both timers, stores the flag, sets
the reset mode, enables the centre-of-gravity model exactly when standing, and
raises the sit/stand-change flag. -/
def setIsInSittingState (s : SitStandState) (isSitting : Bool) : SitStandState :=
  { s with
    _sitStandStateTimer := 0
    _squatTimer := 0
    _isInSittingState := isSitting
    _resetMode := true
    _centerOfGravityModelEnabled := !isSitting
    _sitStandStateChange := true }

/-- Constant `STANDING_HEIGHT_MULTIPLE` of `updateSitStandState`. -/
def STANDING_HEIGHT_MULTIPLE : ℚ := 12 / 10

/-- Constant `SITTING_HEIGHT_MULTIPLE` of `updateSitStandState`. -/
def SITTING_HEIGHT_MULTIPLE : ℚ := 833 / 1000

/-- Constant `SITTING_TIMEOUT` of `updateSitStandState` (4 seconds). -/
def SITTING_TIMEOUT : ℚ := 4

/-- Constant `STANDING_TIMEOUT` of `updateSitStandState` (written `0.3333f`). -/
def STANDING_TIMEOUT : ℚ := 3333 / 10000

/-- Constant `SITTING_UPPER_BOUND` of `updateSitStandState`. -/
def SITTING_UPPER_BOUND : ℚ := 152 / 100

/-- `MyAvatar::updateSitStandState`. -/
def updateSitStandState (s : SitStandState) (newHeightReading dt : ℚ) : SitStandState :=
  if !s._lockSitStandState then
    if !s._isAway && s.headPoseValid then
      if s._isInSittingState then
        if newHeightReading > STANDING_HEIGHT_MULTIPLE * s._tippingPoint then
          let s1 := { s with _sitStandStateTimer := s._sitStandStateTimer + dt }
          if s1._sitStandStateTimer > STANDING_TIMEOUT then
            setIsInSittingState
              { s1 with _averageUserHeightSensorSpace := newHeightReading
                        _tippingPoint := newHeightReading } false
          else s1
        else if newHeightReading < SITTING_HEIGHT_MULTIPLE * s._tippingPoint then
          let s1 := { s with _sitStandStateTimer := s._sitStandStateTimer + dt }
          if s1._sitStandStateTimer > SITTING_TIMEOUT then
            setIsInSittingState
              { s1 with _averageUserHeightSensorSpace := newHeightReading
                        _tippingPoint := newHeightReading } true
          else s1
        else
          if s._averageUserHeightSensorSpace > SITTING_UPPER_BOUND then
            setIsInSittingState s false
          else
            { s with _tippingPoint := s._averageUserHeightSensorSpace
                     _sitStandStateTimer := 0 }
      else
        if newHeightReading < SITTING_HEIGHT_MULTIPLE * s._tippingPoint then
          let s1 := { s with _sitStandStateTimer := s._sitStandStateTimer + dt }
          if s1._sitStandStateTimer > SITTING_TIMEOUT then
            setIsInSittingState
              { s1 with _averageUserHeightSensorSpace := newHeightReading
                        _tippingPoint := newHeightReading } true
          else s1
        else
          { s with _tippingPoint := s._currentStandingHeight
                   _sitStandStateTimer := 0 }
    else
      setIsInSittingState
        { s with _averageUserHeightSensorSpace := s._userHeight
                 _tippingPoint := s._userHeight } false
  else s

/-- Feeds a sequence of head-height samples, each with its own `dt`, to
`updateSitStandState`, one call per sample. -/
def feedSitStand (s : SitStandState) (samples : List (ℚ × ℚ)) : SitStandState :=
  samples.foldl (fun st p => updateSitStandState st p.1 p.2) s

/-- The sitting flag observed after each sample of a sequence. -/
def sittingTrace : SitStandState → List (ℚ × ℚ) → List Bool
  | _, [] => []
  | s, p :: rest =>
    (updateSitStandState s p.1 p.2)._isInSittingState ::
      sittingTrace (updateSitStandState s p.1 p.2) rest

/-- Number of standing-to-sitting switches along a trace of sitting flags that
starts from the flag `before`. -/
def countSitTransitions : Bool → List Bool → Nat
  | _, [] => 0
  | before, b :: rest =>
    (if !before && b then 1 else 0) + countSitTransitions b rest

/-- The scenario head heights `[1.7, 1.7, 1.7, 1.65, 1.1, 1.1, 1.1, 1.1]`,
each sampled with `dt = 1` second. -/
def scenarioSamples : List (ℚ × ℚ) :=
  [(17 / 10, 1), (17 / 10, 1), (17 / 10, 1), (165 / 100, 1),
   (11 / 10, 1), (11 / 10, 1), (11 / 10, 1), (11 / 10, 1)]

/-- The scenario start: unlocked, tracked, not away, standing, tipping point
and standing-height mode 1.7 m, timer 0. -/
def scenarioStart : SitStandState :=
  { _lockSitStandState := false
    _isAway := false
    headPoseValid := true
    _isInSittingState := false
    _tippingPoint := 17 / 10
    _averageUserHeightSensorSpace := 17 / 10
    _sitStandStateTimer := 0
    _squatTimer := 0
    _userHeight := 17 / 10
    _currentStandingHeight := 17 / 10
    _resetMode := false
    _centerOfGravityModelEnabled := true
    _sitStandStateChange := false }

/-- The state `s` with its tipping point and sit/stand timer replaced. -/
def standingAt (s : SitStandState) (tippingPoint timer : ℚ) : SitStandState :=
  { s with _tippingPoint := tippingPoint, _sitStandStateTimer := timer }

/-! ## Drive keys -/

/-- The drive-key members: `_driveKeys` is a `std::array<float, MAX_DRIVE_KEYS>`
and `_disabledDriveKeys` a `std::bitset<MAX_DRIVE_KEYS>`.  The enum constant
`MAX_DRIVE_KEYS` is declared outside this file and is a parameter here. -/
structure DriveKeyState (MAX_DRIVE_KEYS : Nat) where
  _driveKeys : Fin MAX_DRIVE_KEYS → ℚ
  _disabledDriveKeys : Fin MAX_DRIVE_KEYS → Bool

/-- Bounds check shared by `std::array::at` and `std::bitset::set/reset/test`:
the enum value converts to an unsigned index, so a negative value or one at or
beyond `n` throws (`none`). -/
def checkedIndex (n : Nat) (key : Int) : Option (Fin n) :=
  if h : 0 ≤ key ∧ key.toNat < n then some ⟨key.toNat, h.2⟩ else none

/-- `MyAvatar::setDriveKey`: the exception of an out-of-range index is caught
and logged, leaving the state as it was. -/
def setDriveKey {n : Nat} (s : DriveKeyState n) (key : Int) (val : ℚ) : DriveKeyState n :=
  match checkedIndex n key with
  | some i => { s with _driveKeys := Function.update s._driveKeys i val }
  | none => s

/-- `MyAvatar::getRawDriveKey`. -/
def getRawDriveKey {n : Nat} (s : DriveKeyState n) (key : Int) : ℚ :=
  match checkedIndex n key with
  | some i => s._driveKeys i
  | none => 0

/-- `MyAvatar::disableDriveKey`. -/
def disableDriveKey {n : Nat} (s : DriveKeyState n) (key : Int) : DriveKeyState n :=
  match checkedIndex n key with
  | some i => { s with _disabledDriveKeys := Function.update s._disabledDriveKeys i true }
  | none => s

/-- `MyAvatar::enableDriveKey`. -/
def enableDriveKey {n : Nat} (s : DriveKeyState n) (key : Int) : DriveKeyState n :=
  match checkedIndex n key with
  | some i => { s with _disabledDriveKeys := Function.update s._disabledDriveKeys i false }
  | none => s

/-- `MyAvatar::isDriveKeyDisabled`: an out-of-range index reads as disabled. -/
def isDriveKeyDisabled {n : Nat} (s : DriveKeyState n) (key : Int) : Bool :=
  match checkedIndex n key with
  | some i => s._disabledDriveKeys i
  | none => true

/-- `MyAvatar::getDriveKey`. -/
def getDriveKey {n : Nat} (s : DriveKeyState n) (key : Int) : ℚ :=
  if isDriveKeyDisabled s key then 0 else getRawDriveKey s key

/-- `MyAvatar::clearDriveKeys`. -/
def clearDriveKeys {n : Nat} (s : DriveKeyState n) : DriveKeyState n :=
  { s with _driveKeys := fun _ => 0 }

/-- A state with twelve drive keys, all raw values 0.75 and no key disabled. -/
def pushedDriveKeys : DriveKeyState 12 :=
  { _driveKeys := fun _ => 3 / 4, _disabledDriveKeys := fun _ => false }

/-- A state with twelve drive keys, all raw values 0 and no key disabled. -/
def idleDriveKeys : DriveKeyState 12 :=
  { _driveKeys := fun _ => 0, _disabledDriveKeys := fun _ => false }

/-! ## Safe landing probe (`requiresSafeLanding`) -/

/-- A `glm::vec3` with exact coordinates. -/
structure Vec3 where
  x : ℚ
  y : ℚ
  z : ℚ
  deriving DecidableEq

/-- Component-wise sum of two vectors. -/
def Vec3.add (a b : Vec3) : Vec3 := ⟨a.x + b.x, a.y + b.y, a.z + b.z⟩

/-- A vector times a scalar. -/
def Vec3.scale (a : Vec3) (k : ℚ) : Vec3 := ⟨a.x * k, a.y * k, a.z * k⟩

/-- Unary minus on vectors. -/
def Vec3.neg (a : Vec3) : Vec3 := ⟨-a.x, -a.y, -a.z⟩

/-- Squared Euclidean distance between two points. -/
def Vec3.distanceSq (a b : Vec3) : ℚ :=
  (a.x - b.x) ^ 2 + (a.y - b.y) ^ 2 + (a.z - b.z) ^ 2

/-- The test `glm::distance(a, b) > c` in exact arithmetic: a square root
exceeds `c` exactly when `c` is negative or the radicand exceeds `c * c`. -/
def Vec3.distanceExceeds (a b : Vec3) (c : ℚ) : Bool :=
  decide (c < 0) || decide (c * c < Vec3.distanceSq a b)

/-- Entity identifiers (`EntityItemID`, a `QUuid`). -/
abbrev EntityItemID := Nat

/-- What `evalRayIntersection` reports for a ray that hits an entity. -/
structure RayHit where
  entityID : EntityItemID
  distance : ℚ
  normal : Vec3

/-- The entity tree as seen by the probe: `evalRayIntersection(start,
direction, include, ignore, ...)`, returning `none` for the null entity ID. -/
abbrev RayOracle := Vec3 → Vec3 → List EntityItemID → List EntityItemID → Option RayHit

/-- Everything `requiresSafeLanding` reads besides its arguments: `getHeight()`,
the entity tree (absent when the pointer is null), `_worldUpDirection`, the
constant `TREE_SCALE`, and the predicates `isUp` / `isDown` on surface normals
(both declared outside this file). -/
structure LandingEnv where
  height : ℚ
  entityTree : Option RayOracle
  _worldUpDirection : Vec3
  TREE_SCALE : ℚ
  isUp : Vec3 → Bool
  isDown : Vec3 → Bool

/-- The lambda `findIntersection`: on a hit, the intersection point
`start + direction * distance`, the entity hit and the surface normal. -/
def findIntersection (ray : RayOracle) (startPointIn directionIn : Vec3)
    (includeIds ignoreIds : List EntityItemID) : Option (Vec3 × EntityItemID × Vec3) :=
  match ray startPointIn directionIn includeIds ignoreIds with
  | none => none
  | some hit =>
    some (startPointIn.add (directionIn.scale hit.distance), hit.entityID, hit.normal)

/-- The lambda `mustMove`: the better position is the hit point plus `up` times
the half height, and the answer is `true`. -/
def mustMove (up upperIntersection : Vec3) (halfHeight : ℚ) : Bool × Vec3 :=
  (true, upperIntersection.add (up.scale halfHeight))

/-- The constant `halfHeightFactor` (2.25). -/
def halfHeightFactor : ℚ := 225 / 100

/-- The constant `iterationLimit` of the upward clearing search. -/
def iterationLimit : Nat := 1000

/-- Outcome of the upward clearing search: either the function returns with a
result, or the loop runs out of iterations with the last hit above and the
grown ignore list. -/
inductive ClearingOutcome where
  | returned (result : Bool × Vec3)
  | exhausted (upperIntersection : Vec3) (upperId : EntityItemID) (ignore : List EntityItemID)

/-- The `for` loop of `requiresSafeLanding`, with the number of remaining
iterations as its first argument.  Each iteration ignores the entity last hit
and re-casts upward from the last hit point: a miss returns `false`, a hit on an
upward-facing surface returns `mustMove()`, any other hit continues. -/
def clearingSearch (env : LandingEnv) (ray : RayOracle) (up : Vec3) (halfHeight : ℚ)
    (betterPositionOut : Vec3) :
    Nat → Vec3 → EntityItemID → List EntityItemID → ClearingOutcome
  | 0, upperIntersection, upperId, ignore =>
    ClearingOutcome.exhausted upperIntersection upperId ignore
  | remaining + 1, upperIntersection, upperId, ignore =>
    let ignore1 := ignore ++ [upperId]
    match findIntersection ray upperIntersection up [] ignore1 with
    | none => ClearingOutcome.returned (false, betterPositionOut)
    | some (upperIntersection1, upperId1, upperNormal1) =>
      if env.isUp upperNormal1 then
        ClearingOutcome.returned (mustMove up upperIntersection1 halfHeight)
      else
        clearingSearch env ray up halfHeight betterPositionOut remaining
          upperIntersection1 upperId1 ignore1

/-- The last part of `requiresSafeLanding`: include only the entity last hit
above and cast straight down from `TREE_SCALE` above the capsule centre. -/
def castFromAbove (env : LandingEnv) (ray : RayOracle) (capsuleCenter up : Vec3)
    (halfHeight : ℚ) (betterPositionOut : Vec3) (upperId : EntityItemID)
    (ignore : List EntityItemID) : Bool × Vec3 :=
  let includeIds := [upperId]
  let skyHigh := up.scale env.TREE_SCALE
  let fromAbove := capsuleCenter.add skyHigh
  match findIntersection ray fromAbove up.neg includeIds ignore with
  | none => (false, betterPositionOut)
  | some (upperIntersection, _, _) => mustMove up upperIntersection halfHeight

/-- `MyAvatar::requiresSafeLanding(positionIn, betterPositionOut)`: the returned
pair is the answer and the value of `betterPositionOut` after the call. -/
def requiresSafeLanding (env : LandingEnv) (positionIn betterPositionOut : Vec3) :
    Bool × Vec3 :=
  let halfHeight := 1 / 2 * env.height
  if halfHeight = 0 then (false, betterPositionOut)
  else
    match env.entityTree with
    | none => (false, betterPositionOut)
    | some ray =>
      let capsuleCenter := positionIn
      let up := env._worldUpDirection
      let down := up.neg
      match findIntersection ray capsuleCenter up [] [] with
      | none => (false, betterPositionOut)
      | some (upperIntersection, upperId, upperNormal) =>
        match findIntersection ray capsuleCenter down [] [] with
        | none => (false, betterPositionOut)
        | some (lowerIntersection, _, lowerNormal) =>
          if env.isDown upperNormal && env.isUp lowerNormal then
            if Vec3.distanceExceeds upperIntersection lowerIntersection
                (halfHeightFactor * halfHeight) then
              match clearingSearch env ray up halfHeight betterPositionOut iterationLimit
                  upperIntersection upperId [] with
              | ClearingOutcome.returned result => result
              | ClearingOutcome.exhausted _ upperId1 ignore1 =>
                castFromAbove env ray capsuleCenter up halfHeight betterPositionOut
                  upperId1 ignore1
            else
              castFromAbove env ray capsuleCenter up halfHeight betterPositionOut upperId []
          else
            castFromAbove env ray capsuleCenter up halfHeight betterPositionOut upperId []

/-- The clearing search ends in "nothing more above": within the given number
of re-casts (each from the previous hit point, ignoring every entity hit so
far) a re-cast misses before any re-cast hits an upward-facing surface. -/
def clearAbove (env : LandingEnv) (ray : RayOracle) (up : Vec3) :
    Nat → Vec3 → EntityItemID → List EntityItemID → Prop
  | 0, _, _, _ => False
  | remaining + 1, upperIntersection, upperId, ignore =>
    match ray upperIntersection up [] (ignore ++ [upperId]) with
    | none => True
    | some hit =>
      env.isUp hit.normal = false ∧
        clearAbove env ray up remaining
          (upperIntersection.add (up.scale hit.distance)) hit.entityID (ignore ++ [upperId])

/-- Ray answers of `enclosedScene`: a cast with an empty ignore list hits the
underside of entity 1 five metres up or the top of entity 2 five metres down;
every cast that ignores some entity hits the top surface of entity 3 one metre
further. -/
def enclosedRay : RayOracle := fun _ direction _ ignore =>
  if ignore = [] then
    if direction.y > 0 then some ⟨1, 5, ⟨0, -1, 0⟩⟩ else some ⟨2, 5, ⟨0, 1, 0⟩⟩
  else some ⟨3, 1, ⟨0, 1, 0⟩⟩

/-- Ray answers of `roomScene`: a ceiling (entity 1) five metres up, a floor
(entity 2) five metres down, and a miss for every cast that ignores some
entity. -/
def roomRay : RayOracle := fun _ direction _ ignore =>
  if ignore = [] then
    if direction.y > 0 then some ⟨1, 5, ⟨0, -1, 0⟩⟩ else some ⟨2, 5, ⟨0, 1, 0⟩⟩
  else none

/-- Ray answers of `ceilingOnlyScene`: upward casts hit entity 1, downward casts
miss. -/
def ceilingOnlyRay : RayOracle := fun _ direction _ _ =>
  if direction.y > 0 then some ⟨1, 5, ⟨0, -1, 0⟩⟩ else none

/-- A scene for the examples: world up is `+y`, avatar height 2 m, and an
entity 3 that encloses the candidate position. -/
def enclosedScene : LandingEnv :=
  { height := 2
    entityTree := some enclosedRay
    _worldUpDirection := ⟨0, 1, 0⟩
    TREE_SCALE := 32768
    isUp := fun n => decide (n.y > 0)
    isDown := fun n => decide (n.y < 0) }

/-- A scene with a ceiling and a floor and nothing else: the upward cast from
the centre hits the underside of entity 1 five metres up, the downward cast hits
the top of entity 2 five metres down, and every cast that ignores some entity
misses. -/
def roomScene : LandingEnv :=
  { height := 2
    entityTree := some roomRay
    _worldUpDirection := ⟨0, 1, 0⟩
    TREE_SCALE := 32768
    isUp := fun n => decide (n.y > 0)
    isDown := fun n => decide (n.y < 0) }

/-- A scene with a ceiling only: the upward cast hits entity 1, every downward
cast misses. -/
def ceilingOnlyScene : LandingEnv :=
  { height := 2
    entityTree := some ceilingOnlyRay
    _worldUpDirection := ⟨0, 1, 0⟩
    TREE_SCALE := 32768
    isUp := fun n => decide (n.y > 0)
    isDown := fun n => decide (n.y < 0) }

/-! ## Avatar-entity reconciliation (`handleChangedAvatarEntityData`) -/

/-- Identifiers (`QUuid`); `0` stands for the null UUID. -/
abbrev QUuid := Nat

/-- The null UUID, `QUuid()`. -/
def nullUuid : QUuid := 0

/-- The sentinel `AVATAR_SELF_ID` (the UUID `...0001`). -/
def AVATAR_SELF_ID : QUuid := 1

/-- A serialized property blob (`QByteArray`). -/
abbrev Blob := List Nat

/-- An `AvatarEntityMap` (`QMap<QUuid, QByteArray>`) as an association list
with at most one entry per key. -/
abbrev AvatarEntityMap := List (QUuid × Blob)

/-- The lookup `QMap::find(id)`, `none` for `end()`. -/
def AvatarEntityMap.find (m : AvatarEntityMap) (id : QUuid) : Option Blob :=
  (List.find? (fun p => p.1 == id) m).map Prod.snd

/-- The removal `QMap::erase` of the entry found for `id`. -/
def AvatarEntityMap.erase (m : AvatarEntityMap) (id : QUuid) : AvatarEntityMap :=
  List.filter (fun p => p.1 != id) m

/-- The assignment `m[id] = blob` / `QMap::insert`: replaces an existing entry. -/
def AvatarEntityMap.insert (m : AvatarEntityMap) (id : QUuid) (blob : Blob) :
    AvatarEntityMap :=
  (id, blob) :: AvatarEntityMap.erase m id

/-- The values of `entity::HostType` used here. -/
inductive HostType where
  | DOMAIN
  | AVATAR
  | LOCAL
  deriving DecidableEq, Repr

/-- The fields of `EntityItemProperties` touched by the sanitizer, plus the
remaining properties carried along as `payload`. -/
structure EntityItemProperties where
  entityHostType : HostType
  owningAvatarID : QUuid
  simulationOwnerID : QUuid
  simulationOwnerPriority : Nat
  parentID : QUuid
  allChanged : Bool
  payload : List Nat
  deriving DecidableEq

/-- What the pass reads from outside `MyAvatar`: the node list session UUID,
whether the entity tree exists, the blob decoder
`EntityItemProperties::blobToProperties` (`none` when it fails), the answers of
`addEntity` (non-null entity) and `updateEntity`, the constant
`AVATAR_ENTITY_SIMULATION_PRIORITY`, whether a client traits handler exists,
and the settings entries read on a reload, each paired with the fresh UUID
generated for it. -/
structure ReconcilerEnv where
  nodeSessionUUID : QUuid
  entityTreeExists : Bool
  blobToProperties : Blob → Option EntityItemProperties
  addEntitySucceeds : QUuid → EntityItemProperties → Bool
  updateEntitySucceeds : QUuid → EntityItemProperties → Bool
  AVATAR_ENTITY_SIMULATION_PRIORITY : Nat
  hasClientTraitsHandler : Bool
  settingsEntities : List (QUuid × Blob)

/-- The avatar-entity members of `MyAvatar` (and of its base `AvatarData`). -/
structure AvatarEntityState where
  sessionID : QUuid
  _reloadAvatarEntityDataFromSettings : Bool
  _needToSaveAvatarEntitySettings : Bool
  _cachedAvatarEntityBlobs : AvatarEntityMap
  _packedAvatarEntityData : AvatarEntityMap
  _entitiesToDelete : List QUuid
  _entitiesToAdd : List QUuid
  _entitiesToUpdate : List QUuid
  _cachedAvatarEntityBlobsToDelete : List QUuid
  _cachedAvatarEntityBlobsToAddOrUpdate : List QUuid
  _cachedAvatarEntityBlobUpdatesToSkip : List QUuid
  _staleCachedAvatarEntityBlobs : List QUuid
  deriving DecidableEq

/-- Calls made on the entity tree, the packet sender and the traits handler,
in program order. -/
inductive Effect where
  | deleteEntity (id : QUuid)
  | addEntity (id : QUuid) (properties : EntityItemProperties)
  | updateEntity (id : QUuid) (properties : EntityItemProperties)
  | queueEditAvatarEntityMessage (id : QUuid)
  | markInstancedTraitDeleted (id : QUuid)
  deriving DecidableEq

/-- `MyAvatar::sanitizeAvatarEntityProperties`. -/
def sanitizeAvatarEntityProperties (env : ReconcilerEnv) (myID : QUuid)
    (properties : EntityItemProperties) : EntityItemProperties :=
  let p1 := { properties with entityHostType := HostType.AVATAR }
  let p2 := { p1 with owningAvatarID := myID }
  let p3 := { p2 with simulationOwnerID := myID
                      simulationOwnerPriority := env.AVATAR_ENTITY_SIMULATION_PRIORITY }
  let p4 := if p3.parentID = AVATAR_SELF_ID then { p3 with parentID := myID } else p3
  { p4 with allChanged := true }

/-- The `while` loop of the lambda `removeAllInstancesHelper`: at index `i`, a
match is overwritten by the last element, which is then popped (the index
stays); otherwise the index advances.  The first argument bounds the number of
iterations. -/
def removeAllInstancesLoop (id : QUuid) : Nat → Nat → List QUuid → List QUuid
  | 0, _, v => v
  | fuel + 1, i, v =>
    if i < v.length then
      if id = v.getD i id then
        removeAllInstancesLoop id fuel i (List.dropLast (List.set v i (v.getLastD id)))
      else
        removeAllInstancesLoop id fuel (i + 1) v
    else v

/-- The lambda `removeAllInstancesHelper(id, v)`; `v.length` iterations are
enough, since every iteration either shortens `v` or advances the index. -/
def removeAllInstancesHelper (id : QUuid) (v : List QUuid) : List QUuid :=
  removeAllInstancesLoop id v.length 0 v

/-- The search loop over `_cachedAvatarEntityBlobUpdatesToSkip` in the
"ADD/UPDATE cached blobs" step: the first match is overwritten by the last
element, which is popped, and the loop breaks with `skip = true`. -/
def removeOneSkip (id : QUuid) : Nat → Nat → List QUuid → Bool × List QUuid
  | 0, _, v => (false, v)
  | fuel + 1, i, v =>
    if i < v.length then
      if id = v.getD i id then
        (true, List.dropLast (List.set v i (v.getLastD id)))
      else
        removeOneSkip id fuel (i + 1) v
    else (false, v)

/-- Insertion into the `std::set` of stale blob IDs. -/
def staleInsert (stale : List QUuid) (id : QUuid) : List QUuid :=
  if id ∈ stale then stale else List.insertionSort (fun a b => a ≤ b) (id :: stale)

/-- `MyAvatar::loadAvatarEntityDataFromSettings`: clears the pending entity
lists and the packed data, then caches every settings blob under its fresh
UUID, queues it for addition and marks its next save-back to be skipped. -/
def loadAvatarEntityDataFromSettings (env : ReconcilerEnv) (s : AvatarEntityState) :
    AvatarEntityState :=
  let s1 := { s with _packedAvatarEntityData := []
                     _entitiesToDelete := []
                     _entitiesToAdd := []
                     _entitiesToUpdate := []
                     _reloadAvatarEntityDataFromSettings := false
                     _needToSaveAvatarEntitySettings := false }
  env.settingsEntities.foldl
    (fun st p =>
      { st with _cachedAvatarEntityBlobs := st._cachedAvatarEntityBlobs.insert p.1 p.2
                _entitiesToAdd := st._entitiesToAdd ++ [p.1]
                _cachedAvatarEntityBlobUpdatesToSkip :=
                  st._cachedAvatarEntityBlobUpdatesToSkip ++ [p.1] })
    s1

/-- The five local vectors into which the pass moves the pending lists. -/
structure PendingLists where
  cachedBlobsToDelete : List QUuid
  cachedBlobsToUpdate : List QUuid
  entitiesToDelete : List QUuid
  entitiesToAdd : List QUuid
  entitiesToUpdate : List QUuid
  deriving DecidableEq

/-- The three loops under "remove delete-add and delete-update overlap":
every ID of `entitiesToDelete` is removed from `cachedBlobsToUpdate`,
`entitiesToAdd` and `entitiesToUpdate`; every ID of `cachedBlobsToDelete` is
removed from `entitiesToUpdate` and `cachedBlobsToUpdate`; every ID of
`entitiesToAdd` is removed from `entitiesToUpdate`. -/
def removeOverlap (l : PendingLists) : PendingLists :=
  let l1 := l.entitiesToDelete.foldl
    (fun acc id =>
      { acc with cachedBlobsToUpdate := removeAllInstancesHelper id acc.cachedBlobsToUpdate
                 entitiesToAdd := removeAllInstancesHelper id acc.entitiesToAdd
                 entitiesToUpdate := removeAllInstancesHelper id acc.entitiesToUpdate })
    l
  let l2 := l1.cachedBlobsToDelete.foldl
    (fun acc id =>
      { acc with entitiesToUpdate := removeAllInstancesHelper id acc.entitiesToUpdate
                 cachedBlobsToUpdate := removeAllInstancesHelper id acc.cachedBlobsToUpdate })
    l1
  l2.entitiesToAdd.foldl
    (fun acc id =>
      { acc with entitiesToUpdate := removeAllInstancesHelper id acc.entitiesToUpdate })
    l2

/-- The loop "ADD real entities": a missing or undecodable blob removes the ID
from the skip list and continues; otherwise the sanitized properties are added
to the tree and, if an entity results, an edit message is queued. -/
def addRealEntities (env : ReconcilerEnv) (myID : QUuid) (cached : AvatarEntityMap)
    (entitiesToAdd : List QUuid) (skipList : List QUuid) : List QUuid × List Effect :=
  entitiesToAdd.foldl
    (fun acc id =>
      match (cached.find id).bind env.blobToProperties with
      | none => (removeAllInstancesHelper id acc.1, acc.2)
      | some properties =>
        let sanitized := sanitizeAvatarEntityProperties env myID properties
        (acc.1, acc.2 ++ [Effect.addEntity id sanitized] ++
          (if env.addEntitySucceeds id sanitized then
            [Effect.queueEditAvatarEntityMessage id] else [])))
    (skipList, [])

/-- The loop "CHANGE real entities": a missing or undecodable blob is skipped;
otherwise the sanitized properties update the tree entity and, on success, an
edit message is queued. -/
def changeRealEntities (env : ReconcilerEnv) (myID : QUuid) (cached : AvatarEntityMap)
    (entitiesToUpdate : List QUuid) : List Effect :=
  entitiesToUpdate.foldl
    (fun acc id =>
      match (cached.find id).bind env.blobToProperties with
      | none => acc
      | some properties =>
        let sanitized := sanitizeAvatarEntityProperties env myID properties
        acc ++ [Effect.updateEntity id sanitized] ++
          (if env.updateEntitySucceeds id sanitized then
            [Effect.queueEditAvatarEntityMessage id] else []))
    []

/-- The loop "DELETE cached blobs". -/
def deleteCachedBlobs (s : AvatarEntityState) (cachedBlobsToDelete : List QUuid) :
    AvatarEntityState :=
  cachedBlobsToDelete.foldl
    (fun st id =>
      let st1 :=
        if (st._cachedAvatarEntityBlobs.find id).isSome then
          { st with _cachedAvatarEntityBlobs := st._cachedAvatarEntityBlobs.erase id
                    _needToSaveAvatarEntitySettings := true }
        else st
      { st1 with
        _staleCachedAvatarEntityBlobs := List.filter (fun x => x != id)
          st1._staleCachedAvatarEntityBlobs
        _cachedAvatarEntityBlobUpdatesToSkip :=
          removeAllInstancesHelper id st1._cachedAvatarEntityBlobUpdatesToSkip })
    s

/-- The loop "ADD/UPDATE cached blobs": an ID found in the skip list loses one
occurrence there; any other ID is marked stale and the save flag is raised. -/
def markStaleBlobs (s : AvatarEntityState) (cachedBlobsToUpdate : List QUuid) :
    AvatarEntityState :=
  cachedBlobsToUpdate.foldl
    (fun st id =>
      let r := removeOneSkip id st._cachedAvatarEntityBlobUpdatesToSkip.length 0
        st._cachedAvatarEntityBlobUpdatesToSkip
      let st1 := { st with _cachedAvatarEntityBlobUpdatesToSkip := r.2 }
      if r.1 then st1
      else
        { st1 with _staleCachedAvatarEntityBlobs := staleInsert st1._staleCachedAvatarEntityBlobs id
                   _needToSaveAvatarEntitySettings := true })
    s

/-- The block "DELETE traits". -/
def deleteTraits (env : ReconcilerEnv) (packed : AvatarEntityMap)
    (entitiesToDelete cachedBlobsToDelete : List QUuid) : List Effect :=
  if env.hasClientTraitsHandler then
    ((entitiesToDelete.filter (fun id => (packed.find id).isSome)).map
        Effect.markInstancedTraitDeleted) ++
      ((cachedBlobsToDelete.filter (fun id => (packed.find id).isSome)).map
        Effect.markInstancedTraitDeleted)
  else []

/-- `MyAvatar::handleChangedAvatarEntityData`: the state after the pass and the
calls it made, in order. -/
def handleChangedAvatarEntityData (env : ReconcilerEnv) (s : AvatarEntityState) :
    AvatarEntityState × List Effect :=
  if s.sessionID = nullUuid ∨ s.sessionID = AVATAR_SELF_ID ∨ env.nodeSessionUUID = nullUuid then
    (s, [])
  else
    let s0 := if s._reloadAvatarEntityDataFromSettings then
      loadAvatarEntityDataFromSettings env s else s
    if !env.entityTreeExists then (s0, [])
    else
      let moved : PendingLists :=
        { cachedBlobsToDelete := s0._cachedAvatarEntityBlobsToDelete
          cachedBlobsToUpdate := s0._cachedAvatarEntityBlobsToAddOrUpdate
          entitiesToDelete := s0._entitiesToDelete
          entitiesToAdd := s0._entitiesToAdd
          entitiesToUpdate := s0._entitiesToUpdate }
      let s1 := { s0 with _cachedAvatarEntityBlobsToDelete := []
                          _cachedAvatarEntityBlobsToAddOrUpdate := []
                          _entitiesToDelete := []
                          _entitiesToAdd := []
                          _entitiesToUpdate := [] }
      let l := removeOverlap moved
      let deleted := l.entitiesToDelete.map Effect.deleteEntity
      let added := addRealEntities env s1.sessionID s1._cachedAvatarEntityBlobs
        l.entitiesToAdd s1._cachedAvatarEntityBlobUpdatesToSkip
      let s2 := { s1 with _cachedAvatarEntityBlobUpdatesToSkip := added.1 }
      let changed := changeRealEntities env s2.sessionID s2._cachedAvatarEntityBlobs
        l.entitiesToUpdate
      let s3 := deleteCachedBlobs s2 l.cachedBlobsToDelete
      let s4 := markStaleBlobs s3 l.cachedBlobsToUpdate
      let traits := deleteTraits env s4._packedAvatarEntityData l.entitiesToDelete
        l.cachedBlobsToDelete
      (s4, deleted ++ added.2 ++ changed ++ traits)

/-- No `addEntity` and no `updateEntity` call for `id` occurs among the effects. -/
def noAddOrUpdateFor (id : QUuid) (effects : List Effect) : Bool :=
  effects.all (fun e =>
    match e with
    | Effect.addEntity i _ => i != id
    | Effect.updateEntity i _ => i != id
    | _ => true)

/-- A decoder that accepts every blob and yields domain-hosted properties with
the blob as payload. -/
def decodeAny (blob : Blob) : Option EntityItemProperties :=
  some { entityHostType := HostType.DOMAIN, owningAvatarID := 0, simulationOwnerID := 0,
         simulationOwnerPriority := 0, parentID := 0, allChanged := false, payload := blob }

/-- An environment in which the tree exists and every call succeeds. -/
def permissiveEnv : ReconcilerEnv :=
  { nodeSessionUUID := 42
    entityTreeExists := true
    blobToProperties := decodeAny
    addEntitySucceeds := fun _ _ => true
    updateEntitySucceeds := fun _ _ => true
    AVATAR_ENTITY_SIMULATION_PRIORITY := 129
    hasClientTraitsHandler := true
    settingsEntities := [] }

/-- The state reached when, within one frame, a script calls
`updateAvatarEntity(7, blob)` for an ID that was not cached (the blob is cached
and 7 is queued in `_entitiesToAdd`) and then `clearAvatarEntity(7)` (7 is
queued in `_cachedAvatarEntityBlobsToDelete`). -/
def addThenClearState : AvatarEntityState :=
  { sessionID := 42
    _reloadAvatarEntityDataFromSettings := false
    _needToSaveAvatarEntitySettings := true
    _cachedAvatarEntityBlobs := [(7, [1, 2, 3])]
    _packedAvatarEntityData := []
    _entitiesToDelete := []
    _entitiesToAdd := [7]
    _entitiesToUpdate := []
    _cachedAvatarEntityBlobsToDelete := [7]
    _cachedAvatarEntityBlobsToAddOrUpdate := []
    _cachedAvatarEntityBlobUpdatesToSkip := []
    _staleCachedAvatarEntityBlobs := [] }

/-- Removal of every ID of `ids` from `v`, one `removeAllInstancesHelper` call
per ID, as the overlap loops do for each target vector. -/
def removeEach (ids v : List QUuid) : List QUuid :=
  ids.foldl (fun acc id => removeAllInstancesHelper id acc) v

/-- No `updateEntity` call for `id` occurs among the effects. -/
def noUpdateFor (id : QUuid) (effects : List Effect) : Bool :=
  effects.all (fun e =>
    match e with
    | Effect.updateEntity i _ => i != id
    | _ => true)

/-! ## Replacing the avatar-entity data (`setAvatarEntityData`) -/

/-- `MyAvatar::setAvatarEntityData`; the constant `MAX_NUM_AVATAR_ENTITIES` is
declared outside this file and is a parameter.  The input map is walked in the
order of its entries. -/
def setAvatarEntityData (MAX_NUM_AVATAR_ENTITIES : Nat) (s : AvatarEntityState)
    (avatarEntityData : AvatarEntityMap) : AvatarEntityState :=
  if avatarEntityData.length > MAX_NUM_AVATAR_ENTITIES then s
  else
    let s1 := { s with _packedAvatarEntityData := []
                       _entitiesToDelete := []
                       _entitiesToAdd := []
                       _entitiesToUpdate := []
                       _needToSaveAvatarEntitySettings := true }
    let s2 := avatarEntityData.foldl
      (fun st p =>
        if (st._cachedAvatarEntityBlobs.find p.1).isNone then
          { st with _entitiesToAdd := st._entitiesToAdd ++ [p.1] }
        else
          { st with _entitiesToUpdate := st._entitiesToUpdate ++ [p.1] })
      s1
    let deletedIDs := (s2._cachedAvatarEntityBlobs.map Prod.fst).filter
      (fun id => decide (id ∉ s2._entitiesToUpdate))
    let s3 := { s2 with _cachedAvatarEntityBlobs :=
      s2._cachedAvatarEntityBlobs.filter (fun p => decide (p.1 ∈ s2._entitiesToUpdate)) }
    let s4 := { s3 with _cachedAvatarEntityBlobs :=
      avatarEntityData.foldl (fun m p => m.insert p.1 p.2) s3._cachedAvatarEntityBlobs }
    deletedIDs.foldl
      (fun st id =>
        { st with _packedAvatarEntityData := st._packedAvatarEntityData.erase id
                  _entitiesToDelete := st._entitiesToDelete ++ [id] })
      s4

/-- A state with two cached blobs, pending work in every list, and nothing to
save. -/
def busyEntityState : AvatarEntityState :=
  { sessionID := 42
    _reloadAvatarEntityDataFromSettings := false
    _needToSaveAvatarEntitySettings := false
    _cachedAvatarEntityBlobs := [(5, [1]), (6, [2])]
    _packedAvatarEntityData := [(5, [9])]
    _entitiesToDelete := [3]
    _entitiesToAdd := [6]
    _entitiesToUpdate := [5]
    _cachedAvatarEntityBlobsToDelete := []
    _cachedAvatarEntityBlobsToAddOrUpdate := []
    _cachedAvatarEntityBlobUpdatesToSkip := []
    _staleCachedAvatarEntityBlobs := [] }

/-- A decoder that rejects every blob. -/
def decodeNone (_blob : Blob) : Option EntityItemProperties := none

/-- An environment in which the tree exists but no blob can be decoded. -/
def corruptBlobEnv : ReconcilerEnv :=
  { nodeSessionUUID := 42
    entityTreeExists := true
    blobToProperties := decodeNone
    addEntitySucceeds := fun _ _ => true
    updateEntitySucceeds := fun _ _ => true
    AVATAR_ENTITY_SIMULATION_PRIORITY := 129
    hasClientTraitsHandler := true
    settingsEntities := [] }

/-- A state with entity 7 queued for update while 7 is also in the
skip-next-save list, and entity 8 queued for addition and in the skip list. -/
def failedUpdateState : AvatarEntityState :=
  { sessionID := 42
    _reloadAvatarEntityDataFromSettings := false
    _needToSaveAvatarEntitySettings := false
    _cachedAvatarEntityBlobs := [(7, [1, 2, 3]), (8, [4])]
    _packedAvatarEntityData := []
    _entitiesToDelete := []
    _entitiesToAdd := [8]
    _entitiesToUpdate := [7]
    _cachedAvatarEntityBlobsToDelete := []
    _cachedAvatarEntityBlobsToAddOrUpdate := []
    _cachedAvatarEntityBlobUpdatesToSkip := [7, 8]
    _staleCachedAvatarEntityBlobs := [] }

/-- The state in which the pass moves its lists: after the reload from
settings when one is pending, the given state otherwise. -/
def passStart (env : ReconcilerEnv) (s : AvatarEntityState) : AvatarEntityState :=
  if s._reloadAvatarEntityDataFromSettings then loadAvatarEntityDataFromSettings env s else s

/-- The pass gets past its two early returns: the avatar and the node have
session IDs and the entity tree exists. -/
def passRuns (env : ReconcilerEnv) (s : AvatarEntityState) : Prop :=
  ¬ (s.sessionID = nullUuid ∨ s.sessionID = AVATAR_SELF_ID ∨ env.nodeSessionUUID = nullUuid) ∧
    env.entityTreeExists = true

/-- The vectors `entitiesToAdd` and `entitiesToUpdate` the pass walks, after the
overlap removal. -/
def passLists (env : ReconcilerEnv) (s : AvatarEntityState) : PendingLists :=
  removeOverlap
    { cachedBlobsToDelete := (passStart env s)._cachedAvatarEntityBlobsToDelete
      cachedBlobsToUpdate := (passStart env s)._cachedAvatarEntityBlobsToAddOrUpdate
      entitiesToDelete := (passStart env s)._entitiesToDelete
      entitiesToAdd := (passStart env s)._entitiesToAdd
      entitiesToUpdate := (passStart env s)._entitiesToUpdate }

/-- The cached blob of `id` is missing or fails to deserialize. -/
def blobFails (env : ReconcilerEnv) (cached : AvatarEntityMap) (id : QUuid) : Prop :=
  (cached.find id).bind env.blobToProperties = none

/-! ## Body frame from the head pose (`deriveBodyFromHMDSensor`) -/

/-- A `glm::vec2`. -/
structure Vec2 where
  x : ℚ
  y : ℚ
  deriving DecidableEq

/-- A `glm::vec4`. -/
structure Vec4 where
  x : ℚ
  y : ℚ
  z : ℚ
  w : ℚ
  deriving DecidableEq

/-- A `glm::quat`. -/
structure Quat where
  w : ℚ
  x : ℚ
  y : ℚ
  z : ℚ
  deriving DecidableEq

/-- A `glm::mat4`, as its four columns. -/
structure Mat4 where
  col0 : Vec4
  col1 : Vec4
  col2 : Vec4
  col3 : Vec4
  deriving DecidableEq

/-- A default-constructed `glm::quat`, the identity rotation. -/
def Quat.identity : Quat := ⟨1, 0, 0, 0⟩

/-- Difference of two vectors. -/
def Vec3.sub (a b : Vec3) : Vec3 := ⟨a.x - b.x, a.y - b.y, a.z - b.z⟩

/-- The vector and matrix helpers that `MyAvatar.cpp` calls but does not define
(glm operators and `GLMHelpers`), taken as parameters: quaternion product,
rotation of a vector by a quaternion, `cancelOutRollAndPitch`,
`createMatFromQuatAndPos`, `glmExtractRotation`, `extractTranslation`,
`setTranslation`, `glm::inverse`, `transformVectorFast`, and the constant
`Quaternions::Y_180`. -/
structure GlmOps where
  quatMul : Quat → Quat → Quat
  rotate : Quat → Vec3 → Vec3
  cancelOutRollAndPitch : Quat → Quat
  createMatFromQuatAndPos : Quat → Vec3 → Mat4
  glmExtractRotation : Mat4 → Quat
  extractTranslation : Mat4 → Vec3
  setTranslation : Mat4 → Vec3 → Mat4
  inverse : Mat4 → Mat4
  transformVectorFast : Mat4 → Vec3 → Vec3
  Y_180 : Quat

/-- A tracked pose (`controller::Pose`). -/
structure HeadPose where
  valid : Bool
  translation : Vec3
  rotation : Quat
  velocity : Vec3
  angularVelocity : Vec3
  deriving DecidableEq

/-- What `deriveBodyFromHMDSensor` reads besides the head pose: the user
height, the rig (joint indices, `-1` for a missing joint, and the translation of
each absolute default pose), the three `DEFAULT_AVATAR_*_POS` constants, the
two constants of `getUserEyeHeight`, and `getEyeHeight()`. -/
structure BodyEnv where
  _userHeight : ℚ
  headIndex : Int
  neckIndex : Int
  hipsIndex : Int
  getAbsoluteDefaultPoseTrans : Int → Vec3
  DEFAULT_AVATAR_HEAD_POS : Vec3
  DEFAULT_AVATAR_NECK_POS : Vec3
  DEFAULT_AVATAR_HIPS_POS : Vec3
  DEFAULT_AVATAR_EYE_TO_TOP_OF_HEAD : ℚ
  DEFAULT_AVATAR_HEIGHT : ℚ
  eyeHeight : ℚ

/-- `MyAvatar::getUserEyeHeight`. -/
def getUserEyeHeight (env : BodyEnv) : ℚ :=
  let ratio := env.DEFAULT_AVATAR_EYE_TO_TOP_OF_HEAD / env.DEFAULT_AVATAR_HEIGHT
  let userHeight := env._userHeight
  userHeight - userHeight * ratio

/-- The part of `deriveBodyFromHMDSensor` after the head position and head
orientation have been chosen: the head/neck offset model. -/
def bodyFromHead (ops : GlmOps) (env : BodyEnv) (headPosition : Vec3)
    (headOrientation : Quat) : Mat4 :=
  let headOrientationYawOnly := ops.cancelOutRollAndPitch headOrientation
  let rigHeadPos := if env.headIndex ≠ -1 then
    env.getAbsoluteDefaultPoseTrans env.headIndex else env.DEFAULT_AVATAR_HEAD_POS
  let rigNeckPos := if env.neckIndex ≠ -1 then
    env.getAbsoluteDefaultPoseTrans env.neckIndex else env.DEFAULT_AVATAR_NECK_POS
  let rigHipsPos := if env.hipsIndex ≠ -1 then
    env.getAbsoluteDefaultPoseTrans env.hipsIndex else env.DEFAULT_AVATAR_HIPS_POS
  let localHead := rigHeadPos.sub rigHipsPos
  let localNeck := rigNeckPos.sub rigHipsPos
  let headToNeck := ops.rotate (ops.quatMul headOrientation ops.Y_180)
    (localNeck.sub localHead)
  let neckToRoot := ops.rotate (ops.quatMul headOrientationYawOnly ops.Y_180) localNeck.neg
  let invSensorToWorldScale := getUserEyeHeight env / env.eyeHeight
  let bodyPos := headPosition.add ((headToNeck.add neckToRoot).scale invSensorToWorldScale)
  ops.createMatFromQuatAndPos headOrientationYawOnly bodyPos

/-- `MyAvatar::deriveBodyFromHMDSensor`, with the HEAD pose in the sensor frame
as an argument: a valid pose supplies the head position and (times `Y_180`) the
head orientation; otherwise they stay `(0, userHeight, 0)` and the identity. -/
def deriveBodyFromHMDSensor (ops : GlmOps) (env : BodyEnv) (headPose : HeadPose) : Mat4 :=
  let headPosition0 : Vec3 := ⟨0, env._userHeight, 0⟩
  let headOrientation0 : Quat := Quat.identity
  let headPosition := if headPose.valid then headPose.translation else headPosition0
  let headOrientation := if headPose.valid then
    ops.quatMul headPose.rotation ops.Y_180 else headOrientation0
  bodyFromHead ops env headPosition headOrientation

/-- Stand-in helpers for the examples (simple rational functions, not the glm
formulas); matrices store the position in the fourth column, which
`setTranslation` writes and `extractTranslation` reads. -/
def sampleOps : GlmOps :=
  { quatMul := fun a b => ⟨a.w * b.w, a.x + b.x, a.y + b.y, a.z + b.z⟩
    rotate := fun q v => ⟨v.x + q.x, v.y + q.y, v.z + q.z⟩
    cancelOutRollAndPitch := fun q => ⟨q.w, 0, q.y, 0⟩
    createMatFromQuatAndPos := fun q p =>
      ⟨⟨q.w, 0, 0, 0⟩, ⟨0, q.y, 0, 0⟩, ⟨0, 0, 1, 0⟩, ⟨p.x, p.y, p.z, 1⟩⟩
    glmExtractRotation := fun m => ⟨m.col0.x, 0, m.col1.y, 0⟩
    extractTranslation := fun m => ⟨m.col3.x, m.col3.y, m.col3.z⟩
    setTranslation := fun m t => { m with col3 := ⟨t.x, t.y, t.z, m.col3.w⟩ }
    inverse := fun m => m
    transformVectorFast := fun _ v => v
    Y_180 := ⟨0, 0, 1, 0⟩ }

/-- A rig without named joints, user height 1.75 m. -/
def sampleBodyEnv : BodyEnv :=
  { _userHeight := 175 / 100
    headIndex := -1
    neckIndex := -1
    hipsIndex := -1
    getAbsoluteDefaultPoseTrans := fun _ => ⟨0, 0, 0⟩
    DEFAULT_AVATAR_HEAD_POS := ⟨0, 3 / 4, 0⟩
    DEFAULT_AVATAR_NECK_POS := ⟨0, 7 / 10, 0⟩
    DEFAULT_AVATAR_HIPS_POS := ⟨0, 0, 0⟩
    DEFAULT_AVATAR_EYE_TO_TOP_OF_HEAD := 1 / 10
    DEFAULT_AVATAR_HEIGHT := 2
    eyeHeight := 16 / 10 }

/-- An invalid head pose with leftover data in every field. -/
def staleHeadPoseA : HeadPose :=
  { valid := false, translation := ⟨1, 2, 3⟩, rotation := ⟨0, 1, 0, 0⟩
    velocity := ⟨4, 5, 6⟩, angularVelocity := ⟨7, 8, 9⟩ }

/-- Another invalid head pose, differing from `staleHeadPoseA` in every field
but the validity. -/
def staleHeadPoseB : HeadPose :=
  { valid := false, translation := ⟨-5, 0, 11⟩, rotation := ⟨1, 0, 0, 0⟩
    velocity := ⟨0, 0, 0⟩, angularVelocity := ⟨1, 1, 1⟩ }

/-! ## Follow helper: the two physics-step calls -/

/-- `FollowHelper::isActive()` without argument: some axis is active. -/
def FollowHelper.isActiveAny (f : FollowHelper) : Bool :=
  f.isActive FollowType.Rotation || f.isActive FollowType.Horizontal ||
    f.isActive FollowType.Vertical

/-- `FollowHelper::getMaxTimeRemaining`: a running maximum over the three
timers that starts at 0. -/
def FollowHelper.getMaxTimeRemaining (f : FollowHelper) : ℚ :=
  [FollowType.Rotation, FollowType.Horizontal, FollowType.Vertical].foldl
    (fun max i => if f._timeRemaining i > max then f._timeRemaining i else max) 0

/-- The members of `MyAvatar` and of the application that the follow helper
reads or writes: the sit/stand members, the HMD-lean-recenter switch, whether
the camera is in mirror mode, the step-reset-rotation switch, the walking flag
and the two head-facing vectors. -/
structure FollowAvatar where
  sitStand : SitStandState
  hmdLeanRecenterEnabled : Bool
  cameraModeIsMirror : Bool
  enableStepResetRotation : Bool
  isInWalkingState : Bool
  headControllerFacing : Vec2
  headControllerFacingMovingAverage : Vec2

/-- The per-call quantities that the activation tests compute from poses and
matrices with helpers outside this file: the facing direction of the current
body matrix, the cosine of the rotation threshold, the forward and lateral lean
amounts, the seven step tests of the centre-of-gravity model, the walk-speed
test, the spine-stretch test, the vertical offset of desired against current
body, and rotation and translation of the desired and the current world
matrices. -/
structure FollowInputs where
  bodyFacing : Vec2
  rotationThresholdCos : ℚ
  forwardLeanAmount : ℚ
  lateralLeanAmount : ℚ
  withinBaseOfSupport : Bool
  headAngularVelocityBelowThreshold : Bool
  isWithinThresholdHeightMode : Bool
  handDirectionMatchesHeadDirection : Bool
  handAngularVelocityBelowThreshold : Bool
  headVelocityGreaterThanThreshold : Bool
  isHeadLevel : Bool
  headSpeedAboveWalkThreshold : Bool
  spineOverstretched : Bool
  offsetY : ℚ
  desiredWorldRot : Quat
  desiredWorldTrans : Vec3
  currentWorldRot : Quat
  currentWorldTrans : Vec3

/-- `FollowHelper::shouldActivateRotation`. -/
def shouldActivateRotation (a : FollowAvatar) (i : FollowInputs) : Bool :=
  decide ((-a.headControllerFacingMovingAverage.x) * i.bodyFacing.x +
    (-a.headControllerFacingMovingAverage.y) * i.bodyFacing.y < i.rotationThresholdCos)

/-- `FollowHelper::shouldActivateHorizontal`. -/
def shouldActivateHorizontal (a : FollowAvatar) (i : FollowInputs) : Bool :=
  if a.sitStand._isInSittingState then !i.withinBaseOfSupport
  else if i.forwardLeanAmount > 0 ∧ i.forwardLeanAmount > 15 / 100 then true
  else if i.forwardLeanAmount < 0 ∧ i.forwardLeanAmount < -(1 / 10) then true
  else decide (|i.lateralLeanAmount| > 3 / 10)

/-- `FollowHelper::shouldActivateHorizontalCG`: the answer and the avatar
members after the call (it may set the walking flag and the reset mode). -/
def shouldActivateHorizontalCG (f : FollowHelper) (a : FollowAvatar) (i : FollowInputs) :
    Bool × FollowAvatar :=
  if a.isInWalkingState then (true, a)
  else if !i.withinBaseOfSupport && i.headAngularVelocityBelowThreshold &&
      i.isWithinThresholdHeightMode && i.handDirectionMatchesHeadDirection &&
      i.handAngularVelocityBelowThreshold && i.headVelocityGreaterThanThreshold &&
      i.isHeadLevel then
    (true, if i.headSpeedAboveWalkThreshold then { a with isInWalkingState := true } else a)
  else if !f.isActive FollowType.Horizontal && !f.isActive FollowType.Vertical &&
      i.spineOverstretched then
    let a1 := { a with sitStand := { a.sitStand with _resetMode := true } }
    (true, if i.headSpeedAboveWalkThreshold then { a1 with isInWalkingState := true } else a1)
  else (false, a)

/-- `FollowHelper::shouldActivateVertical`. -/
def shouldActivateVertical (f : FollowHelper) (a : FollowAvatar) (i : FollowInputs) : Bool :=
  if a.sitStand._sitStandStateChange then true
  else if a.sitStand._isInSittingState then
    let returnValue := if a.sitStand._lockSitStandState then decide (i.offsetY > 2) else false
    if i.offsetY < -(2 / 100) then true else returnValue
  else
    let returnValue := decide (i.offsetY > 2) || decide (i.offsetY < -(15 / 10))
    if f._squatDetected then true else returnValue

/-- What `prePhysicsUpdate` hands to `setFollowParameters`: the follow pose
(rotation and translation; its scale is set to 1) and the maximum time
remaining. -/
structure FollowParameters where
  rot : Quat
  trans : Vec3
  maxTimeRemaining : ℚ

/-- The first half of `FollowHelper::prePhysicsUpdate`: which axes activate.
With HMD lean recentering enabled and the camera not in mirror mode the
activation tests decide; otherwise only the force-activate flags do. -/
def prePhysicsActivate (f : FollowHelper) (a : FollowAvatar) (i : FollowInputs)
    (hasDriveInput : Bool) : FollowHelper × FollowAvatar :=
  if a.hmdLeanRecenterEnabled && !a.cameraModeIsMirror then
    let r1 : FollowHelper × FollowAvatar :=
      if !f.isActive FollowType.Rotation && (shouldActivateRotation a i || hasDriveInput) then
        (f.activate FollowType.Rotation,
          { a with headControllerFacingMovingAverage := a.headControllerFacing })
      else (f, a)
    let r2 : FollowHelper × FollowAvatar :=
      if r1.2.sitStand._centerOfGravityModelEnabled then
        if !r1.1.isActive FollowType.Horizontal then
          let cg := shouldActivateHorizontalCG r1.1 r1.2 i
          if cg.1 || hasDriveInput then
            if cg.2.enableStepResetRotation then
              ((r1.1.activate FollowType.Horizontal).activate FollowType.Rotation,
                { cg.2 with headControllerFacingMovingAverage := cg.2.headControllerFacing })
            else (r1.1.activate FollowType.Horizontal, cg.2)
          else (r1.1, cg.2)
        else r1
      else
        if !r1.1.isActive FollowType.Horizontal &&
            (shouldActivateHorizontal r1.2 i || hasDriveInput) then
          if r1.2.enableStepResetRotation && !r1.2.sitStand._isInSittingState then
            ((r1.1.activate FollowType.Horizontal).activate FollowType.Rotation,
              { r1.2 with headControllerFacingMovingAverage := r1.2.headControllerFacing })
          else (r1.1.activate FollowType.Horizontal, r1.2)
        else r1
    if !r2.1.isActive FollowType.Vertical &&
        (shouldActivateVertical r2.1 r2.2 i || hasDriveInput) then
      let f3 := r2.1.activate FollowType.Vertical
      (if f3._squatDetected then { f3 with _squatDetected := false } else f3, r2.2)
    else r2
  else
    let r1 : FollowHelper × FollowAvatar :=
      if !f.isActive FollowType.Rotation && f._forceActivateRotation then
        ({ f.activate FollowType.Rotation with _forceActivateRotation := false },
          { a with headControllerFacingMovingAverage := a.headControllerFacing })
      else (f, a)
    let f2 :=
      if !r1.1.isActive FollowType.Horizontal && r1.1._forceActivateHorizontal then
        { r1.1.activate FollowType.Horizontal with _forceActivateHorizontal := false }
      else r1.1
    let f3 :=
      if !f2.isActive FollowType.Vertical && f2._forceActivateVertical then
        { f2.activate FollowType.Vertical with _forceActivateVertical := false }
      else f2
    (f3, r1.2)

/-- `FollowHelper::prePhysicsUpdate`: the helper and the avatar members after
the call, and the parameters passed to the character controller. -/
def prePhysicsUpdate (f : FollowHelper) (a : FollowAvatar) (i : FollowInputs)
    (hasDriveInput : Bool) : FollowHelper × FollowAvatar × FollowParameters :=
  let r := prePhysicsActivate f a i hasDriveInput
  let rot := if r.1.isActive FollowType.Rotation then i.desiredWorldRot else i.currentWorldRot
  let horizontal := r.1.isActive FollowType.Horizontal
  let vertical := r.1.isActive FollowType.Vertical
  let trans : Vec3 :=
    ⟨if horizontal then i.desiredWorldTrans.x else i.currentWorldTrans.x,
     if vertical then i.desiredWorldTrans.y else i.currentWorldTrans.y,
     if horizontal then i.desiredWorldTrans.z else i.currentWorldTrans.z⟩
  (r.1, r.2, ⟨rot, trans, r.1.getMaxTimeRemaining⟩)

/-- What `postPhysicsUpdate` reads from the character controller and the
avatar: the follow time, the linear and angular follow displacement, and the
sensor-to-world matrix. -/
structure FollowResult where
  followTime : ℚ
  followLinearDisplacement : Vec3
  followAngularDisplacement : Quat
  sensorToWorldMatrix : Mat4

/-- `FollowHelper::postPhysicsUpdate`: the helper and the avatar members after
the call, and the returned body matrix. -/
def postPhysicsUpdate (ops : GlmOps) (env : BodyEnv) (headPose : HeadPose)
    (f : FollowHelper) (a : FollowAvatar) (c : FollowResult) (currentBodyMatrix : Mat4) :
    FollowHelper × FollowAvatar × Mat4 :=
  if f.isActiveAny then
    let dt := c.followTime
    let f1 := f.decrementTimeRemaining dt
    let worldLinearDisplacement := c.followLinearDisplacement
    let worldAngularDisplacement := c.followAngularDisplacement
    let sensorToWorldMatrix := c.sensorToWorldMatrix
    let worldToSensorMatrix := ops.inverse sensorToWorldMatrix
    let sensorLinearDisplacement :=
      ops.transformVectorFast worldToSensorMatrix worldLinearDisplacement
    let sensorAngularDisplacement :=
      ops.quatMul
        (ops.quatMul (ops.glmExtractRotation worldToSensorMatrix) worldAngularDisplacement)
        (ops.glmExtractRotation sensorToWorldMatrix)
    let newBodyMat := ops.createMatFromQuatAndPos
      (ops.quatMul sensorAngularDisplacement (ops.glmExtractRotation currentBodyMatrix))
      (sensorLinearDisplacement.add (ops.extractTranslation currentBodyMatrix))
    if a.sitStand._sitStandStateChange then
      let a1 := { a with sitStand := { a.sitStand with _sitStandStateChange := false } }
      let f2 := f1.deactivate FollowType.Vertical
      (f2, a1, ops.setTranslation newBodyMat
        (ops.extractTranslation (deriveBodyFromHMDSensor ops env headPose)))
    else (f1, a, newBodyMat)
  else (f, a, currentBodyMatrix)

/-- A follow helper with all timers at 0 and only the vertical force-activate
flag set, as after `triggerVerticalRecenter()`. -/
def forcedVerticalFollow : FollowHelper :=
  { _timeRemaining := fun _ => 0
    _forceActivateRotation := false
    _forceActivateVertical := true
    _forceActivateHorizontal := false
    _squatDetected := false }

/-- Avatar members for the examples: the scenario start of the classifier, HMD
lean recentering enabled, camera not in mirror mode, facing vectors along +y. -/
def leanEnabledAvatar : FollowAvatar :=
  { sitStand := scenarioStart
    hmdLeanRecenterEnabled := true
    cameraModeIsMirror := false
    enableStepResetRotation := false
    isInWalkingState := false
    headControllerFacing := ⟨0, 1⟩
    headControllerFacingMovingAverage := ⟨0, 1⟩ }

/-- Per-call inputs under which no activation test fires: the body faces
opposite to the head-facing average against a threshold cosine of 0, there is no
lean, the head is within the base of support, and there is no vertical
offset. -/
def quietInputs : FollowInputs :=
  { bodyFacing := ⟨0, -1⟩
    rotationThresholdCos := 0
    forwardLeanAmount := 0
    lateralLeanAmount := 0
    withinBaseOfSupport := true
    headAngularVelocityBelowThreshold := true
    isWithinThresholdHeightMode := true
    handDirectionMatchesHeadDirection := true
    handAngularVelocityBelowThreshold := true
    headVelocityGreaterThanThreshold := false
    isHeadLevel := true
    headSpeedAboveWalkThreshold := false
    spineOverstretched := false
    offsetY := 0
    desiredWorldRot := ⟨1, 0, 0, 0⟩
    desiredWorldTrans := ⟨0, 1, 0⟩
    currentWorldRot := ⟨1, 0, 0, 0⟩
    currentWorldTrans := ⟨0, 1, 0⟩ }

/-- A helper with all three force-activate flags set and all timers at 0. -/
def forcedAllFollow : FollowHelper :=
  { _timeRemaining := fun _ => 0
    _forceActivateRotation := true
    _forceActivateVertical := true
    _forceActivateHorizontal := true
    _squatDetected := false }

/-- Controller read-back for the examples: follow time 0.1 s, no displacement,
identity-like sensor-to-world matrix. -/
def sampleFollowResult : FollowResult :=
  { followTime := 1 / 10
    followLinearDisplacement := ⟨0, 0, 0⟩
    followAngularDisplacement := ⟨1, 0, 0, 0⟩
    sensorToWorldMatrix := ⟨⟨1, 0, 0, 0⟩, ⟨0, 1, 0, 0⟩, ⟨0, 0, 1, 0⟩, ⟨0, 0, 0, 1⟩⟩ }

/-- A body matrix for the examples, positioned at `(3, 1, 4)`. -/
def sampleBodyMatrix : Mat4 :=
  ⟨⟨1, 0, 0, 0⟩, ⟨0, 1, 0, 0⟩, ⟨0, 0, 1, 0⟩, ⟨3, 1, 4, 1⟩⟩

/-- A follow helper at rest: all timers 0, no flag set. -/
def idleFollow : FollowHelper :=
  { _timeRemaining := fun _ => 0
    _forceActivateRotation := false
    _forceActivateVertical := false
    _forceActivateHorizontal := false
    _squatDetected := false }

/-- Avatar members right after `setIsInSittingState(true)` on the scenario
start (the sit/stand-change flag is set), with HMD lean recentering disabled. -/
def justSatAvatar : FollowAvatar :=
  { sitStand := setIsInSittingState scenarioStart true
    hmdLeanRecenterEnabled := false
    cameraModeIsMirror := false
    enableStepResetRotation := false
    isInWalkingState := false
    headControllerFacing := ⟨0, 1⟩
    headControllerFacingMovingAverage := ⟨0, 1⟩ }

/-! ## Counting the ray casts of the clearing search -/

/-- The clearing search of `requiresSafeLanding` together with the number of
`findIntersection` calls it makes: one per loop iteration entered. -/
def clearingSearchCounted (env : LandingEnv) (ray : RayOracle) (up : Vec3) (halfHeight : ℚ)
    (betterPositionOut : Vec3) :
    Nat → Vec3 → EntityItemID → List EntityItemID → ClearingOutcome × Nat
  | 0, upperIntersection, upperId, ignore =>
    (ClearingOutcome.exhausted upperIntersection upperId ignore, 0)
  | remaining + 1, upperIntersection, upperId, ignore =>
    let ignore1 := ignore ++ [upperId]
    match findIntersection ray upperIntersection up [] ignore1 with
    | none => (ClearingOutcome.returned (false, betterPositionOut), 1)
    | some (upperIntersection1, upperId1, upperNormal1) =>
      if env.isUp upperNormal1 then
        (ClearingOutcome.returned (mustMove up upperIntersection1 halfHeight), 1)
      else
        let rest := clearingSearchCounted env ray up halfHeight betterPositionOut remaining
          upperIntersection1 upperId1 ignore1
        (rest.1, rest.2 + 1)

/-- Ray answers of `stackedCeilingsScene`: the first upward cast hits the
underside of entity 1 five metres up, every later upward cast hits another
underside of entity 1 at distance 0, and every downward cast hits an
upward-facing surface of entity 2 five metres along the ray. -/
def stackedCeilingsRay : RayOracle := fun _ direction _ ignore =>
  if direction.y > 0 then
    if ignore = [] then some ⟨1, 5, ⟨0, -1, 0⟩⟩ else some ⟨1, 0, ⟨0, -1, 0⟩⟩
  else some ⟨2, 5, ⟨0, 1, 0⟩⟩

/-- A scene in which the clearing search never resolves: undersides above, as
far as the search looks. -/
def stackedCeilingsScene : LandingEnv :=
  { height := 2
    entityTree := some stackedCeilingsRay
    _worldUpDirection := ⟨0, 1, 0⟩
    TREE_SCALE := 32768
    isUp := fun n => decide (n.y > 0)
    isDown := fun n => decide (n.y < 0) }

/-- A helper whose vertical axis is already active (0.3 s remaining) while the
vertical force-activate flag is set. -/
def forcedActiveVerticalFollow : FollowHelper :=
  { _timeRemaining := fun i => if i = FollowType.Vertical then 3 / 10 else 0
    _forceActivateRotation := false
    _forceActivateVertical := true
    _forceActivateHorizontal := false
    _squatDetected := false }

/-- A sitting state for the examples: unlocked, tracked, not away, tipping
point and average height 1 m, timer 0. -/
def sittingStart : SitStandState :=
  { scenarioStart with
    _isInSittingState := true
    _tippingPoint := 1
    _averageUserHeightSensorSpace := 1
    _centerOfGravityModelEnabled := false }

/-- A sitting state whose average sensor-space height, 1.6 m, is above the
1.52 m bound; the tipping point is 1.6 m as well. -/
def highSittingStart : SitStandState :=
  { scenarioStart with
    _isInSittingState := true
    _tippingPoint := 16 / 10
    _averageUserHeightSensorSpace := 16 / 10
    _centerOfGravityModelEnabled := false }

/-! ## Gear setters (`setDriveGear1` .. `setDriveGear5`) -/

/-- `MyAvatar::setDriveGear1` on the avatar's own thread (a call from another
thread is re-dispatched to it). -/
def setDriveGear1 (s : GearSettings) (shiftPoint : ℚ) : GearSettings :=
  if shiftPoint > 1 ∨ shiftPoint < 0 then s
  else { s with _driveGear1 := if shiftPoint < s._driveGear2 then shiftPoint else s._driveGear1 }

/-- `MyAvatar::setDriveGear2`. -/
def setDriveGear2 (s : GearSettings) (shiftPoint : ℚ) : GearSettings :=
  if shiftPoint > 1 ∨ shiftPoint < 0 then s
  else { s with _driveGear2 :=
    if shiftPoint < s._driveGear3 ∧ shiftPoint ≥ s._driveGear1 then shiftPoint
    else s._driveGear2 }

/-- `MyAvatar::setDriveGear3`. -/
def setDriveGear3 (s : GearSettings) (shiftPoint : ℚ) : GearSettings :=
  if shiftPoint > 1 ∨ shiftPoint < 0 then s
  else { s with _driveGear3 :=
    if shiftPoint < s._driveGear4 ∧ shiftPoint ≥ s._driveGear2 then shiftPoint
    else s._driveGear3 }

/-- `MyAvatar::setDriveGear4`. -/
def setDriveGear4 (s : GearSettings) (shiftPoint : ℚ) : GearSettings :=
  if shiftPoint > 1 ∨ shiftPoint < 0 then s
  else { s with _driveGear4 :=
    if shiftPoint < s._driveGear5 ∧ shiftPoint ≥ s._driveGear3 then shiftPoint
    else s._driveGear4 }

/-- `MyAvatar::setDriveGear5`. -/
def setDriveGear5 (s : GearSettings) (shiftPoint : ℚ) : GearSettings :=
  if shiftPoint > 1 ∨ shiftPoint < 0 then s
  else { s with _driveGear5 := if shiftPoint > s._driveGear4 then shiftPoint else s._driveGear5 }

/-- The stored breakpoints are in non-decreasing order. -/
def gearsOrdered (s : GearSettings) : Prop :=
  s._driveGear1 ≤ s._driveGear2 ∧ s._driveGear2 ≤ s._driveGear3 ∧
    s._driveGear3 ≤ s._driveGear4 ∧ s._driveGear4 ≤ s._driveGear5

/-- The number of the five effective breakpoints strictly below `a`. -/
def breakpointsBelow (s : GearSettings) (a : ℚ) : Nat :=
  ([getDriveGear1 s, getDriveGear2 s, getDriveGear3 s, getDriveGear4 s,
    getDriveGear5 s].filter (fun g => decide (g < a))).length

/-! ## Motor speed (`scaleMotorSpeed`) -/

/-- The static function `slope`: `ret` starts at 1 and is replaced by
`1 - 1 / (1 + CURVE_CONSTANT * num)` only when `num > 0`. -/
def slope (num : ℚ) : ℚ :=
  let CURVE_CONSTANT : ℚ := 1
  if num > 0 then 1 - 1 / (1 + CURVE_CONSTANT * num) else 1

/-- The constants of the support base used by `dampenCgMovement`, declared
outside this file. -/
structure SupportBase where
  DEFAULT_AVATAR_SUPPORT_BASE_FRONT : ℚ
  DEFAULT_AVATAR_SUPPORT_BASE_BACK : ℚ
  DEFAULT_AVATAR_SUPPORT_BASE_LEFT : ℚ
  DEFAULT_AVATAR_SUPPORT_BASE_RIGHT : ℚ
  DEFAULT_AVATAR_FORWARD_DAMPENING_FACTOR : ℚ
  DEFAULT_AVATAR_LATERAL_DAMPENING_FACTOR : ℚ

/-- The clamp limit `clampFront` of `dampenCgMovement`. -/
def clampFront (c : SupportBase) (baseOfSupportScale : ℚ) : ℚ :=
  c.DEFAULT_AVATAR_SUPPORT_BASE_FRONT * c.DEFAULT_AVATAR_FORWARD_DAMPENING_FACTOR *
    baseOfSupportScale

/-- The clamp limit `clampBack` of `dampenCgMovement`. -/
def clampBack (c : SupportBase) (baseOfSupportScale : ℚ) : ℚ :=
  c.DEFAULT_AVATAR_SUPPORT_BASE_BACK * c.DEFAULT_AVATAR_LATERAL_DAMPENING_FACTOR *
    baseOfSupportScale

/-- The clamp limit `clampLeft` of `dampenCgMovement`. -/
def clampLeft (c : SupportBase) (baseOfSupportScale : ℚ) : ℚ :=
  c.DEFAULT_AVATAR_SUPPORT_BASE_LEFT * c.DEFAULT_AVATAR_LATERAL_DAMPENING_FACTOR *
    baseOfSupportScale

/-- The clamp limit `clampRight` of `dampenCgMovement`. -/
def clampRight (c : SupportBase) (baseOfSupportScale : ℚ) : ℚ :=
  c.DEFAULT_AVATAR_SUPPORT_BASE_RIGHT * c.DEFAULT_AVATAR_LATERAL_DAMPENING_FACTOR *
    baseOfSupportScale

/-- The static function `dampenCgMovement`. -/
def dampenCgMovement (c : SupportBase) (cgUnderHeadHandsAvatarSpace : Vec3)
    (baseOfSupportScale : ℚ) : Vec3 :=
  let distanceFromCenterZ := cgUnderHeadHandsAvatarSpace.z
  let distanceFromCenterX := cgUnderHeadHandsAvatarSpace.x
  let dampedZ :=
    if cgUnderHeadHandsAvatarSpace.z < 0 then
      slope |distanceFromCenterZ / clampFront c baseOfSupportScale| *
        clampFront c baseOfSupportScale
    else
      slope |distanceFromCenterZ / clampBack c baseOfSupportScale| *
        clampBack c baseOfSupportScale
  let dampedX :=
    if cgUnderHeadHandsAvatarSpace.x > 0 then
      slope |distanceFromCenterX / clampRight c baseOfSupportScale| *
        clampRight c baseOfSupportScale
    else
      slope |distanceFromCenterX / clampLeft c baseOfSupportScale| *
        clampLeft c baseOfSupportScale
  ⟨dampedX, 0, dampedZ⟩

/-- Support-base constants for the examples: front -0.2, back 0.12, left -0.25,
right 0.25, both dampening factors 1. -/
def sampleSupportBase : SupportBase :=
  { DEFAULT_AVATAR_SUPPORT_BASE_FRONT := -(2 / 10)
    DEFAULT_AVATAR_SUPPORT_BASE_BACK := 12 / 100
    DEFAULT_AVATAR_SUPPORT_BASE_LEFT := -(25 / 100)
    DEFAULT_AVATAR_SUPPORT_BASE_RIGHT := 25 / 100
    DEFAULT_AVATAR_FORWARD_DAMPENING_FACTOR := 1
    DEFAULT_AVATAR_LATERAL_DAMPENING_FACTOR := 1 }

/-! ## Counting classification changes -/

/-- Number of changes of the sitting flag along a trace that starts from the
flag `before`. -/
def countClassificationChanges : Bool → List Bool → Nat
  | _, [] => 0
  | before, b :: rest =>
    (if before = b then 0 else 1) + countClassificationChanges b rest

/-- A constant reading `T` fed once per frame with the given frame times. -/
def constantSamples (T : ℚ) (dts : List ℚ) : List (ℚ × ℚ) :=
  dts.map (fun dt => (T, dt))

/-- The classification a constant reading at the tipping point settles into:
a sitting state whose average height exceeds the 1.52 m bound becomes
standing, any other state keeps its classification. -/
def settledSitting (s : SitStandState) : Bool :=
  s._isInSittingState && !decide (s._averageUserHeightSensorSpace > SITTING_UPPER_BOUND)

/-- A sitting state whose tipping point, average height and standing-height
mode are all 1.7 m (above the 1.52 m bound); unlocked, tracked, not away. -/
def tallSittingStart : SitStandState :=
  { scenarioStart with
    _isInSittingState := true
    _centerOfGravityModelEnabled := false }

/-! ## The blocks of `prePhysicsUpdate`

The activation half of `prePhysicsUpdate` is a sequence of three blocks, one per
axis; they are named here so that each can be reasoned about on its own. -/

/-- The rotation block of `prePhysicsUpdate` (HMD lean recentering enabled). -/
def leanRotationBlock (f : FollowHelper) (a : FollowAvatar) (i : FollowInputs)
    (hasDriveInput : Bool) : FollowHelper × FollowAvatar :=
  if !f.isActive FollowType.Rotation && (shouldActivateRotation a i || hasDriveInput) then
    (f.activate FollowType.Rotation,
      { a with headControllerFacingMovingAverage := a.headControllerFacing })
  else (f, a)

/-- The horizontal block of `prePhysicsUpdate` (HMD lean recentering enabled),
with and without the centre-of-gravity model. -/
def leanHorizontalBlock (r1 : FollowHelper × FollowAvatar) (i : FollowInputs)
    (hasDriveInput : Bool) : FollowHelper × FollowAvatar :=
  if r1.2.sitStand._centerOfGravityModelEnabled then
    if !r1.1.isActive FollowType.Horizontal then
      let cg := shouldActivateHorizontalCG r1.1 r1.2 i
      if cg.1 || hasDriveInput then
        if cg.2.enableStepResetRotation then
          ((r1.1.activate FollowType.Horizontal).activate FollowType.Rotation,
            { cg.2 with headControllerFacingMovingAverage := cg.2.headControllerFacing })
        else (r1.1.activate FollowType.Horizontal, cg.2)
      else (r1.1, cg.2)
    else r1
  else
    if !r1.1.isActive FollowType.Horizontal &&
        (shouldActivateHorizontal r1.2 i || hasDriveInput) then
      if r1.2.enableStepResetRotation && !r1.2.sitStand._isInSittingState then
        ((r1.1.activate FollowType.Horizontal).activate FollowType.Rotation,
          { r1.2 with headControllerFacingMovingAverage := r1.2.headControllerFacing })
      else (r1.1.activate FollowType.Horizontal, r1.2)
    else r1

/-- The vertical block of `prePhysicsUpdate` (HMD lean recentering enabled). -/
def leanVerticalBlock (r2 : FollowHelper × FollowAvatar) (i : FollowInputs)
    (hasDriveInput : Bool) : FollowHelper × FollowAvatar :=
  if !r2.1.isActive FollowType.Vertical &&
      (shouldActivateVertical r2.1 r2.2 i || hasDriveInput) then
    let f3 := r2.1.activate FollowType.Vertical
    (if f3._squatDetected then { f3 with _squatDetected := false } else f3, r2.2)
  else r2

/-- The three force-activate blocks of `prePhysicsUpdate` (HMD lean recentering
disabled or camera in mirror mode). -/
def forcedBlocks (f : FollowHelper) (a : FollowAvatar) : FollowHelper × FollowAvatar :=
  let r1 : FollowHelper × FollowAvatar :=
    if !f.isActive FollowType.Rotation && f._forceActivateRotation then
      ({ f.activate FollowType.Rotation with _forceActivateRotation := false },
        { a with headControllerFacingMovingAverage := a.headControllerFacing })
    else (f, a)
  let f2 :=
    if !r1.1.isActive FollowType.Horizontal && r1.1._forceActivateHorizontal then
      { r1.1.activate FollowType.Horizontal with _forceActivateHorizontal := false }
    else r1.1
  let f3 :=
    if !f2.isActive FollowType.Vertical && f2._forceActivateVertical then
      { f2.activate FollowType.Vertical with _forceActivateVertical := false }
    else f2
  (f3, r1.2)

/-- From `f` to `g` every timer is either untouched or freshly set to
`FOLLOW_TIME`, and a fresh horizontal or vertical timer replaces an inactive
one. -/
def onlyActivates (f g : FollowHelper) : Prop :=
  ∀ t, g._timeRemaining t = f._timeRemaining t ∨
    (g._timeRemaining t = FOLLOW_TIME ∧ (f.isActive t = false ∨ t = FollowType.Rotation))

/-- The avatar members of `leanEnabledAvatar` with step-reset-rotation
enabled. -/
def stepResetAvatar : FollowAvatar :=
  { leanEnabledAvatar with enableStepResetRotation := true }

/-- What a result of `requiresSafeLanding` may be: "no move" with the output
untouched, or "move" to half the avatar height above a point `p` where a ray
hit: an upward re-cast that hit an upward-facing surface, or the cast straight
down from `TREE_SCALE` above the candidate position. -/
def landingResult (env : LandingEnv) (ray : RayOracle) (positionIn out : Vec3)
    (r : Bool × Vec3) : Prop :=
  r = (false, out) ∨
  (r.1 = true ∧ ∃ start dir includeIds ignoreIds p id n,
    findIntersection ray start dir includeIds ignoreIds = some (p, id, n) ∧
    r.2 = p.add (env._worldUpDirection.scale (1 / 2 * env.height)) ∧
    ((dir = env._worldUpDirection ∧ env.isUp n = true) ∨
     (start = positionIn.add (env._worldUpDirection.scale env.TREE_SCALE) ∧
      dir = env._worldUpDirection.neg)))

/-- The state of the pass right before its loop "ADD/UPDATE cached blobs": the
pending lists are moved out, the add loop has cleaned the skip list, and the
loop "DELETE cached blobs" has run. -/
def passBeforeMarking (env : ReconcilerEnv) (s : AvatarEntityState) : AvatarEntityState :=
  let s0 := passStart env s
  let s1 := { s0 with _cachedAvatarEntityBlobsToDelete := []
                      _cachedAvatarEntityBlobsToAddOrUpdate := []
                      _entitiesToDelete := []
                      _entitiesToAdd := []
                      _entitiesToUpdate := [] }
  let added := addRealEntities env s1.sessionID s1._cachedAvatarEntityBlobs
    (passLists env s).entitiesToAdd s1._cachedAvatarEntityBlobUpdatesToSkip
  deleteCachedBlobs { s1 with _cachedAvatarEntityBlobUpdatesToSkip := added.1 }
    (passLists env s).cachedBlobsToDelete

/-- A state in which the scene reported changes of entities 7 and 8, both
cached, while 7 was loaded from settings and is in the skip-next-save list. -/
def sceneChangedState : AvatarEntityState :=
  { sessionID := 42
    _reloadAvatarEntityDataFromSettings := false
    _needToSaveAvatarEntitySettings := false
    _cachedAvatarEntityBlobs := [(7, [1, 2, 3]), (8, [4])]
    _packedAvatarEntityData := []
    _entitiesToDelete := []
    _entitiesToAdd := []
    _entitiesToUpdate := []
    _cachedAvatarEntityBlobsToDelete := []
    _cachedAvatarEntityBlobsToAddOrUpdate := [7, 8]
    _cachedAvatarEntityBlobUpdatesToSkip := [7]
    _staleCachedAvatarEntityBlobs := [] }

/-! ## Float rounding made explicit

`updateSitStandState` and `requiresSafeLanding` compute in `float`.  The
definitions above use exact arithmetic; the ones below carry the rounding as a
parameter, so that a statement proved for every rounding function holds for the
rounding the machine performs. -/

/-- `MyAvatar::updateSitStandState` with the rounding of its float operations
made explicit.  `fl` rounds a value to `float`: the literal `1.2f` is
`fl (12 / 10)`, the product `STANDING_HEIGHT_MULTIPLE * _tippingPoint` is
`fl (fl (12 / 10) * _tippingPoint)`, and `_sitStandStateTimer += dt` stores
`fl (_sitStandStateTimer + dt)`.  The literals `4.0f` and `0.0f` are exact. -/
def updateSitStandStateRounded (fl : ℚ → ℚ) (s : SitStandState) (newHeightReading dt : ℚ) :
    SitStandState :=
  if !s._lockSitStandState then
    if !s._isAway && s.headPoseValid then
      if s._isInSittingState then
        if newHeightReading > fl (fl STANDING_HEIGHT_MULTIPLE * s._tippingPoint) then
          let s1 := { s with _sitStandStateTimer := fl (s._sitStandStateTimer + dt) }
          if s1._sitStandStateTimer > fl STANDING_TIMEOUT then
            setIsInSittingState
              { s1 with _averageUserHeightSensorSpace := newHeightReading
                        _tippingPoint := newHeightReading } false
          else s1
        else if newHeightReading < fl (fl SITTING_HEIGHT_MULTIPLE * s._tippingPoint) then
          let s1 := { s with _sitStandStateTimer := fl (s._sitStandStateTimer + dt) }
          if s1._sitStandStateTimer > SITTING_TIMEOUT then
            setIsInSittingState
              { s1 with _averageUserHeightSensorSpace := newHeightReading
                        _tippingPoint := newHeightReading } true
          else s1
        else
          if s._averageUserHeightSensorSpace > fl SITTING_UPPER_BOUND then
            setIsInSittingState s false
          else
            { s with _tippingPoint := s._averageUserHeightSensorSpace
                     _sitStandStateTimer := 0 }
      else
        if newHeightReading < fl (fl SITTING_HEIGHT_MULTIPLE * s._tippingPoint) then
          let s1 := { s with _sitStandStateTimer := fl (s._sitStandStateTimer + dt) }
          if s1._sitStandStateTimer > SITTING_TIMEOUT then
            setIsInSittingState
              { s1 with _averageUserHeightSensorSpace := newHeightReading
                        _tippingPoint := newHeightReading } true
          else s1
        else
          { s with _tippingPoint := s._currentStandingHeight
                   _sitStandStateTimer := 0 }
    else
      setIsInSittingState
        { s with _averageUserHeightSensorSpace := s._userHeight
                 _tippingPoint := s._userHeight } false
  else s

/-- The float operations `requiresSafeLanding` relies on and that are defined
outside this file: the rounding `fl` of a scalar result to `float`, and the
`glm::vec3` sum, product with a scalar, negation and `glm::distance`, each as
the machine computes it. -/
structure LandingOps where
  fl : ℚ → ℚ
  add : Vec3 → Vec3 → Vec3
  scale : Vec3 → ℚ → Vec3
  neg : Vec3 → Vec3
  distance : Vec3 → Vec3 → ℚ

/-- The lambda `findIntersection` over the given float operations. -/
def findIntersectionWith (ops : LandingOps) (ray : RayOracle) (startPointIn directionIn : Vec3)
    (includeIds ignoreIds : List EntityItemID) : Option (Vec3 × EntityItemID × Vec3) :=
  match ray startPointIn directionIn includeIds ignoreIds with
  | none => none
  | some hit =>
    some (ops.add startPointIn (ops.scale directionIn hit.distance), hit.entityID, hit.normal)

/-- The lambda `mustMove` over the given float operations. -/
def mustMoveWith (ops : LandingOps) (up upperIntersection : Vec3) (halfHeight : ℚ) :
    Bool × Vec3 :=
  (true, ops.add upperIntersection (ops.scale up halfHeight))

/-- The `for` loop of `requiresSafeLanding` over the given float operations. -/
def clearingSearchWith (ops : LandingOps) (env : LandingEnv) (ray : RayOracle) (up : Vec3)
    (halfHeight : ℚ) (betterPositionOut : Vec3) :
    Nat → Vec3 → EntityItemID → List EntityItemID → ClearingOutcome
  | 0, upperIntersection, upperId, ignore =>
    ClearingOutcome.exhausted upperIntersection upperId ignore
  | remaining + 1, upperIntersection, upperId, ignore =>
    let ignore1 := ignore ++ [upperId]
    match findIntersectionWith ops ray upperIntersection up [] ignore1 with
    | none => ClearingOutcome.returned (false, betterPositionOut)
    | some (upperIntersection1, upperId1, upperNormal1) =>
      if env.isUp upperNormal1 then
        ClearingOutcome.returned (mustMoveWith ops up upperIntersection1 halfHeight)
      else
        clearingSearchWith ops env ray up halfHeight betterPositionOut remaining
          upperIntersection1 upperId1 ignore1

/-- The last part of `requiresSafeLanding` over the given float operations. -/
def castFromAboveWith (ops : LandingOps) (env : LandingEnv) (ray : RayOracle)
    (capsuleCenter up : Vec3) (halfHeight : ℚ) (betterPositionOut : Vec3)
    (upperId : EntityItemID) (ignore : List EntityItemID) : Bool × Vec3 :=
  let includeIds := [upperId]
  let skyHigh := ops.scale up env.TREE_SCALE
  let fromAbove := ops.add capsuleCenter skyHigh
  match findIntersectionWith ops ray fromAbove (ops.neg up) includeIds ignore with
  | none => (false, betterPositionOut)
  | some (upperIntersection, _, _) => mustMoveWith ops up upperIntersection halfHeight

/-- `MyAvatar::requiresSafeLanding` over the given float operations: the half
height is `fl (0.5 * getHeight())`, and the gap test compares
`glm::distance(upperIntersection, lowerIntersection)` with
`fl (halfHeightFactor * halfHeight)`. -/
def requiresSafeLandingWith (ops : LandingOps) (env : LandingEnv)
    (positionIn betterPositionOut : Vec3) : Bool × Vec3 :=
  let halfHeight := ops.fl (1 / 2 * env.height)
  if halfHeight = 0 then (false, betterPositionOut)
  else
    match env.entityTree with
    | none => (false, betterPositionOut)
    | some ray =>
      let capsuleCenter := positionIn
      let up := env._worldUpDirection
      let down := ops.neg up
      match findIntersectionWith ops ray capsuleCenter up [] [] with
      | none => (false, betterPositionOut)
      | some (upperIntersection, upperId, upperNormal) =>
        match findIntersectionWith ops ray capsuleCenter down [] [] with
        | none => (false, betterPositionOut)
        | some (lowerIntersection, _, lowerNormal) =>
          if env.isDown upperNormal && env.isUp lowerNormal then
            if ops.distance upperIntersection lowerIntersection >
                ops.fl (halfHeightFactor * halfHeight) then
              match clearingSearchWith ops env ray up halfHeight betterPositionOut
                  iterationLimit upperIntersection upperId [] with
              | ClearingOutcome.returned result => result
              | ClearingOutcome.exhausted _ upperId1 ignore1 =>
                castFromAboveWith ops env ray capsuleCenter up halfHeight betterPositionOut
                  upperId1 ignore1
            else
              castFromAboveWith ops env ray capsuleCenter up halfHeight betterPositionOut
                upperId []
          else
            castFromAboveWith ops env ray capsuleCenter up halfHeight betterPositionOut
              upperId []

/-- The clearing search over the given float operations ends in "nothing more
above": within the given number of re-casts a re-cast misses before any re-cast
hits an upward-facing surface. -/
def clearAboveWith (ops : LandingOps) (env : LandingEnv) (ray : RayOracle) (up : Vec3) :
    Nat → Vec3 → EntityItemID → List EntityItemID → Prop
  | 0, _, _, _ => False
  | remaining + 1, upperIntersection, upperId, ignore =>
    match ray upperIntersection up [] (ignore ++ [upperId]) with
    | none => True
    | some hit =>
      env.isUp hit.normal = false ∧
        clearAboveWith ops env ray up remaining
          (ops.add upperIntersection (ops.scale up hit.distance)) hit.entityID
          (ignore ++ [upperId])

/-- Float operations for the examples, all of whose quantities are exactly
representable: no rounding, exact vector arithmetic, and as distance the sum of
the coordinate differences, which is the Euclidean distance for two points on
one vertical line. -/
def sampleLandingOps : LandingOps :=
  { fl := fun x => x
    add := Vec3.add
    scale := Vec3.scale
    neg := Vec3.neg
    distance := fun a b => |a.x - b.x| + |a.y - b.y| + |a.z - b.z| }

/-- Every timer is at most `FOLLOW_TIME`.  This holds in every state the helper
can be in: the constructor sets the timers to 0, `activate` stores
`FOLLOW_TIME`, `deactivate` stores 0, and `decrementTimeRemaining` subtracts
the follow time of the character controller. -/
def timersWithinFollowTime (f : FollowHelper) : Prop :=
  ∀ t, f._timeRemaining t ≤ FOLLOW_TIME

/-! ## Theorems -/

/-- The magnitude of the geared speed, as a cascade on the stick magnitude. -/
theorem abs_calculateGearedSpeed (s : GearSettings) (x : ℚ) :
    |calculateGearedSpeed s x| =
      if |x| > getDriveGear5 s then 1
      else if |x| > getDriveGear4 s then 8 / 10
      else if |x| > getDriveGear3 s then 6 / 10
      else if |x| > getDriveGear2 s then 4 / 10
      else if |x| > getDriveGear1 s then 2 / 10
      else 0 := by
  unfold calculateGearedSpeed
  simp only []
  split_ifs <;> norm_num [abs_mul, abs_of_nonneg]

/-- C2: `calculateGearedSpeed` is monotone in the stick magnitude, for every
setting of the gear breakpoints: `|x| ≤ |y|` gives
`|calculateGearedSpeed x| ≤ |calculateGearedSpeed y|`. -/
theorem calculateGearedSpeed_monotone (s : GearSettings) (x y : ℚ)
    (hxy : |x| ≤ |y|) :
    |calculateGearedSpeed s x| ≤ |calculateGearedSpeed s y| := by
  rw [abs_calculateGearedSpeed, abs_calculateGearedSpeed]
  split_ifs <;> (try simp only [gt_iff_lt, not_lt] at *) <;> linarith

/-- Witness for C2 at stick values `-0.25` and `0.45` on `sampleGears`. -/
theorem calculateGearedSpeed_monotone_witness :
    |(-(1 / 4) : ℚ)| ≤ |(9 / 20 : ℚ)| ∧
      |calculateGearedSpeed sampleGears (-(1 / 4))| ≤
        |calculateGearedSpeed sampleGears (9 / 20)| :=
  ⟨by norm_num [abs_of_nonneg],
   calculateGearedSpeed_monotone sampleGears (-(1 / 4)) (9 / 20)
     (by norm_num [abs_of_nonneg])⟩

/-- C3 (as stated) fails for a negative stick value: at `-1` on `sampleGears`
the function returns `-1`, which is none of `0, 0.2, 0.4, 0.6, 0.8, 1.0`. -/
theorem calculateGearedSpeed_negative_not_in_six :
    calculateGearedSpeed sampleGears (-1) = -1 ∧
    ¬ (calculateGearedSpeed sampleGears (-1) = 0 ∨
       calculateGearedSpeed sampleGears (-1) = 2 / 10 ∨
       calculateGearedSpeed sampleGears (-1) = 4 / 10 ∨
       calculateGearedSpeed sampleGears (-1) = 6 / 10 ∨
       calculateGearedSpeed sampleGears (-1) = 8 / 10 ∨
       calculateGearedSpeed sampleGears (-1) = 1) := by
  have h : calculateGearedSpeed sampleGears (-1) = -1 := by
    simp [calculateGearedSpeed, sampleGears, getDriveGear5, CONTROLS_ANALOG,
      CONTROLS_ANALOG_PLUS]
    norm_num
  rw [h]
  norm_num

/-- C3 (amended): for every stick value and every setting of the breakpoints,
the magnitude of the value returned by `calculateGearedSpeed` is one of
`0, 0.2, 0.4, 0.6, 0.8, 1.0`, and the value itself is that magnitude for a
non-negative stick value and its negation for a negative one. -/
theorem calculateGearedSpeed_magnitude_in_six (s : GearSettings) (x : ℚ) :
    (|calculateGearedSpeed s x| = 0 ∨ |calculateGearedSpeed s x| = 2 / 10 ∨
      |calculateGearedSpeed s x| = 4 / 10 ∨ |calculateGearedSpeed s x| = 6 / 10 ∨
      |calculateGearedSpeed s x| = 8 / 10 ∨ |calculateGearedSpeed s x| = 1) ∧
    calculateGearedSpeed s x =
      (if x < 0 then -1 else 1) * |calculateGearedSpeed s x| := by
  constructor
  · rw [abs_calculateGearedSpeed]
    split_ifs <;> simp
  · rw [abs_calculateGearedSpeed]
    unfold calculateGearedSpeed
    simp only []
    split_ifs <;> ring

/-! ### Follow timers -/

/-- C4 (as stated) fails: from the state right after `activate(Rotation)`
(timers 0.5, 0, 0, all non-negative) and `dt = 0.1 ≥ 0`, after
`decrementTimeRemaining` the horizontal and vertical timers are `-0.1`. -/
theorem decrementTimeRemaining_goes_negative :
    (∀ i, 0 ≤ rotationOnlyFollow._timeRemaining i) ∧ (0 : ℚ) ≤ 1 / 10 ∧
    (rotationOnlyFollow.decrementTimeRemaining (1 / 10))._timeRemaining
        FollowType.Horizontal = -(1 / 10) ∧
    (rotationOnlyFollow.decrementTimeRemaining (1 / 10))._timeRemaining
        FollowType.Vertical = -(1 / 10) ∧
    ¬ (0 ≤ (rotationOnlyFollow.decrementTimeRemaining (1 / 10))._timeRemaining
        FollowType.Horizontal) := by
  refine ⟨?_, by norm_num, ?_, ?_, ?_⟩
  · intro i
    cases i <;> simp [rotationOnlyFollow, FOLLOW_TIME]
  all_goals
    simp [FollowHelper.decrementTimeRemaining, rotationOnlyFollow]

/-- C4 (amended): `decrementTimeRemaining(dt)` subtracts `dt` from each of the
three timers without a floor, and changes nothing else; so a timer is `≥ 0`
afterwards exactly when it was `≥ dt` before. -/
theorem decrementTimeRemaining_linear (f : FollowHelper) (dt : ℚ) (i : FollowType) :
    (f.decrementTimeRemaining dt)._timeRemaining i = f._timeRemaining i - dt ∧
    (0 ≤ (f.decrementTimeRemaining dt)._timeRemaining i ↔ dt ≤ f._timeRemaining i) ∧
    (f.decrementTimeRemaining dt)._forceActivateRotation = f._forceActivateRotation ∧
    (f.decrementTimeRemaining dt)._forceActivateVertical = f._forceActivateVertical ∧
    (f.decrementTimeRemaining dt)._forceActivateHorizontal = f._forceActivateHorizontal ∧
    (f.decrementTimeRemaining dt)._squatDetected = f._squatDetected := by
  simp [FollowHelper.decrementTimeRemaining]

/-! ### Sit/stand classifier -/

/-- One standing-state step with a reading at or above the sitting threshold:
the tipping point follows the standing-height mode and the timer is cleared. -/
theorem updateSitStandState_standing_above (s : SitStandState) (h dt : ℚ)
    (hl : s._lockSitStandState = false) (ha : s._isAway = false)
    (hv : s.headPoseValid = true) (hs : s._isInSittingState = false)
    (hh : ¬ h < SITTING_HEIGHT_MULTIPLE * s._tippingPoint) :
    updateSitStandState s h dt =
      { s with _tippingPoint := s._currentStandingHeight, _sitStandStateTimer := 0 } := by
  simp [updateSitStandState, hl, ha, hv, hs, hh]

/-- One standing-state step with a reading below the sitting threshold while
the accumulated time does not exceed the timeout: only the timer advances. -/
theorem updateSitStandState_standing_below_wait (s : SitStandState) (h dt : ℚ)
    (hl : s._lockSitStandState = false) (ha : s._isAway = false)
    (hv : s.headPoseValid = true) (hs : s._isInSittingState = false)
    (hh : h < SITTING_HEIGHT_MULTIPLE * s._tippingPoint)
    (ht : ¬ s._sitStandStateTimer + dt > SITTING_TIMEOUT) :
    updateSitStandState s h dt =
      { s with _sitStandStateTimer := s._sitStandStateTimer + dt } := by
  simp [updateSitStandState, hl, ha, hv, hs, hh, ht]

/-- One standing-state step with a reading below the sitting threshold once the
accumulated time exceeds the timeout: the state switches to sitting. -/
theorem updateSitStandState_standing_below_switch (s : SitStandState) (h dt : ℚ)
    (hl : s._lockSitStandState = false) (ha : s._isAway = false)
    (hv : s.headPoseValid = true) (hs : s._isInSittingState = false)
    (hh : h < SITTING_HEIGHT_MULTIPLE * s._tippingPoint)
    (ht : s._sitStandStateTimer + dt > SITTING_TIMEOUT) :
    updateSitStandState s h dt =
      setIsInSittingState
        { s with _sitStandStateTimer := s._sitStandStateTimer + dt
                 _averageUserHeightSensorSpace := h
                 _tippingPoint := h } true := by
  simp [updateSitStandState, hl, ha, hv, hs, hh, ht]

/-- Standing, reading not below the threshold, standing-height mode equal to
the tipping point: the step clears the timer and keeps everything else. -/
theorem updateSitStandState_standingAt_above (s : SitStandState) (tp t h dt : ℚ)
    (hl : s._lockSitStandState = false) (ha : s._isAway = false)
    (hv : s.headPoseValid = true) (hs : s._isInSittingState = false)
    (hcs : s._currentStandingHeight = tp)
    (hh : ¬ h < SITTING_HEIGHT_MULTIPLE * tp) :
    updateSitStandState (standingAt s tp t) h dt = standingAt s tp 0 := by
  rw [updateSitStandState_standing_above (standingAt s tp t) h dt hl ha hv hs (by simpa [standingAt] using hh)]
  simp [standingAt, hcs]

/-- Standing, reading below the threshold, accumulated time not beyond the
timeout: the step only advances the timer. -/
theorem updateSitStandState_standingAt_wait (s : SitStandState) (tp t h dt : ℚ)
    (hl : s._lockSitStandState = false) (ha : s._isAway = false)
    (hv : s.headPoseValid = true) (hs : s._isInSittingState = false)
    (hh : h < SITTING_HEIGHT_MULTIPLE * tp)
    (ht : ¬ t + dt > SITTING_TIMEOUT) :
    updateSitStandState (standingAt s tp t) h dt = standingAt s tp (t + dt) := by
  rw [updateSitStandState_standing_below_wait (standingAt s tp t) h dt hl ha hv hs
    (by simpa [standingAt] using hh) (by simpa [standingAt] using ht)]
  simp [standingAt]

/-- Standing, reading below the threshold, accumulated time beyond the timeout:
the step switches to sitting. -/
theorem updateSitStandState_standingAt_switch (s : SitStandState) (tp t h dt : ℚ)
    (hl : s._lockSitStandState = false) (ha : s._isAway = false)
    (hv : s.headPoseValid = true) (hs : s._isInSittingState = false)
    (hh : h < SITTING_HEIGHT_MULTIPLE * tp)
    (ht : t + dt > SITTING_TIMEOUT) :
    (updateSitStandState (standingAt s tp t) h dt)._isInSittingState = true := by
  rw [updateSitStandState_standing_below_switch (standingAt s tp t) h dt hl ha hv hs
    (by simpa [standingAt] using hh) (by simpa [standingAt] using ht)]
  simp [setIsInSittingState]

/-- C5 (as stated) fails: on the scenario start and the eight scenario samples
the sitting flag is false after every sample, so there is no switch to sitting
(the claim asks for exactly one, at the last sample); the timer ends at exactly
4 s, which does not exceed `SITTING_TIMEOUT`. -/
theorem scenario_no_sit_transition :
    sittingTrace scenarioStart scenarioSamples =
      [false, false, false, false, false, false, false, false] ∧
    countSitTransitions scenarioStart._isInSittingState
      (sittingTrace scenarioStart scenarioSamples) = 0 ∧
    (feedSitStand scenarioStart scenarioSamples)._sitStandStateTimer = 4 := by
  have h : sittingTrace scenarioStart scenarioSamples =
      [false, false, false, false, false, false, false, false] := by
    simp [sittingTrace, scenarioSamples, scenarioStart, updateSitStandState,
      setIsInSittingState, SITTING_HEIGHT_MULTIPLE, SITTING_TIMEOUT]
    norm_num
  refine ⟨h, ?_, ?_⟩
  · rw [h]
    simp [countSitTransitions, scenarioStart]
  · simp [feedSitStand, scenarioSamples, scenarioStart, updateSitStandState,
      setIsInSittingState, SITTING_HEIGHT_MULTIPLE, SITTING_TIMEOUT]
    norm_num

/-- C5 (amended): starting unlocked, tracked, not away and standing with
tipping point and standing-height mode 1.7 m, the eight scenario samples with
`dt = 1` s cause no switch to sitting: the state is standing after every
sample and the timer ends at exactly 4 s, which does not exceed the 4 s
timeout (the comparison is strict); the switch to sitting happens at the next
reading below the threshold (a ninth sample 1.1 with `dt = 1`). -/
theorem scenario_sits_only_after_timeout_exceeded (s : SitStandState)
    (hl : s._lockSitStandState = false) (ha : s._isAway = false)
    (hv : s.headPoseValid = true) (hs : s._isInSittingState = false)
    (htp : s._tippingPoint = 17 / 10) (hcs : s._currentStandingHeight = 17 / 10) :
    sittingTrace s scenarioSamples =
      [false, false, false, false, false, false, false, false] ∧
    countSitTransitions s._isInSittingState (sittingTrace s scenarioSamples) = 0 ∧
    (feedSitStand s scenarioSamples)._sitStandStateTimer = 4 ∧
    (feedSitStand s scenarioSamples)._isInSittingState = false ∧
    (updateSitStandState (feedSitStand s scenarioSamples) (11 / 10) 1)._isInSittingState
      = true := by
  have e0 : updateSitStandState s (17 / 10) 1 = standingAt s (17 / 10) 0 := by
    rw [updateSitStandState_standing_above _ _ _ hl ha hv hs
      (by rw [htp]; norm_num [SITTING_HEIGHT_MULTIPLE])]
    simp [standingAt, hcs]
  have e1 : updateSitStandState (standingAt s (17 / 10) 0) (17 / 10) 1 =
      standingAt s (17 / 10) 0 :=
    updateSitStandState_standingAt_above s _ _ _ _ hl ha hv hs hcs
      (by norm_num [SITTING_HEIGHT_MULTIPLE])
  have e2 : updateSitStandState (standingAt s (17 / 10) 0) (165 / 100) 1 =
      standingAt s (17 / 10) 0 :=
    updateSitStandState_standingAt_above s _ _ _ _ hl ha hv hs hcs
      (by norm_num [SITTING_HEIGHT_MULTIPLE])
  have e3 : updateSitStandState (standingAt s (17 / 10) 0) (11 / 10) 1 =
      standingAt s (17 / 10) 1 := by
    rw [updateSitStandState_standingAt_wait s _ _ _ _ hl ha hv hs
      (by norm_num [SITTING_HEIGHT_MULTIPLE]) (by norm_num [SITTING_TIMEOUT])]
    norm_num
  have e4 : updateSitStandState (standingAt s (17 / 10) 1) (11 / 10) 1 =
      standingAt s (17 / 10) 2 := by
    rw [updateSitStandState_standingAt_wait s _ _ _ _ hl ha hv hs
      (by norm_num [SITTING_HEIGHT_MULTIPLE]) (by norm_num [SITTING_TIMEOUT])]
    norm_num
  have e5 : updateSitStandState (standingAt s (17 / 10) 2) (11 / 10) 1 =
      standingAt s (17 / 10) 3 := by
    rw [updateSitStandState_standingAt_wait s _ _ _ _ hl ha hv hs
      (by norm_num [SITTING_HEIGHT_MULTIPLE]) (by norm_num [SITTING_TIMEOUT])]
    norm_num
  have e6 : updateSitStandState (standingAt s (17 / 10) 3) (11 / 10) 1 =
      standingAt s (17 / 10) 4 := by
    rw [updateSitStandState_standingAt_wait s _ _ _ _ hl ha hv hs
      (by norm_num [SITTING_HEIGHT_MULTIPLE]) (by norm_num [SITTING_TIMEOUT])]
    norm_num
  have e7 : (updateSitStandState (standingAt s (17 / 10) 4) (11 / 10) 1)._isInSittingState
      = true :=
    updateSitStandState_standingAt_switch s _ _ _ _ hl ha hv hs
      (by norm_num [SITTING_HEIGHT_MULTIPLE]) (by norm_num [SITTING_TIMEOUT])
  have hf : feedSitStand s scenarioSamples = standingAt s (17 / 10) 4 := by
    simp only [feedSitStand, scenarioSamples, List.foldl, e0, e1, e2, e3, e4, e5, e6]
  have htr : sittingTrace s scenarioSamples =
      [false, false, false, false, false, false, false, false] := by
    simp only [sittingTrace, scenarioSamples, e0, e1, e2, e3, e4, e5, e6]
    simp [standingAt, hs]
  refine ⟨htr, ?_, ?_, ?_, ?_⟩
  · rw [htr, hs]
    simp [countSitTransitions]
  · rw [hf]
    simp [standingAt]
  · rw [hf]
    simp [standingAt, hs]
  · rw [hf]
    exact e7

/-- Witness for the amended C5 at `scenarioStart`. -/
theorem scenario_sits_only_after_timeout_exceeded_witness :
    sittingTrace scenarioStart scenarioSamples =
      [false, false, false, false, false, false, false, false] ∧
    countSitTransitions scenarioStart._isInSittingState
      (sittingTrace scenarioStart scenarioSamples) = 0 ∧
    (feedSitStand scenarioStart scenarioSamples)._sitStandStateTimer = 4 ∧
    (feedSitStand scenarioStart scenarioSamples)._isInSittingState = false ∧
    (updateSitStandState (feedSitStand scenarioStart scenarioSamples)
      (11 / 10) 1)._isInSittingState = true :=
  scenario_sits_only_after_timeout_exceeded scenarioStart rfl rfl rfl rfl rfl rfl

/-- C8: when the sit/stand state is locked, `updateSitStandState(h, dt)` leaves
the whole state as it was, for every reading `h` and step `dt`; in particular
the sitting flag, the tipping point, the average sensor-space height and the
timer. -/
theorem updateSitStandState_locked (s : SitStandState) (h dt : ℚ)
    (hl : s._lockSitStandState = true) :
    updateSitStandState s h dt = s := by
  simp [updateSitStandState, hl]

/-- Witness for C8: the scenario start with the lock set, reading 1.1, one
second. -/
theorem updateSitStandState_locked_witness :
    updateSitStandState { scenarioStart with _lockSitStandState := true } (11 / 10) 1 =
      { scenarioStart with _lockSitStandState := true } :=
  updateSitStandState_locked { scenarioStart with _lockSitStandState := true } (11 / 10) 1 rfl

/-! ### Drive keys -/

/-- An index in `0 .. n-1` passes the bounds check. -/
theorem checkedIndex_valid (n : Nat) (key : Int) (hk : 0 ≤ key ∧ key < n) :
    ∃ i : Fin n, checkedIndex n key = some i ∧ (i.val : Int) = key := by
  have h2 : key.toNat < n := by omega
  refine ⟨⟨key.toNat, h2⟩, ?_, ?_⟩
  · simp [checkedIndex, hk.1, h2]
  · simp [Int.toNat_of_nonneg hk.1]

/-- An index outside `0 .. n-1` fails the bounds check. -/
theorem checkedIndex_invalid (n : Nat) (key : Int) (hk : ¬ (0 ≤ key ∧ key < n)) :
    checkedIndex n key = none := by
  unfold checkedIndex
  rw [dif_neg]
  rintro ⟨h0, h1⟩
  exact hk ⟨h0, by omega⟩

/-- The bounds check returns the position named by the key. -/
theorem checkedIndex_val (n : Nat) (key : Int) (i : Fin n)
    (h : checkedIndex n key = some i) : (i.val : Int) = key := by
  unfold checkedIndex at h
  split_ifs at h with hc
  · simp only [Option.some.injEq] at h
    rw [← h]
    simp [Int.toNat_of_nonneg hc.1]

/-- C9: for a drive key `k` in range and a raw value `v` stored by
`setDriveKey(k, v)`: after `disableDriveKey(k)`, `getDriveKey(k)` is 0 while
`getRawDriveKey(k)` is still `v`, and every other key reads as before (both
accessors); after a following `enableDriveKey(k)`, `getDriveKey(k)` is `v`. -/
theorem driveKey_disable_masks_enable_restores {n : Nat} (s : DriveKeyState n)
    (k : Int) (v : ℚ) (hk : 0 ≤ k ∧ k < n) :
    getDriveKey (disableDriveKey (setDriveKey s k v) k) k = 0 ∧
    getRawDriveKey (disableDriveKey (setDriveKey s k v) k) k = v ∧
    (∀ j : Int, j ≠ k →
      getDriveKey (disableDriveKey (setDriveKey s k v) k) j =
        getDriveKey (setDriveKey s k v) j ∧
      getRawDriveKey (disableDriveKey (setDriveKey s k v) k) j =
        getRawDriveKey (setDriveKey s k v) j) ∧
    getDriveKey (enableDriveKey (disableDriveKey (setDriveKey s k v) k) k) k = v := by
  obtain ⟨i, hi, hik⟩ := checkedIndex_valid n k hk
  refine ⟨?_, ?_, ?_, ?_⟩
  · simp [getDriveKey, isDriveKeyDisabled, disableDriveKey, setDriveKey, hi]
  · simp [getRawDriveKey, disableDriveKey, setDriveKey, hi]
  · intro j hj
    cases hc : checkedIndex n j with
    | none =>
      simp [getDriveKey, isDriveKeyDisabled, getRawDriveKey, disableDriveKey, setDriveKey,
        hi, hc]
    | some a =>
      have ha : a ≠ i := by
        intro hai
        apply hj
        rw [← checkedIndex_val n j a hc, ← hik, hai]
      simp [getDriveKey, isDriveKeyDisabled, getRawDriveKey, disableDriveKey, setDriveKey,
        hi, hc, Function.update_noteq ha]
  · simp [getDriveKey, isDriveKeyDisabled, getRawDriveKey, enableDriveKey, disableDriveKey,
      setDriveKey, hi]

/-- Witness for C9: key 2 of twelve, raw value 0.75. -/
theorem driveKey_disable_masks_enable_restores_witness :
    ((0 : Int) ≤ 2 ∧ (2 : Int) < (12 : Nat)) ∧
    getDriveKey (disableDriveKey (setDriveKey idleDriveKeys 2 (3 / 4)) 2) 2 = 0 ∧
    getRawDriveKey (disableDriveKey (setDriveKey idleDriveKeys 2 (3 / 4)) 2) 2 = 3 / 4 ∧
    getDriveKey (enableDriveKey (disableDriveKey (setDriveKey idleDriveKeys 2 (3 / 4)) 2) 2) 2
      = 3 / 4 :=
  have h := driveKey_disable_masks_enable_restores idleDriveKeys 2 (3 / 4) (by decide)
  ⟨by decide, h.1, h.2.1, h.2.2.2⟩

/-- C10: for a drive-key index outside `0 .. MAX_DRIVE_KEYS-1`, `setDriveKey`,
`disableDriveKey` and `enableDriveKey` leave the whole state (all raw values
and all disabled bits) unchanged, and `getDriveKey` and `getRawDriveKey`
return 0. -/
theorem driveKey_out_of_range_noop {n : Nat} (s : DriveKeyState n) (k : Int) (v : ℚ)
    (hk : ¬ (0 ≤ k ∧ k < n)) :
    setDriveKey s k v = s ∧ disableDriveKey s k = s ∧ enableDriveKey s k = s ∧
    getDriveKey s k = 0 ∧ getRawDriveKey s k = 0 := by
  have hc := checkedIndex_invalid n k hk
  simp [setDriveKey, disableDriveKey, enableDriveKey, getDriveKey, getRawDriveKey,
    isDriveKeyDisabled, hc]

/-- Witness for C10: index 12 (that is `MAX_DRIVE_KEYS` itself) of twelve keys
on a state whose raw values are all 0.75. -/
theorem driveKey_out_of_range_noop_witness :
    ¬ ((0 : Int) ≤ 12 ∧ (12 : Int) < (12 : Nat)) ∧
    getDriveKey pushedDriveKeys 12 = 0 ∧
    getRawDriveKey pushedDriveKeys 12 = 0 ∧
    setDriveKey pushedDriveKeys 12 1 = pushedDriveKeys :=
  have h := driveKey_out_of_range_noop pushedDriveKeys 12 1 (by decide)
  ⟨by decide, h.2.2.2.1, h.2.2.2.2, h.1⟩

/-! ### Safe landing probe -/

/-- The exact-arithmetic test agrees with comparing the Euclidean distance (a
real square root) against the bound. -/
theorem distanceExceeds_iff_sqrt (a b : Vec3) (c : ℚ) :
    Vec3.distanceExceeds a b c = true ↔
      (c : ℝ) < Real.sqrt ((Vec3.distanceSq a b : ℚ) : ℝ) := by
  unfold Vec3.distanceExceeds
  by_cases hc : c < 0
  · have hc' : (c : ℝ) < 0 := by exact_mod_cast hc
    have h0 := Real.sqrt_nonneg ((Vec3.distanceSq a b : ℚ) : ℝ)
    simp only [hc, decide_True, Bool.true_or, true_iff]
    linarith
  · have hc' : (0 : ℝ) ≤ (c : ℝ) := by exact_mod_cast not_lt.mp hc
    rw [Real.lt_sqrt hc']
    simp only [hc, decide_False, Bool.false_or, decide_eq_true_eq]
    rw [pow_two]
    constructor
    · intro h
      exact_mod_cast h
    · intro h
      exact_mod_cast h

/-- A gap that exceeds 2.25 times the avatar height also exceeds 2.25 times
half the avatar height, the bound the code tests. -/
theorem distanceExceeds_half_of_full (a b : Vec3) (height : ℚ)
    (h : Vec3.distanceExceeds a b (halfHeightFactor * height) = true) :
    Vec3.distanceExceeds a b (halfHeightFactor * (1 / 2 * height)) = true := by
  unfold Vec3.distanceExceeds halfHeightFactor at *
  simp only [Bool.or_eq_true, decide_eq_true_eq] at *
  by_cases hh : height < 0
  · left
    linarith
  · right
    have hh' : 0 ≤ height := not_lt.mp hh
    rcases h with h | h
    · exfalso
      linarith
    · nlinarith [mul_nonneg hh' hh']

/-- When the clearing search is bound to end in a miss, the loop returns
`false` and leaves the output position untouched. -/
theorem clearingSearch_of_clearAbove (env : LandingEnv) (ray : RayOracle) (up : Vec3)
    (halfHeight : ℚ) (out : Vec3) :
    ∀ (n : Nat) (p : Vec3) (uid : EntityItemID) (ign : List EntityItemID),
      clearAbove env ray up n p uid ign →
      clearingSearch env ray up halfHeight out n p uid ign =
        ClearingOutcome.returned (false, out) := by
  intro n
  induction n with
  | zero =>
    intro p uid ign h
    exact absurd h (by simp [clearAbove])
  | succ k ih =>
    intro p uid ign h
    unfold clearAbove at h
    unfold clearingSearch findIntersection
    cases hr : ray p up [] (ign ++ [uid]) with
    | none => simp [hr]
    | some hit =>
      rw [hr] at h
      simp only [] at h
      simp only [hr, h.1, Bool.false_eq_true, if_false]
      exact ih _ _ _ h.2

/-- C6 (as stated) fails: in `enclosedScene` the upward and the downward ray
from the origin both hit, the hits are 10 m apart, more than 2.25 times the
avatar height of 2 m, and yet `requiresSafeLanding` returns `true` (with the
better position 7 m up), because the clearing search finds the top surface of
an enclosing entity. -/
theorem requiresSafeLanding_enclosed_returns_true :
    enclosedScene.entityTree = some enclosedRay ∧
    findIntersection enclosedRay ⟨0, 0, 0⟩ enclosedScene._worldUpDirection [] [] =
      some (⟨0, 5, 0⟩, 1, ⟨0, -1, 0⟩) ∧
    findIntersection enclosedRay ⟨0, 0, 0⟩ enclosedScene._worldUpDirection.neg [] [] =
      some (⟨0, -5, 0⟩, 2, ⟨0, 1, 0⟩) ∧
    Vec3.distanceExceeds ⟨0, 5, 0⟩ ⟨0, -5, 0⟩ (halfHeightFactor * enclosedScene.height)
      = true ∧
    requiresSafeLanding enclosedScene ⟨0, 0, 0⟩ ⟨9, 9, 9⟩ = (true, ⟨0, 7, 0⟩) := by
  refine ⟨rfl, ?_, ?_, ?_, ?_⟩
  · simp [findIntersection, enclosedScene, enclosedRay, Vec3.add, Vec3.scale]
  · simp [findIntersection, enclosedScene, enclosedRay, Vec3.add, Vec3.scale, Vec3.neg]
    norm_num
  · simp [Vec3.distanceExceeds, Vec3.distanceSq, halfHeightFactor, enclosedScene]
    norm_num
  · simp [requiresSafeLanding, enclosedScene, enclosedRay, findIntersection, Vec3.add, Vec3.scale,
      Vec3.neg, Vec3.distanceExceeds, Vec3.distanceSq, halfHeightFactor, iterationLimit,
      clearingSearch, mustMove]
    norm_num



/-- C7: if the avatar has zero height, or the upward ray from the capsule
centre hits nothing, or the downward ray hits nothing, `requiresSafeLanding`
returns `false` (and leaves the output position untouched). -/
theorem requiresSafeLanding_open_above_or_below (env : LandingEnv) (ray : RayOracle)
    (positionIn out : Vec3)
    (h : env.height = 0 ∨
      (env.entityTree = some ray ∧
        (ray positionIn env._worldUpDirection [] [] = none ∨
         ray positionIn env._worldUpDirection.neg [] [] = none))) :
    requiresSafeLanding env positionIn out = (false, out) := by
  unfold requiresSafeLanding
  simp only []
  rcases h with h | ⟨htree, h | h⟩
  · simp [h]
  · split_ifs with h0
    · rfl
    · rw [htree]
      simp [findIntersection, h]
  · split_ifs with h0
    · rfl
    · rw [htree]
      simp only [findIntersection, h]
      cases ray positionIn env._worldUpDirection [] [] <;> rfl

/-- Witness for C7: in `ceilingOnlyScene` the downward ray hits nothing. -/
theorem requiresSafeLanding_open_above_or_below_witness :
    requiresSafeLanding ceilingOnlyScene ⟨0, 0, 0⟩ ⟨9, 9, 9⟩ = (false, ⟨9, 9, 9⟩) :=
  requiresSafeLanding_open_above_or_below ceilingOnlyScene ceilingOnlyRay
    ⟨0, 0, 0⟩ ⟨9, 9, 9⟩
    (Or.inr ⟨rfl, Or.inr (by simp [ceilingOnlyScene, ceilingOnlyRay, Vec3.neg])⟩)

/-! ### Overlap removal -/

/-- The last element of `a ++ y :: b` is the last element of `y :: b`. -/
theorem getLastD_append_cons (a b : List QUuid) (y d : QUuid) :
    (a ++ y :: b).getLastD d = b.getLastD y := by
  induction a generalizing d with
  | nil => exact List.getLastD_cons d y b
  | cons h t ih =>
    rw [List.cons_append, List.getLastD_cons]
    exact ih h

/-- Overwriting position `a.length` of `a ++ y :: b` with the last element and
popping the back keeps `a` and rearranges `b`. -/
theorem swapRemove_append (a b : List QUuid) (y d : QUuid) :
    List.dropLast (List.set (a ++ y :: b) a.length ((a ++ y :: b).getLastD d)) =
      a ++ List.dropLast (b.getLastD y :: b) := by
  rw [getLastD_append_cons, List.set_append_right _ _ (le_refl _), Nat.sub_self,
    List.set_cons_zero, List.dropLast_append_cons]

/-- Moving the last element of `b` to the front keeps the members of `b`. -/
theorem mem_dropLast_getLastD_cons (b : List QUuid) (y x : QUuid) :
    x ∈ List.dropLast (b.getLastD y :: b) ↔ x ∈ b := by
  cases b with
  | nil => simp [List.getLastD_nil]
  | cons h t =>
    have hne : (h :: t) ≠ [] := List.cons_ne_nil h t
    have hsplit := List.dropLast_append_getLast hne
    have hlast : (h :: t).getLastD y = (h :: t).getLast hne := by
      rw [List.getLastD_cons, List.getLast_eq_getLastD]
    rw [hlast, List.dropLast_cons₂, List.mem_cons]
    constructor
    · rintro (hx | hx)
      · rw [hx]
        exact List.getLast_mem hne
      · exact List.mem_of_mem_dropLast hx
    · intro hx
      rw [← hsplit, List.mem_append, List.mem_singleton] at hx
      exact hx.symm

/-- Moving the last element of `b` to the front keeps its length. -/
theorem length_dropLast_getLastD_cons (b : List QUuid) (y : QUuid) :
    (List.dropLast (b.getLastD y :: b)).length = b.length := by
  rw [List.length_dropLast, List.length_cons, Nat.add_sub_cancel]

/-- Loop invariant of `removeAllInstancesHelper`: with enough iterations for
the part `b` not yet scanned, the result holds the scanned part `a` and the
members of `b` other than `id`. -/
theorem mem_removeAllInstancesLoop (id : QUuid) :
    ∀ (fuel : Nat) (a b : List QUuid), b.length ≤ fuel →
      ∀ x, x ∈ removeAllInstancesLoop id fuel a.length (a ++ b) ↔
        (x ∈ a ∨ (x ∈ b ∧ x ≠ id)) := by
  intro fuel
  induction fuel with
  | zero =>
    intro a b hb x
    have hb0 : b = [] := List.length_eq_zero.mp (Nat.le_zero.mp hb)
    subst hb0
    simp [removeAllInstancesLoop]
  | succ k ih =>
    intro a b hb x
    cases b with
    | nil => simp [removeAllInstancesLoop]
    | cons y b' =>
      have hlt : a.length < (a ++ y :: b').length := by simp
      have hget : (a ++ y :: b').getD a.length id = y := by
        rw [List.getD_append_right _ _ _ _ (le_refl _), Nat.sub_self, List.getD_cons_zero]
      rw [removeAllInstancesLoop, if_pos hlt, hget]
      by_cases hy : id = y
      · rw [if_pos hy, swapRemove_append]
        have hlen : (List.dropLast (b'.getLastD y :: b')).length ≤ k := by
          rw [length_dropLast_getLastD_cons]
          exact Nat.le_of_succ_le_succ hb
        rw [ih a _ hlen x, mem_dropLast_getLastD_cons, List.mem_cons]
        constructor
        · rintro (h | ⟨h1, h2⟩)
          · exact Or.inl h
          · exact Or.inr ⟨Or.inr h1, h2⟩
        · rintro (h | ⟨h1 | h1, h2⟩)
          · exact Or.inl h
          · exact absurd (h1.trans hy.symm) h2
          · exact Or.inr ⟨h1, h2⟩
      · rw [if_neg hy]
        have e : a ++ y :: b' = (a ++ [y]) ++ b' := by simp
        have el : a.length + 1 = (a ++ [y]).length := by simp
        rw [e, el, ih (a ++ [y]) b' (Nat.le_of_succ_le_succ hb) x, List.mem_append,
          List.mem_singleton, List.mem_cons]
        constructor
        · rintro ((h | h) | ⟨h1, h2⟩)
          · exact Or.inl h
          · exact Or.inr ⟨Or.inl h, fun hx => hy (hx.symm.trans h)⟩
          · exact Or.inr ⟨Or.inr h1, h2⟩
        · rintro (h | ⟨h1 | h1, h2⟩)
          · exact Or.inl (Or.inl h)
          · exact Or.inl (Or.inr h1)
          · exact Or.inr ⟨h1, h2⟩

/-- After `removeAllInstancesHelper(id, v)` the vector holds exactly the members
of `v` other than `id`. -/
theorem mem_removeAllInstancesHelper (id x : QUuid) (v : List QUuid) :
    x ∈ removeAllInstancesHelper id v ↔ (x ∈ v ∧ x ≠ id) := by
  have h := mem_removeAllInstancesLoop id v.length [] v (le_refl _) x
  simpa [removeAllInstancesHelper] using h

/-- After removing each ID of `ids`, the vector holds the members of `v` that
are not in `ids`. -/
theorem mem_removeEach (x : QUuid) :
    ∀ (ids v : List QUuid), x ∈ removeEach ids v ↔ (x ∈ v ∧ x ∉ ids) := by
  intro ids
  induction ids with
  | nil => intro v; simp [removeEach]
  | cons id rest ih =>
    intro v
    have h := ih (removeAllInstancesHelper id v)
    unfold removeEach at h ⊢
    rw [List.foldl_cons, h, mem_removeAllInstancesHelper, List.mem_cons]
    constructor
    · rintro ⟨⟨h1, h2⟩, h3⟩
      exact ⟨h1, fun hx => hx.elim h2 h3⟩
    · rintro ⟨h1, h2⟩
      exact ⟨⟨h1, fun hx => h2 (Or.inl hx)⟩, fun hx => h2 (Or.inr hx)⟩

/-- The first overlap loop, field by field. -/
theorem removeOverlap_first_loop :
    ∀ (ids : List QUuid) (l : PendingLists),
      ids.foldl
        (fun acc id =>
          { acc with
            cachedBlobsToUpdate := removeAllInstancesHelper id acc.cachedBlobsToUpdate
            entitiesToAdd := removeAllInstancesHelper id acc.entitiesToAdd
            entitiesToUpdate := removeAllInstancesHelper id acc.entitiesToUpdate })
        l =
      { l with cachedBlobsToUpdate := removeEach ids l.cachedBlobsToUpdate
               entitiesToAdd := removeEach ids l.entitiesToAdd
               entitiesToUpdate := removeEach ids l.entitiesToUpdate } := by
  intro ids
  induction ids with
  | nil => intro l; simp [removeEach]
  | cons id rest ih =>
    intro l
    rw [List.foldl_cons, ih]
    simp [removeEach]

/-- The second overlap loop, field by field. -/
theorem removeOverlap_second_loop :
    ∀ (ids : List QUuid) (l : PendingLists),
      ids.foldl
        (fun acc id =>
          { acc with
            entitiesToUpdate := removeAllInstancesHelper id acc.entitiesToUpdate
            cachedBlobsToUpdate := removeAllInstancesHelper id acc.cachedBlobsToUpdate })
        l =
      { l with entitiesToUpdate := removeEach ids l.entitiesToUpdate
               cachedBlobsToUpdate := removeEach ids l.cachedBlobsToUpdate } := by
  intro ids
  induction ids with
  | nil => intro l; simp [removeEach]
  | cons id rest ih =>
    intro l
    rw [List.foldl_cons, ih]
    simp [removeEach]

/-- The third overlap loop, field by field. -/
theorem removeOverlap_third_loop :
    ∀ (ids : List QUuid) (l : PendingLists),
      ids.foldl
        (fun acc id =>
          { acc with
            entitiesToUpdate := removeAllInstancesHelper id acc.entitiesToUpdate })
        l =
      { l with entitiesToUpdate := removeEach ids l.entitiesToUpdate } := by
  intro ids
  induction ids with
  | nil => intro l; simp [removeEach]
  | cons id rest ih =>
    intro l
    rw [List.foldl_cons, ih]
    simp [removeEach]

/-- The five vectors after the overlap removal. -/
theorem removeOverlap_eq (l : PendingLists) :
    removeOverlap l =
      { cachedBlobsToDelete := l.cachedBlobsToDelete
        entitiesToDelete := l.entitiesToDelete
        entitiesToAdd := removeEach l.entitiesToDelete l.entitiesToAdd
        cachedBlobsToUpdate :=
          removeEach l.cachedBlobsToDelete (removeEach l.entitiesToDelete l.cachedBlobsToUpdate)
        entitiesToUpdate :=
          removeEach (removeEach l.entitiesToDelete l.entitiesToAdd)
            (removeEach l.cachedBlobsToDelete
              (removeEach l.entitiesToDelete l.entitiesToUpdate)) } := by
  unfold removeOverlap
  simp only [removeOverlap_first_loop, removeOverlap_second_loop, removeOverlap_third_loop]

/-! ### Avatar-entity reconciliation -/

/-- The add loop calls `addEntity` only for IDs of the list it walks, and never
calls `updateEntity`. -/
theorem addRealEntities_only_listed (env : ReconcilerEnv) (myID : QUuid)
    (cached : AvatarEntityMap) (id : QUuid) :
    ∀ (ids : List QUuid) (acc : List QUuid × List Effect),
      (id ∉ ids → noAddOrUpdateFor id acc.2 = true →
        noAddOrUpdateFor id
          (ids.foldl
            (fun acc id =>
              match (cached.find id).bind env.blobToProperties with
              | none => (removeAllInstancesHelper id acc.1, acc.2)
              | some properties =>
                (acc.1, acc.2 ++
                  [Effect.addEntity id (sanitizeAvatarEntityProperties env myID properties)] ++
                  (if env.addEntitySucceeds id
                      (sanitizeAvatarEntityProperties env myID properties) then
                    [Effect.queueEditAvatarEntityMessage id] else [])))
            acc).2 = true) ∧
      (noUpdateFor id acc.2 = true →
        noUpdateFor id
          (ids.foldl
            (fun acc id =>
              match (cached.find id).bind env.blobToProperties with
              | none => (removeAllInstancesHelper id acc.1, acc.2)
              | some properties =>
                (acc.1, acc.2 ++
                  [Effect.addEntity id (sanitizeAvatarEntityProperties env myID properties)] ++
                  (if env.addEntitySucceeds id
                      (sanitizeAvatarEntityProperties env myID properties) then
                    [Effect.queueEditAvatarEntityMessage id] else [])))
            acc).2 = true) := by
  intro ids
  induction ids with
  | nil => intro acc; exact ⟨fun _ h => h, fun h => h⟩
  | cons i rest ih =>
    intro acc
    rw [List.foldl_cons]
    constructor
    · intro hid hacc
      have hne : i ≠ id := fun h => hid (h ▸ List.mem_cons_self _ _)
      have hrest : id ∉ rest := fun h => hid (List.mem_cons_of_mem _ h)
      apply (ih _).1 hrest
      cases (cached.find i).bind env.blobToProperties with
      | none => exact hacc
      | some properties =>
        simp only [noAddOrUpdateFor, List.all_append, Bool.and_eq_true] at hacc ⊢
        refine ⟨⟨hacc, ?_⟩, ?_⟩
        · simp [hne]
        · split_ifs <;> simp
    · intro hacc
      apply (ih _).2
      cases (cached.find i).bind env.blobToProperties with
      | none => exact hacc
      | some properties =>
        simp only [noUpdateFor, List.all_append, Bool.and_eq_true] at hacc ⊢
        refine ⟨⟨hacc, ?_⟩, ?_⟩
        · simp
        · split_ifs <;> simp

/-- The change loop calls `updateEntity` only for IDs of the list it walks, and
never calls `addEntity`. -/
theorem changeRealEntities_only_listed (env : ReconcilerEnv) (myID : QUuid)
    (cached : AvatarEntityMap) (id : QUuid) :
    ∀ (ids : List QUuid) (acc : List Effect),
      id ∉ ids → noAddOrUpdateFor id acc = true →
        noAddOrUpdateFor id
          (ids.foldl
            (fun acc id =>
              match (cached.find id).bind env.blobToProperties with
              | none => acc
              | some properties =>
                acc ++
                  [Effect.updateEntity id
                    (sanitizeAvatarEntityProperties env myID properties)] ++
                  (if env.updateEntitySucceeds id
                      (sanitizeAvatarEntityProperties env myID properties) then
                    [Effect.queueEditAvatarEntityMessage id] else []))
            acc) = true := by
  intro ids
  induction ids with
  | nil => intro acc _ h; exact h
  | cons i rest ih =>
    intro acc hid hacc
    rw [List.foldl_cons]
    have hne : i ≠ id := fun h => hid (h ▸ List.mem_cons_self _ _)
    have hrest : id ∉ rest := fun h => hid (List.mem_cons_of_mem _ h)
    apply ih _ hrest
    cases (cached.find i).bind env.blobToProperties with
    | none => exact hacc
    | some properties =>
      simp only [noAddOrUpdateFor, List.all_append, Bool.and_eq_true] at hacc ⊢
      refine ⟨⟨hacc, ?_⟩, ?_⟩
      · simp [hne]
      · split_ifs <;> simp

/-- Having neither an add nor an update for `id` implies having no update. -/
theorem noUpdateFor_of_noAddOrUpdateFor (id : QUuid) (effects : List Effect)
    (h : noAddOrUpdateFor id effects = true) : noUpdateFor id effects = true := by
  simp only [noAddOrUpdateFor, noUpdateFor, List.all_eq_true] at h ⊢
  intro e he
  have := h e he
  cases e <;> simp_all

/-- Deleting tree entities is neither an add nor an update. -/
theorem noAddOrUpdateFor_deleteEntity (id : QUuid) (ids : List QUuid) :
    noAddOrUpdateFor id (ids.map Effect.deleteEntity) = true := by
  simp [noAddOrUpdateFor, List.all_eq_true]

/-- Marking traits deleted is neither an add nor an update. -/
theorem noAddOrUpdateFor_deleteTraits (env : ReconcilerEnv) (id : QUuid)
    (packed : AvatarEntityMap) (a b : List QUuid) :
    noAddOrUpdateFor id (deleteTraits env packed a b) = true := by
  unfold deleteTraits
  split_ifs
  · simp only [noAddOrUpdateFor, List.all_eq_true, List.mem_append, List.mem_map]
    rintro e (⟨i, _, rfl⟩ | ⟨i, _, rfl⟩) <;> rfl
  · rfl

/-- Delete dominance as the code implements it (no reload pending): an ID
queued in `_entitiesToDelete` gets neither `addEntity` nor `updateEntity` in the
pass, and an ID queued in `_cachedAvatarEntityBlobsToDelete` gets no
`updateEntity`. -/
theorem handleChangedAvatarEntityData_delete_dominance (env : ReconcilerEnv)
    (s : AvatarEntityState) (id : QUuid)
    (hreload : s._reloadAvatarEntityDataFromSettings = false) :
    (id ∈ s._entitiesToDelete →
      noAddOrUpdateFor id (handleChangedAvatarEntityData env s).2 = true) ∧
    (id ∈ s._cachedAvatarEntityBlobsToDelete →
      noUpdateFor id (handleChangedAvatarEntityData env s).2 = true) := by
  unfold handleChangedAvatarEntityData
  simp only [hreload, Bool.false_eq_true, if_false]
  split_ifs with h1 h2
  · exact ⟨fun _ => rfl, fun _ => rfl⟩
  · exact ⟨fun _ => rfl, fun _ => rfl⟩
  · simp only [removeOverlap_eq]
    constructor
    · intro hid
      have hadd : id ∉ removeEach s._entitiesToDelete s._entitiesToAdd := by
        rw [mem_removeEach]
        exact fun h => h.2 hid
      have hupd : id ∉ removeEach (removeEach s._entitiesToDelete s._entitiesToAdd)
          (removeEach s._cachedAvatarEntityBlobsToDelete
            (removeEach s._entitiesToDelete s._entitiesToUpdate)) := by
        rw [mem_removeEach, mem_removeEach, mem_removeEach]
        exact fun h => h.1.1.2 hid
      simp only [noAddOrUpdateFor, List.all_append, Bool.and_eq_true]
      refine ⟨⟨⟨?_, ?_⟩, ?_⟩, ?_⟩
      · exact noAddOrUpdateFor_deleteEntity id _
      · exact (addRealEntities_only_listed env _ _ id _ _).1 hadd rfl
      · exact changeRealEntities_only_listed env _ _ id _ _ hupd rfl
      · exact noAddOrUpdateFor_deleteTraits env id _ _ _
    · intro hid
      have hupd : id ∉ removeEach (removeEach s._entitiesToDelete s._entitiesToAdd)
          (removeEach s._cachedAvatarEntityBlobsToDelete
            (removeEach s._entitiesToDelete s._entitiesToUpdate)) := by
        rw [mem_removeEach, mem_removeEach]
        exact fun h => h.1.2 hid
      simp only [noUpdateFor, List.all_append, Bool.and_eq_true]
      refine ⟨⟨⟨?_, ?_⟩, ?_⟩, ?_⟩
      · exact noUpdateFor_of_noAddOrUpdateFor id _ (noAddOrUpdateFor_deleteEntity id _)
      · exact (addRealEntities_only_listed env _ _ id _ _).2 rfl
      · exact noUpdateFor_of_noAddOrUpdateFor id _
          (changeRealEntities_only_listed env _ _ id _ _ hupd rfl)
      · exact noUpdateFor_of_noAddOrUpdateFor id _ (noAddOrUpdateFor_deleteTraits env id _ _ _)

/-- C1 (evaluation at the failing input): with ID 7 queued both in
`_entitiesToAdd` and in `_cachedAvatarEntityBlobsToDelete`, the pass calls
`addEntity(7, ...)` and queues its edit message, although 7 is queued for
deletion; afterwards the cached blob of 7 is gone while the entity was
created.  The overlap removal for `cachedBlobsToDelete` clears
`entitiesToUpdate` and `cachedBlobsToUpdate` but not `entitiesToAdd`. -/
theorem handleChangedAvatarEntityData_add_survives_blob_delete :
    7 ∈ addThenClearState._cachedAvatarEntityBlobsToDelete ∧
    7 ∈ addThenClearState._entitiesToAdd ∧
    (removeOverlap
      { cachedBlobsToDelete := [7], cachedBlobsToUpdate := [], entitiesToDelete := []
        entitiesToAdd := [7], entitiesToUpdate := [] }).entitiesToAdd = [7] ∧
    (handleChangedAvatarEntityData permissiveEnv addThenClearState).2 =
      [Effect.addEntity 7
         { entityHostType := HostType.AVATAR, owningAvatarID := 42, simulationOwnerID := 42
           simulationOwnerPriority := 129, parentID := 0, allChanged := true
           payload := [1, 2, 3] },
       Effect.queueEditAvatarEntityMessage 7] ∧
    noAddOrUpdateFor 7 (handleChangedAvatarEntityData permissiveEnv addThenClearState).2
      = false ∧
    (handleChangedAvatarEntityData permissiveEnv addThenClearState).1._cachedAvatarEntityBlobs
      = [] := by
  decide

/-! ### Replacing the avatar-entity data -/

/-- C11: if the map passed to `setAvatarEntityData` has more than
`MAX_NUM_AVATAR_ENTITIES` entries, the call leaves the whole state as it was:
the cached blob map, the packed entity data, the three pending entity lists and
the needs-save flag among it. -/
theorem setAvatarEntityData_oversized_noop (MAX_NUM_AVATAR_ENTITIES : Nat)
    (s : AvatarEntityState) (avatarEntityData : AvatarEntityMap)
    (h : avatarEntityData.length > MAX_NUM_AVATAR_ENTITIES) :
    setAvatarEntityData MAX_NUM_AVATAR_ENTITIES s avatarEntityData = s := by
  unfold setAvatarEntityData
  rw [if_pos h]

/-- Witness for C11: three entries against a ceiling of two, on a state with
pending work in every list. -/
theorem setAvatarEntityData_oversized_noop_witness :
    [((1 : QUuid), ([] : Blob)), (2, []), (3, [])].length > 2 ∧
    setAvatarEntityData 2 busyEntityState [(1, []), (2, []), (3, [])] = busyEntityState :=
  ⟨by decide,
   setAvatarEntityData_oversized_noop 2 busyEntityState [(1, []), (2, []), (3, [])]
     (by decide)⟩

/-! ### Sanitizing entity properties -/

/-- C13: after `sanitizeAvatarEntityProperties(p)`, for every input `p`, the
host type is AVATAR, the owning avatar ID and the simulation owner are the
avatar's ID with priority `AVATAR_ENTITY_SIMULATION_PRIORITY`, a parent ID equal
to `AVATAR_SELF_ID` has been replaced by the avatar's ID, any other parent ID is
unchanged, and sanitizing the result again changes nothing. -/
theorem sanitizeAvatarEntityProperties_spec (env : ReconcilerEnv) (myID : QUuid)
    (p : EntityItemProperties) :
    (sanitizeAvatarEntityProperties env myID p).entityHostType = HostType.AVATAR ∧
    (sanitizeAvatarEntityProperties env myID p).owningAvatarID = myID ∧
    (sanitizeAvatarEntityProperties env myID p).simulationOwnerID = myID ∧
    (sanitizeAvatarEntityProperties env myID p).simulationOwnerPriority =
      env.AVATAR_ENTITY_SIMULATION_PRIORITY ∧
    (p.parentID = AVATAR_SELF_ID →
      (sanitizeAvatarEntityProperties env myID p).parentID = myID) ∧
    (p.parentID ≠ AVATAR_SELF_ID →
      (sanitizeAvatarEntityProperties env myID p).parentID = p.parentID) ∧
    (sanitizeAvatarEntityProperties env myID p).allChanged = true ∧
    (sanitizeAvatarEntityProperties env myID p).payload = p.payload ∧
    sanitizeAvatarEntityProperties env myID (sanitizeAvatarEntityProperties env myID p) =
      sanitizeAvatarEntityProperties env myID p := by
  by_cases hp : p.parentID = AVATAR_SELF_ID <;>
    by_cases hm : myID = AVATAR_SELF_ID <;>
    simp [sanitizeAvatarEntityProperties, hp, hm]

/-! ### Failed blobs in the reconciliation pass -/

/-- The single-removal search only drops elements: every member of its result
was in the scanned vector. -/
theorem mem_of_mem_removeOneSkip (id x : QUuid) :
    ∀ (fuel : Nat) (a b : List QUuid),
      x ∈ (removeOneSkip id fuel a.length (a ++ b)).2 → x ∈ a ++ b := by
  intro fuel
  induction fuel with
  | zero => intro a b h; simpa [removeOneSkip] using h
  | succ k ih =>
    intro a b h
    cases b with
    | nil => simpa [removeOneSkip] using h
    | cons y b' =>
      have hlt : a.length < (a ++ y :: b').length := by simp
      have hget : (a ++ y :: b').getD a.length id = y := by
        rw [List.getD_append_right _ _ _ _ (le_refl _), Nat.sub_self, List.getD_cons_zero]
      rw [removeOneSkip, if_pos hlt, hget] at h
      by_cases hy : id = y
      · rw [if_pos hy] at h
        simp only [] at h
        rw [swapRemove_append, List.mem_append, mem_dropLast_getLastD_cons] at h
        rw [List.mem_append, List.mem_cons]
        rcases h with h | h
        · exact Or.inl h
        · exact Or.inr (Or.inr h)
      · rw [if_neg hy] at h
        have e : a ++ y :: b' = (a ++ [y]) ++ b' := by simp
        have el : a.length + 1 = (a ++ [y]).length := by simp
        rw [e, el] at h
        rw [e]
        exact ih _ _ h

/-- The "ADD/UPDATE cached blobs" loop never adds an ID to the skip list. -/
theorem markStaleBlobs_skip_subset (x : QUuid) :
    ∀ (ids : List QUuid) (s : AvatarEntityState),
      x ∈ (markStaleBlobs s ids)._cachedAvatarEntityBlobUpdatesToSkip →
      x ∈ s._cachedAvatarEntityBlobUpdatesToSkip := by
  intro ids
  induction ids with
  | nil => intro s h; exact h
  | cons id rest ih =>
    intro s h
    unfold markStaleBlobs at h
    rw [List.foldl_cons] at h
    have h2 := ih _ h
    have h3 : x ∈ (removeOneSkip id s._cachedAvatarEntityBlobUpdatesToSkip.length 0
        s._cachedAvatarEntityBlobUpdatesToSkip).2 := by
      dsimp only at h2
      split_ifs at h2 <;> exact h2
    exact mem_of_mem_removeOneSkip id x _ [] _ h3

/-- The "DELETE cached blobs" loop never adds an ID to the skip list. -/
theorem deleteCachedBlobs_skip_subset (x : QUuid) :
    ∀ (ids : List QUuid) (s : AvatarEntityState),
      x ∈ (deleteCachedBlobs s ids)._cachedAvatarEntityBlobUpdatesToSkip →
      x ∈ s._cachedAvatarEntityBlobUpdatesToSkip := by
  intro ids
  induction ids with
  | nil => intro s h; exact h
  | cons id rest ih =>
    intro s h
    unfold deleteCachedBlobs at h
    rw [List.foldl_cons] at h
    have h2 := ih _ h
    dsimp only at h2
    rw [mem_removeAllInstancesHelper] at h2
    split_ifs at h2 <;> exact h2.1

/-- A failing blob yields neither `addEntity` nor `updateEntity` for its ID in
the add loop, and the add loop removes a failing ID that it walks from the skip
list. -/
theorem addRealEntities_of_blobFails (env : ReconcilerEnv) (myID : QUuid)
    (cached : AvatarEntityMap) (id : QUuid) (hfail : blobFails env cached id) :
    ∀ (ids : List QUuid) (acc : List QUuid × List Effect),
      (noAddOrUpdateFor id acc.2 = true →
        noAddOrUpdateFor id
          (ids.foldl
            (fun acc id =>
              match (cached.find id).bind env.blobToProperties with
              | none => (removeAllInstancesHelper id acc.1, acc.2)
              | some properties =>
                (acc.1, acc.2 ++
                  [Effect.addEntity id (sanitizeAvatarEntityProperties env myID properties)] ++
                  (if env.addEntitySucceeds id
                      (sanitizeAvatarEntityProperties env myID properties) then
                    [Effect.queueEditAvatarEntityMessage id] else [])))
            acc).2 = true) ∧
      ((id ∈ ids ∨ id ∉ acc.1) →
        id ∉
          (ids.foldl
            (fun acc id =>
              match (cached.find id).bind env.blobToProperties with
              | none => (removeAllInstancesHelper id acc.1, acc.2)
              | some properties =>
                (acc.1, acc.2 ++
                  [Effect.addEntity id (sanitizeAvatarEntityProperties env myID properties)] ++
                  (if env.addEntitySucceeds id
                      (sanitizeAvatarEntityProperties env myID properties) then
                    [Effect.queueEditAvatarEntityMessage id] else [])))
            acc).1) := by
  intro ids
  induction ids with
  | nil =>
    intro acc
    refine ⟨fun h => h, fun h => ?_⟩
    rcases h with h | h
    · exact absurd h (List.not_mem_nil _)
    · exact h
  | cons i rest ih =>
    intro acc
    rw [List.foldl_cons]
    constructor
    · intro hacc
      apply (ih _).1
      by_cases hi : i = id
      · subst hi
        unfold blobFails at hfail
        rw [hfail]
        exact hacc
      · cases (cached.find i).bind env.blobToProperties with
        | none => exact hacc
        | some properties =>
          simp only [noAddOrUpdateFor, List.all_append, Bool.and_eq_true] at hacc ⊢
          refine ⟨⟨hacc, ?_⟩, ?_⟩
          · simp [hi]
          · split_ifs <;> simp
    · intro h
      apply (ih _).2
      by_cases hi : i = id
      · subst hi
        unfold blobFails at hfail
        rw [hfail]
        right
        simp only [mem_removeAllInstancesHelper]
        exact fun hx => hx.2 rfl
      · rcases h with h | h
        · rcases List.mem_cons.mp h with h | h
          · exact absurd h.symm hi
          · exact Or.inl h
        · right
          cases (cached.find i).bind env.blobToProperties with
          | none =>
            simp only [mem_removeAllInstancesHelper]
            exact fun hx => h hx.1
          | some properties => exact h

/-- A failing blob yields neither `addEntity` nor `updateEntity` for its ID in
the change loop. -/
theorem changeRealEntities_of_blobFails (env : ReconcilerEnv) (myID : QUuid)
    (cached : AvatarEntityMap) (id : QUuid) (hfail : blobFails env cached id) :
    ∀ (ids : List QUuid) (acc : List Effect),
      noAddOrUpdateFor id acc = true →
        noAddOrUpdateFor id
          (ids.foldl
            (fun acc id =>
              match (cached.find id).bind env.blobToProperties with
              | none => acc
              | some properties =>
                acc ++
                  [Effect.updateEntity id
                    (sanitizeAvatarEntityProperties env myID properties)] ++
                  (if env.updateEntitySucceeds id
                      (sanitizeAvatarEntityProperties env myID properties) then
                    [Effect.queueEditAvatarEntityMessage id] else []))
            acc) = true := by
  intro ids
  induction ids with
  | nil => intro acc h; exact h
  | cons i rest ih =>
    intro acc hacc
    rw [List.foldl_cons]
    apply ih
    by_cases hi : i = id
    · subst hi
      unfold blobFails at hfail
      rw [hfail]
      exact hacc
    · cases (cached.find i).bind env.blobToProperties with
      | none => exact hacc
      | some properties =>
        simp only [noAddOrUpdateFor, List.all_append, Bool.and_eq_true] at hacc ⊢
        refine ⟨⟨hacc, ?_⟩, ?_⟩
        · simp [hi]
        · split_ifs <;> simp

/-- C19 (amended): in a pass that gets past its early returns, for every ID
whose cached blob is missing or fails to deserialize, the pass makes no
`addEntity` and no `updateEntity` call for that ID; and if the ID is walked by
the add loop it is absent from `_cachedAvatarEntityBlobUpdatesToSkip` after the
pass.  (A failed update does not touch the skip list.) -/
theorem handleChangedAvatarEntityData_failed_blob (env : ReconcilerEnv)
    (s : AvatarEntityState) (id : QUuid) (hruns : passRuns env s)
    (hfail : blobFails env (passStart env s)._cachedAvatarEntityBlobs id) :
    noAddOrUpdateFor id (handleChangedAvatarEntityData env s).2 = true ∧
    (id ∈ (passLists env s).entitiesToAdd →
      id ∉ (handleChangedAvatarEntityData env s).1._cachedAvatarEntityBlobUpdatesToSkip) := by
  unfold handleChangedAvatarEntityData
  rw [if_neg hruns.1]
  simp only [hruns.2, Bool.not_true, Bool.false_eq_true, if_false]
  constructor
  · simp only [noAddOrUpdateFor, List.all_append, Bool.and_eq_true]
    refine ⟨⟨⟨?_, ?_⟩, ?_⟩, ?_⟩
    · exact noAddOrUpdateFor_deleteEntity id _
    · exact (addRealEntities_of_blobFails env _ _ id hfail _ _).1 rfl
    · exact changeRealEntities_of_blobFails env _ _ id hfail _ _ rfl
    · exact noAddOrUpdateFor_deleteTraits env id _ _ _
  · intro hadd hmem
    have h1 := markStaleBlobs_skip_subset id _ _ hmem
    have h2 := deleteCachedBlobs_skip_subset id _ _ h1
    exact (addRealEntities_of_blobFails env _ _ id hfail _ _).2 (Or.inl hadd) h2

/-- Witness for the amended C19: entity 8 of `failedUpdateState`, queued for
addition with an undecodable blob. -/
theorem handleChangedAvatarEntityData_failed_blob_witness :
    8 ∈ failedUpdateState._cachedAvatarEntityBlobUpdatesToSkip ∧
    8 ∈ (passLists corruptBlobEnv failedUpdateState).entitiesToAdd ∧
    noAddOrUpdateFor 8 (handleChangedAvatarEntityData corruptBlobEnv failedUpdateState).2
      = true ∧
    8 ∉ (handleChangedAvatarEntityData corruptBlobEnv
      failedUpdateState).1._cachedAvatarEntityBlobUpdatesToSkip :=
  have h := handleChangedAvatarEntityData_failed_blob corruptBlobEnv failedUpdateState 8
    (by unfold passRuns; decide) (by unfold blobFails; decide)
  ⟨by decide, by decide, h.1, h.2 (by decide)⟩

/-- C19 (as stated) fails for a queued update: with entity 7 queued in
`_entitiesToUpdate`, its blob undecodable and 7 present in
`_cachedAvatarEntityBlobUpdatesToSkip`, the pass updates no entity but leaves 7
in the skip list; only the failed add (entity 8) is removed from it. -/
theorem handleChangedAvatarEntityData_failed_update_keeps_skip :
    7 ∈ failedUpdateState._entitiesToUpdate ∧
    (failedUpdateState._cachedAvatarEntityBlobs.find 7).bind
      corruptBlobEnv.blobToProperties = none ∧
    (handleChangedAvatarEntityData corruptBlobEnv failedUpdateState).2 = [] ∧
    7 ∈ (handleChangedAvatarEntityData corruptBlobEnv
      failedUpdateState).1._cachedAvatarEntityBlobUpdatesToSkip ∧
    (handleChangedAvatarEntityData corruptBlobEnv
      failedUpdateState).1._cachedAvatarEntityBlobUpdatesToSkip = [7] := by
  decide

/-! ### Follow helper: physics-step calls -/

/-- The timers after activating one axis. -/
theorem activate_timeRemaining (f : FollowHelper) (t u : FollowType) :
    (f.activate t)._timeRemaining u = if u = t then FOLLOW_TIME else f._timeRemaining u := by
  unfold FollowHelper.activate
  by_cases h : u = t
  · subst h; simp
  · simp [Function.update_noteq h, h]

/-- C12 (as stated) fails in two ways.  With HMD lean recentering enabled and
the camera not in mirror mode, a set vertical force-activate flag is not read:
after `prePhysicsUpdate` it is still set and the vertical axis is inactive.
With lean recentering disabled but the vertical axis already active, the axis
stays active and the flag stays set. -/
theorem prePhysicsUpdate_force_flag_not_consumed :
    forcedVerticalFollow._forceActivateVertical = true ∧
    (prePhysicsUpdate forcedVerticalFollow leanEnabledAvatar quietInputs
      false).1._forceActivateVertical = true ∧
    (prePhysicsUpdate forcedVerticalFollow leanEnabledAvatar quietInputs
      false).1.isActive FollowType.Vertical = false ∧
    forcedActiveVerticalFollow._forceActivateVertical = true ∧
    justSatAvatar.hmdLeanRecenterEnabled = false ∧
    (prePhysicsUpdate forcedActiveVerticalFollow justSatAvatar quietInputs
      false).1._forceActivateVertical = true := by
  refine ⟨rfl, ?_, ?_, rfl, rfl, ?_⟩
  · norm_num [prePhysicsUpdate, prePhysicsActivate, forcedVerticalFollow, leanEnabledAvatar,
      quietInputs, FollowHelper.isActive, shouldActivateRotation, shouldActivateHorizontalCG,
      shouldActivateVertical, scenarioStart, shouldActivateHorizontal]
  · norm_num [prePhysicsUpdate, prePhysicsActivate, forcedVerticalFollow, leanEnabledAvatar,
      quietInputs, FollowHelper.isActive, shouldActivateRotation, shouldActivateHorizontalCG,
      shouldActivateVertical, scenarioStart, shouldActivateHorizontal]
  · norm_num [prePhysicsUpdate, prePhysicsActivate, forcedActiveVerticalFollow, justSatAvatar,
      FollowHelper.isActive]

/-- C12 (amended): when HMD lean recentering is disabled or the camera is in
mirror mode, for every state in which the force-activate flag of an axis
(rotation, horizontal or vertical) is set, after one `prePhysicsUpdate` that
axis is active, and if the axis was not already active before the call the flag
is cleared. -/
theorem prePhysicsUpdate_consumes_forced (f : FollowHelper) (a : FollowAvatar)
    (i : FollowInputs) (hasDriveInput : Bool)
    (hgate : (a.hmdLeanRecenterEnabled && !a.cameraModeIsMirror) = false) :
    (f._forceActivateRotation = true →
      (prePhysicsUpdate f a i hasDriveInput).1.isActive FollowType.Rotation = true ∧
      (f.isActive FollowType.Rotation = false →
        (prePhysicsUpdate f a i hasDriveInput).1._forceActivateRotation = false)) ∧
    (f._forceActivateHorizontal = true →
      (prePhysicsUpdate f a i hasDriveInput).1.isActive FollowType.Horizontal = true ∧
      (f.isActive FollowType.Horizontal = false →
        (prePhysicsUpdate f a i hasDriveInput).1._forceActivateHorizontal = false)) ∧
    (f._forceActivateVertical = true →
      (prePhysicsUpdate f a i hasDriveInput).1.isActive FollowType.Vertical = true ∧
      (f.isActive FollowType.Vertical = false →
        (prePhysicsUpdate f a i hasDriveInput).1._forceActivateVertical = false)) := by
  have hft : (0 : ℚ) < FOLLOW_TIME := by norm_num [FOLLOW_TIME]
  unfold prePhysicsUpdate prePhysicsActivate
  simp only [hgate, Bool.false_eq_true, if_false]
  refine ⟨?_, ?_, ?_⟩
  · intro hflag
    by_cases hr : f.isActive FollowType.Rotation = true <;>
    by_cases hh : f.isActive FollowType.Horizontal = true <;>
    by_cases hv : f.isActive FollowType.Vertical = true <;>
    by_cases fh : f._forceActivateHorizontal = true <;>
    by_cases fv : f._forceActivateVertical = true <;>
    simp_all [FollowHelper.isActive, FollowHelper.activate, Function.update]
  · intro hflag
    by_cases hr : f.isActive FollowType.Rotation = true <;>
    by_cases hh : f.isActive FollowType.Horizontal = true <;>
    by_cases hv : f.isActive FollowType.Vertical = true <;>
    by_cases fr : f._forceActivateRotation = true <;>
    by_cases fv : f._forceActivateVertical = true <;>
    simp_all [FollowHelper.isActive, FollowHelper.activate, Function.update]
  · intro hflag
    by_cases hr : f.isActive FollowType.Rotation = true <;>
    by_cases hh : f.isActive FollowType.Horizontal = true <;>
    by_cases hv : f.isActive FollowType.Vertical = true <;>
    by_cases fr : f._forceActivateRotation = true <;>
    by_cases fh : f._forceActivateHorizontal = true <;>
    simp_all [FollowHelper.isActive, FollowHelper.activate, Function.update]

/-- Witness for the amended C12: all three flags set on an idle helper, HMD lean
recentering disabled. -/
theorem prePhysicsUpdate_consumes_forced_witness :
    (justSatAvatar.hmdLeanRecenterEnabled && !justSatAvatar.cameraModeIsMirror) = false ∧
    forcedAllFollow._forceActivateVertical = true ∧
    (prePhysicsUpdate forcedAllFollow justSatAvatar quietInputs false).1.isActive
      FollowType.Vertical = true ∧
    (prePhysicsUpdate forcedAllFollow justSatAvatar quietInputs
      false).1._forceActivateVertical = false :=
  have h := prePhysicsUpdate_consumes_forced forcedAllFollow justSatAvatar quietInputs false rfl
  ⟨rfl, rfl, (h.2.2 rfl).1,
    (h.2.2 rfl).2 (by simp [FollowHelper.isActive, forcedAllFollow])⟩

/-! ### Body frame fallback and the post-physics snap -/

/-- C14: for any two invalid head poses, whatever their stored translation,
rotation and velocities, `deriveBodyFromHMDSensor` returns the same transform
(same user height and rig), and it is the transform that the head/neck model
derives from head position `(0, userHeight, 0)` with identity orientation. -/
theorem deriveBodyFromHMDSensor_invalid_fallback (ops : GlmOps) (env : BodyEnv)
    (p q : HeadPose) (hp : p.valid = false) (hq : q.valid = false) :
    deriveBodyFromHMDSensor ops env p = deriveBodyFromHMDSensor ops env q ∧
    deriveBodyFromHMDSensor ops env p =
      bodyFromHead ops env ⟨0, env._userHeight, 0⟩ Quat.identity := by
  simp [deriveBodyFromHMDSensor, hp, hq]

/-- Witness for C14: two invalid poses that differ in every stored field. -/
theorem deriveBodyFromHMDSensor_invalid_fallback_witness :
    staleHeadPoseA ≠ staleHeadPoseB ∧
    deriveBodyFromHMDSensor sampleOps sampleBodyEnv staleHeadPoseA =
      deriveBodyFromHMDSensor sampleOps sampleBodyEnv staleHeadPoseB ∧
    deriveBodyFromHMDSensor sampleOps sampleBodyEnv staleHeadPoseA =
      bodyFromHead sampleOps sampleBodyEnv ⟨0, sampleBodyEnv._userHeight, 0⟩ Quat.identity :=
  ⟨by simp [staleHeadPoseA, staleHeadPoseB],
   deriveBodyFromHMDSensor_invalid_fallback sampleOps sampleBodyEnv staleHeadPoseA
     staleHeadPoseB rfl rfl⟩

/-- C18 (as stated) fails when no follow axis is active: with the
sit/stand-change flag set (right after `setIsInSittingState(true)`) and all
timers at 0, `postPhysicsUpdate` returns the current body matrix unchanged and
leaves the flag set; the returned translation `(3, 1, 4)` is not the
translation of `deriveBodyFromHMDSensor()`. -/
theorem postPhysicsUpdate_idle_keeps_flag :
    justSatAvatar.sitStand._sitStandStateChange = true ∧
    (postPhysicsUpdate sampleOps sampleBodyEnv staleHeadPoseA idleFollow justSatAvatar
      sampleFollowResult sampleBodyMatrix).2.1.sitStand._sitStandStateChange = true ∧
    (postPhysicsUpdate sampleOps sampleBodyEnv staleHeadPoseA idleFollow justSatAvatar
      sampleFollowResult sampleBodyMatrix).2.2 = sampleBodyMatrix ∧
    sampleOps.extractTranslation (postPhysicsUpdate sampleOps sampleBodyEnv staleHeadPoseA
      idleFollow justSatAvatar sampleFollowResult sampleBodyMatrix).2.2 = ⟨3, 1, 4⟩ ∧
    sampleOps.extractTranslation
      (deriveBodyFromHMDSensor sampleOps sampleBodyEnv staleHeadPoseA) ≠ ⟨3, 1, 4⟩ := by
  have h : (postPhysicsUpdate sampleOps sampleBodyEnv staleHeadPoseA idleFollow justSatAvatar
      sampleFollowResult sampleBodyMatrix) = (idleFollow, justSatAvatar, sampleBodyMatrix) := by
    simp [postPhysicsUpdate, FollowHelper.isActiveAny, FollowHelper.isActive, idleFollow]
  rw [h]
  refine ⟨rfl, rfl, rfl, rfl, ?_⟩
  simp [deriveBodyFromHMDSensor, bodyFromHead, sampleOps, sampleBodyEnv, staleHeadPoseA,
    Vec3.add, Vec3.scale, Vec3.sub, Vec3.neg, getUserEyeHeight, Quat.identity]

/-- C18 (amended): for every state in which the sit/stand-change flag is set
and at least one follow axis is active, after `postPhysicsUpdate` the vertical
axis is inactive, the flag is cleared, and the translation of the returned body
matrix equals the translation of `deriveBodyFromHMDSensor()` (given that
`extractTranslation` reads back what `setTranslation` wrote). -/
theorem postPhysicsUpdate_sitStandChange_snaps (ops : GlmOps) (env : BodyEnv)
    (headPose : HeadPose) (f : FollowHelper) (a : FollowAvatar) (c : FollowResult)
    (currentBodyMatrix : Mat4)
    (hflag : a.sitStand._sitStandStateChange = true)
    (hactive : f.isActiveAny = true)
    (hlaw : ∀ (m : Mat4) (t : Vec3), ops.extractTranslation (ops.setTranslation m t) = t) :
    (postPhysicsUpdate ops env headPose f a c currentBodyMatrix).1.isActive
      FollowType.Vertical = false ∧
    (postPhysicsUpdate ops env headPose f a c
      currentBodyMatrix).2.1.sitStand._sitStandStateChange = false ∧
    ops.extractTranslation (postPhysicsUpdate ops env headPose f a c currentBodyMatrix).2.2 =
      ops.extractTranslation (deriveBodyFromHMDSensor ops env headPose) := by
  unfold postPhysicsUpdate
  simp only [hactive, hflag, if_true]
  refine ⟨?_, trivial, hlaw _ _⟩
  simp [FollowHelper.isActive, FollowHelper.deactivate]

/-- Witness for the amended C18: the rotation axis active, the flag set. -/
theorem postPhysicsUpdate_sitStandChange_snaps_witness :
    justSatAvatar.sitStand._sitStandStateChange = true ∧
    rotationOnlyFollow.isActiveAny = true ∧
    (postPhysicsUpdate sampleOps sampleBodyEnv staleHeadPoseA rotationOnlyFollow justSatAvatar
      sampleFollowResult sampleBodyMatrix).1.isActive FollowType.Vertical = false ∧
    (postPhysicsUpdate sampleOps sampleBodyEnv staleHeadPoseA rotationOnlyFollow justSatAvatar
      sampleFollowResult sampleBodyMatrix).2.1.sitStand._sitStandStateChange = false ∧
    sampleOps.extractTranslation (postPhysicsUpdate sampleOps sampleBodyEnv staleHeadPoseA
      rotationOnlyFollow justSatAvatar sampleFollowResult sampleBodyMatrix).2.2 =
      sampleOps.extractTranslation
        (deriveBodyFromHMDSensor sampleOps sampleBodyEnv staleHeadPoseA) :=
  have hact : rotationOnlyFollow.isActiveAny = true := by
    simp [FollowHelper.isActiveAny, FollowHelper.isActive, rotationOnlyFollow, FOLLOW_TIME]
  ⟨rfl, hact,
   postPhysicsUpdate_sitStandChange_snaps sampleOps sampleBodyEnv staleHeadPoseA
     rotationOnlyFollow justSatAvatar sampleFollowResult sampleBodyMatrix rfl hact
     (fun _ _ => rfl)⟩

/-! ### Sit/stand transitions -/

/-- C15 (as stated) fails at the boundary: standing with 3 s already
accumulated, a reading below the threshold and `dt = 1` bring the time below
the threshold to exactly 4 s, and the state stays standing. -/
theorem updateSitStandState_standing_four_seconds_no_switch :
    (standingAt scenarioStart (17 / 10) 3)._isInSittingState = false ∧
    (11 / 10 : ℚ) < SITTING_HEIGHT_MULTIPLE * (standingAt scenarioStart (17 / 10) 3)._tippingPoint ∧
    (standingAt scenarioStart (17 / 10) 3)._sitStandStateTimer + 1 = 4 ∧
    (updateSitStandState (standingAt scenarioStart (17 / 10) 3) (11 / 10) 1)._sitStandStateTimer
      = 4 ∧
    (updateSitStandState (standingAt scenarioStart (17 / 10) 3) (11 / 10) 1)._isInSittingState
      = false := by
  refine ⟨rfl, ?_, ?_, ?_, ?_⟩ <;>
    norm_num [updateSitStandState, standingAt, scenarioStart, SITTING_HEIGHT_MULTIPLE,
      SITTING_TIMEOUT, setIsInSittingState]


/-- One sitting-state step with a reading above the standing threshold. -/
theorem updateSitStandState_sitting_above (s : SitStandState) (h dt : ℚ)
    (hl : s._lockSitStandState = false) (ha : s._isAway = false)
    (hv : s.headPoseValid = true) (hs : s._isInSittingState = true)
    (hh : h > STANDING_HEIGHT_MULTIPLE * s._tippingPoint) :
    updateSitStandState s h dt =
      if s._sitStandStateTimer + dt > STANDING_TIMEOUT then
        setIsInSittingState
          { s with _sitStandStateTimer := s._sitStandStateTimer + dt
                   _averageUserHeightSensorSpace := h
                   _tippingPoint := h } false
      else { s with _sitStandStateTimer := s._sitStandStateTimer + dt } := by
  simp [updateSitStandState, hl, ha, hv, hs, hh]


/-- C17 (amended): whenever the state is sitting, unlocked, tracked and not
away, the average sensor-space height exceeds 1.52 m, and the reading is
neither above 1.2 x nor below 0.833 x the tipping point,
`updateSitStandState` leaves the avatar standing (it is
`setIsInSittingState(false)`), for every `dt`. -/
theorem updateSitStandState_sitting_sanity (s : SitStandState) (h dt : ℚ)
    (hl : s._lockSitStandState = false) (ha : s._isAway = false)
    (hv : s.headPoseValid = true) (hs : s._isInSittingState = true)
    (havg : s._averageUserHeightSensorSpace > SITTING_UPPER_BOUND)
    (hhi : ¬ h > STANDING_HEIGHT_MULTIPLE * s._tippingPoint)
    (hlo : ¬ h < SITTING_HEIGHT_MULTIPLE * s._tippingPoint) :
    (updateSitStandState s h dt)._isInSittingState = false ∧
    updateSitStandState s h dt = setIsInSittingState s false := by
  simp [updateSitStandState, hl, ha, hv, hs, havg, hhi, hlo, setIsInSittingState]



/-- C17 (as stated) fails outside the middle band: sitting with average height
1.6 m (above 1.52 m) and tipping point 1.6 m, a reading of 1.3 m (below
0.833 x 1.6) and a reading of 2 m (above 1.2 x 1.6), each with a step of a
ninetieth of a second, leave the state sitting. -/
theorem updateSitStandState_high_average_stays_sitting :
    highSittingStart._averageUserHeightSensorSpace > SITTING_UPPER_BOUND ∧
    (updateSitStandState highSittingStart (13 / 10) (1 / 90))._isInSittingState = true ∧
    (updateSitStandState highSittingStart 2 (1 / 90))._isInSittingState = true := by
  refine ⟨?_, ?_, ?_⟩ <;>
    norm_num [updateSitStandState, highSittingStart, scenarioStart, STANDING_HEIGHT_MULTIPLE,
      SITTING_HEIGHT_MULTIPLE, STANDING_TIMEOUT, SITTING_TIMEOUT, SITTING_UPPER_BOUND,
      setIsInSittingState]

/-- Witness for the amended C17: average height 1.6 m, reading 1.6 m. -/
theorem updateSitStandState_sitting_sanity_witness :
    highSittingStart._averageUserHeightSensorSpace > SITTING_UPPER_BOUND ∧
    (updateSitStandState highSittingStart (16 / 10) (1 / 90))._isInSittingState = false :=
  have havg : highSittingStart._averageUserHeightSensorSpace > SITTING_UPPER_BOUND := by
    norm_num [highSittingStart, scenarioStart, SITTING_UPPER_BOUND]
  ⟨havg,
   (updateSitStandState_sitting_sanity highSittingStart (16 / 10) (1 / 90) rfl rfl rfl rfl
     havg
     (by norm_num [highSittingStart, scenarioStart, STANDING_HEIGHT_MULTIPLE])
     (by norm_num [highSittingStart, scenarioStart, SITTING_HEIGHT_MULTIPLE])).1⟩

/-! ### Bounded clearing search -/

/-- Dropping the count from the counting search gives the clearing search. -/
theorem clearingSearchCounted_fst (env : LandingEnv) (ray : RayOracle) (up : Vec3)
    (halfHeight : ℚ) (out : Vec3) :
    ∀ (n : Nat) (p : Vec3) (uid : EntityItemID) (ign : List EntityItemID),
      (clearingSearchCounted env ray up halfHeight out n p uid ign).1 =
        clearingSearch env ray up halfHeight out n p uid ign := by
  intro n
  induction n with
  | zero => intro p uid ign; rfl
  | succ k ih =>
    intro p uid ign
    unfold clearingSearchCounted clearingSearch
    dsimp only
    cases hr : findIntersection ray p up [] (ign ++ [uid]) with
    | none => rfl
    | some hit =>
      obtain ⟨p1, uid1, n1⟩ := hit
      dsimp only
      split_ifs
      · rfl
      · exact ih _ _ _

/-- The clearing search makes at most as many ray casts as it has iterations. -/
theorem clearingSearchCounted_le (env : LandingEnv) (ray : RayOracle) (up : Vec3)
    (halfHeight : ℚ) (out : Vec3) :
    ∀ (n : Nat) (p : Vec3) (uid : EntityItemID) (ign : List EntityItemID),
      (clearingSearchCounted env ray up halfHeight out n p uid ign).2 ≤ n := by
  intro n
  induction n with
  | zero => intro p uid ign; exact Nat.le_refl 0
  | succ k ih =>
    intro p uid ign
    unfold clearingSearchCounted
    dsimp only
    cases hr : findIntersection ray p up [] (ign ++ [uid]) with
    | none => exact Nat.succ_le_succ (Nat.zero_le k)
    | some hit =>
      obtain ⟨p1, uid1, n1⟩ := hit
      dsimp only
      split_ifs
      · exact Nat.succ_le_succ (Nat.zero_le k)
      · exact Nat.succ_le_succ (ih _ _ _)

/-- C20: for every behaviour of the ray oracle the upward clearing search of
`requiresSafeLanding` makes at most 1000 ray casts, and when it runs out of
iterations without resolving, the function still returns: its value is that of
the final cast from far above, which includes the entity last hit and keeps the
grown ignore list. -/
theorem requiresSafeLanding_search_bounded (env : LandingEnv) (ray : RayOracle)
    (positionIn out : Vec3) :
    (∀ (p : Vec3) (uid : EntityItemID) (ign : List EntityItemID),
      (clearingSearchCounted env ray env._worldUpDirection (1 / 2 * env.height) out
        iterationLimit p uid ign).1 =
        clearingSearch env ray env._worldUpDirection (1 / 2 * env.height) out
          iterationLimit p uid ign ∧
      (clearingSearchCounted env ray env._worldUpDirection (1 / 2 * env.height) out
        iterationLimit p uid ign).2 ≤ 1000) ∧
    (∀ (upperHit lowerHit upperNormal lowerNormal lastHit : Vec3)
        (upperId lowerId lastId : EntityItemID) (ignored : List EntityItemID),
      env.entityTree = some ray →
      1 / 2 * env.height ≠ 0 →
      findIntersection ray positionIn env._worldUpDirection [] [] =
        some (upperHit, upperId, upperNormal) →
      findIntersection ray positionIn env._worldUpDirection.neg [] [] =
        some (lowerHit, lowerId, lowerNormal) →
      env.isDown upperNormal = true → env.isUp lowerNormal = true →
      Vec3.distanceExceeds upperHit lowerHit (halfHeightFactor * (1 / 2 * env.height)) = true →
      clearingSearch env ray env._worldUpDirection (1 / 2 * env.height) out iterationLimit
        upperHit upperId [] = ClearingOutcome.exhausted lastHit lastId ignored →
      requiresSafeLanding env positionIn out =
        castFromAbove env ray positionIn env._worldUpDirection (1 / 2 * env.height) out
          lastId ignored) := by
  constructor
  · intro p uid ign
    exact ⟨clearingSearchCounted_fst env ray _ _ out _ p uid ign,
      clearingSearchCounted_le env ray _ _ out _ p uid ign⟩
  · intro upperHit lowerHit upperNormal lowerNormal lastHit upperId lowerId lastId ignored
      htree h0 hup hdown hfd hfu hgap hex
    unfold requiresSafeLanding
    simp only []
    rw [if_neg h0, htree]
    simp only [hup, hdown, hfd, hfu, Bool.and_self, if_true, hgap, hex]

/-- In `stackedCeilingsScene` the clearing search runs out of iterations. -/
theorem clearingSearch_stackedCeilings (halfHeight : ℚ) (out : Vec3) :
    ∀ (n : Nat) (ign : List EntityItemID),
      clearingSearch stackedCeilingsScene stackedCeilingsRay ⟨0, 1, 0⟩ halfHeight out n
        ⟨0, 5, 0⟩ 1 ign =
        ClearingOutcome.exhausted ⟨0, 5, 0⟩ 1 (ign ++ List.replicate n 1) := by
  intro n
  induction n with
  | zero => intro ign; simp [clearingSearch]
  | succ k ih =>
    intro ign
    have hray : findIntersection stackedCeilingsRay ⟨0, 5, 0⟩ ⟨0, 1, 0⟩ [] (ign ++ [1]) =
        some (⟨0, 5, 0⟩, 1, ⟨0, -1, 0⟩) := by
      simp [findIntersection, stackedCeilingsRay, Vec3.add, Vec3.scale]
    unfold clearingSearch
    simp only [hray]
    have hup : stackedCeilingsScene.isUp ⟨0, -1, 0⟩ = false := by
      simp [stackedCeilingsScene]
    rw [hup]
    simp only [Bool.false_eq_true, if_false]
    rw [ih (ign ++ [1])]
    simp [List.replicate_succ]

/-- Witness for C20: in `stackedCeilingsScene` the search exhausts its 1000
iterations and the function returns `true` with the landing point found from
above. -/
theorem requiresSafeLanding_search_bounded_witness :
    requiresSafeLanding stackedCeilingsScene ⟨0, 0, 0⟩ ⟨9, 9, 9⟩ = (true, ⟨0, 32764, 0⟩) := by
  have h := (requiresSafeLanding_search_bounded stackedCeilingsScene stackedCeilingsRay
    ⟨0, 0, 0⟩ ⟨9, 9, 9⟩).2 ⟨0, 5, 0⟩ ⟨0, -5, 0⟩ ⟨0, -1, 0⟩ ⟨0, 1, 0⟩ ⟨0, 5, 0⟩ 1 2 1
    (List.replicate 1000 1) rfl
    (by norm_num [stackedCeilingsScene])
    (by simp [findIntersection, stackedCeilingsRay, stackedCeilingsScene, Vec3.add, Vec3.scale])
    (by norm_num [findIntersection, stackedCeilingsRay, stackedCeilingsScene, Vec3.add,
      Vec3.scale, Vec3.neg])
    (by simp [stackedCeilingsScene])
    (by simp [stackedCeilingsScene])
    (by norm_num [Vec3.distanceExceeds, Vec3.distanceSq, halfHeightFactor,
      stackedCeilingsScene])
    (clearingSearch_stackedCeilings (1 / 2 * stackedCeilingsScene.height) ⟨9, 9, 9⟩ 1000 [])
  rw [h]
  norm_num [castFromAbove, findIntersection, stackedCeilingsRay, stackedCeilingsScene,
    Vec3.add, Vec3.scale, Vec3.neg, mustMove]

/-! ### Gear breakpoints -/

/-- C24: when the five effective breakpoints are in non-decreasing order, the
magnitude of `calculateGearedSpeed s x` is `0.2` times the number of
breakpoints strictly below `|x|`, the value carries the sign of `x`, and a
stick magnitude equal to the `k`-th breakpoint gives a magnitude of at most
`0.2 * (k - 1)`: it stays in the lower gear. -/
theorem calculateGearedSpeed_counts_breakpoints (s : GearSettings) (x : ℚ)
    (h : getDriveGear1 s ≤ getDriveGear2 s ∧ getDriveGear2 s ≤ getDriveGear3 s ∧
      getDriveGear3 s ≤ getDriveGear4 s ∧ getDriveGear4 s ≤ getDriveGear5 s) :
    |calculateGearedSpeed s x| = 2 / 10 * (breakpointsBelow s |x| : ℚ) ∧
    calculateGearedSpeed s x =
      (if x < 0 then -1 else 1) * (2 / 10 * (breakpointsBelow s |x| : ℚ)) ∧
    (|x| = getDriveGear1 s → calculateGearedSpeed s x = 0) ∧
    (|x| = getDriveGear2 s → |calculateGearedSpeed s x| ≤ 2 / 10) ∧
    (|x| = getDriveGear3 s → |calculateGearedSpeed s x| ≤ 4 / 10) ∧
    (|x| = getDriveGear4 s → |calculateGearedSpeed s x| ≤ 6 / 10) ∧
    (|x| = getDriveGear5 s → |calculateGearedSpeed s x| ≤ 8 / 10) := by
  obtain ⟨h12, h23, h34, h45⟩ := h
  have key : |calculateGearedSpeed s x| = 2 / 10 * (breakpointsBelow s |x| : ℚ) := by
    rw [abs_calculateGearedSpeed]
    unfold breakpointsBelow
    simp only [List.filter_cons, List.filter_nil]
    by_cases c5 : getDriveGear5 s < |x| <;> by_cases c4 : getDriveGear4 s < |x| <;>
      by_cases c3 : getDriveGear3 s < |x| <;> by_cases c2 : getDriveGear2 s < |x| <;>
      by_cases c1 : getDriveGear1 s < |x| <;>
      simp [c1, c2, c3, c4, c5] <;>
      first
      | (norm_num; done)
      | (exfalso; simp only [not_lt] at *; linarith)
  have hsign : calculateGearedSpeed s x =
      (if x < 0 then -1 else 1) * |calculateGearedSpeed s x| := by
    rw [abs_calculateGearedSpeed]
    unfold calculateGearedSpeed
    simp only []
    split_ifs <;> ring
  refine ⟨key, ?_, ?_, ?_, ?_, ?_, ?_⟩
  · rw [← key]
    exact hsign
  · intro hg
    have h0 : |calculateGearedSpeed s x| = 0 := by
      rw [abs_calculateGearedSpeed]
      split_ifs <;> (try simp only [gt_iff_lt, not_lt] at *) <;> linarith
    exact abs_eq_zero.mp h0
  · intro hg
    rw [abs_calculateGearedSpeed]
    split_ifs <;> (try simp only [gt_iff_lt, not_lt] at *) <;> linarith
  · intro hg
    rw [abs_calculateGearedSpeed]
    split_ifs <;> (try simp only [gt_iff_lt, not_lt] at *) <;> linarith
  · intro hg
    rw [abs_calculateGearedSpeed]
    split_ifs <;> (try simp only [gt_iff_lt, not_lt] at *) <;> linarith
  · intro hg
    rw [abs_calculateGearedSpeed]
    split_ifs <;> (try simp only [gt_iff_lt, not_lt] at *) <;> linarith

/-- Witness for C24 on `sampleGears` at the stick value `-0.3`, which equals
the third breakpoint in magnitude: two breakpoints lie strictly below it and
the result is `-0.4`. -/
theorem calculateGearedSpeed_counts_breakpoints_witness :
    (getDriveGear1 sampleGears ≤ getDriveGear2 sampleGears ∧
      getDriveGear2 sampleGears ≤ getDriveGear3 sampleGears ∧
      getDriveGear3 sampleGears ≤ getDriveGear4 sampleGears ∧
      getDriveGear4 sampleGears ≤ getDriveGear5 sampleGears) ∧
    breakpointsBelow sampleGears |(-(3 / 10) : ℚ)| = 2 ∧
    |calculateGearedSpeed sampleGears (-(3 / 10))| =
      2 / 10 * (breakpointsBelow sampleGears |(-(3 / 10) : ℚ)| : ℚ) := by
  have h : getDriveGear1 sampleGears ≤ getDriveGear2 sampleGears ∧
      getDriveGear2 sampleGears ≤ getDriveGear3 sampleGears ∧
      getDriveGear3 sampleGears ≤ getDriveGear4 sampleGears ∧
      getDriveGear4 sampleGears ≤ getDriveGear5 sampleGears := by
    norm_num [getDriveGear1, getDriveGear2, getDriveGear3, getDriveGear4, getDriveGear5,
      sampleGears, CONTROLS_ANALOG, CONTROLS_ANALOG_PLUS]
  refine ⟨h, ?_, (calculateGearedSpeed_counts_breakpoints sampleGears (-(3 / 10)) h).1⟩
  norm_num [breakpointsBelow, getDriveGear1, getDriveGear2, getDriveGear3, getDriveGear4,
    getDriveGear5, sampleGears, CONTROLS_ANALOG, CONTROLS_ANALOG_PLUS, abs_of_nonneg,
    List.filter]

/-- C30: each of `setDriveGear1` .. `setDriveGear5` keeps the stored
breakpoints in non-decreasing order, and a shift point outside `[0, 1]` leaves
the settings (all five breakpoints) unchanged. -/
theorem setDriveGear_keeps_order (s : GearSettings) (shiftPoint : ℚ) (h : gearsOrdered s) :
    gearsOrdered (setDriveGear1 s shiftPoint) ∧ gearsOrdered (setDriveGear2 s shiftPoint) ∧
    gearsOrdered (setDriveGear3 s shiftPoint) ∧ gearsOrdered (setDriveGear4 s shiftPoint) ∧
    gearsOrdered (setDriveGear5 s shiftPoint) ∧
    ((shiftPoint < 0 ∨ shiftPoint > 1) →
      setDriveGear1 s shiftPoint = s ∧ setDriveGear2 s shiftPoint = s ∧
      setDriveGear3 s shiftPoint = s ∧ setDriveGear4 s shiftPoint = s ∧
      setDriveGear5 s shiftPoint = s) := by
  obtain ⟨h12, h23, h34, h45⟩ := h
  refine ⟨?_, ?_, ?_, ?_, ?_, ?_⟩
  · unfold setDriveGear1 gearsOrdered
    split_ifs <;> simp_all <;> (try constructor) <;> linarith
  · unfold setDriveGear2 gearsOrdered
    split_ifs <;> simp_all <;> (try constructor) <;> linarith
  · unfold setDriveGear3 gearsOrdered
    split_ifs <;> simp_all <;> (try constructor) <;> linarith
  · unfold setDriveGear4 gearsOrdered
    split_ifs <;> simp_all <;> (try constructor) <;> linarith
  · unfold setDriveGear5 gearsOrdered
    split_ifs <;> simp_all <;> (try constructor) <;> linarith
  · intro hout
    have hc : shiftPoint > 1 ∨ shiftPoint < 0 := hout.symm
    simp [setDriveGear1, setDriveGear2, setDriveGear3, setDriveGear4, setDriveGear5, hc]

/-- Witness for C30 on `sampleGears` with the shift point `0.35`: the third
breakpoint moves from `0.3` to `0.35` and the order is kept. -/
theorem setDriveGear_keeps_order_witness :
    gearsOrdered sampleGears ∧
    (setDriveGear3 sampleGears (35 / 100))._driveGear3 = 35 / 100 ∧
    gearsOrdered (setDriveGear3 sampleGears (35 / 100)) := by
  have h : gearsOrdered sampleGears := by
    norm_num [gearsOrdered, sampleGears]
  refine ⟨h, ?_, (setDriveGear_keeps_order sampleGears (35 / 100) h).2.2.1⟩
  norm_num [setDriveGear3, sampleGears]

/-! ### Follow timers read downstream -/

/-- C23: in every `FollowHelper` state `getMaxTimeRemaining` is non-negative,
`isActive()` (some axis active) holds exactly when it is positive, and both
remain so after `decrementTimeRemaining` with any `dt`. -/
theorem getMaxTimeRemaining_nonneg_iff_active (f : FollowHelper) (dt : ℚ) :
    0 ≤ f.getMaxTimeRemaining ∧
    (f.isActiveAny = true ↔ f.getMaxTimeRemaining > 0) ∧
    0 ≤ (f.decrementTimeRemaining dt).getMaxTimeRemaining ∧
    ((f.decrementTimeRemaining dt).isActiveAny = true ↔
      (f.decrementTimeRemaining dt).getMaxTimeRemaining > 0) := by
  have h : ∀ g : FollowHelper, 0 ≤ g.getMaxTimeRemaining ∧
      (g.isActiveAny = true ↔ g.getMaxTimeRemaining > 0) := by
    intro g
    unfold FollowHelper.getMaxTimeRemaining FollowHelper.isActiveAny FollowHelper.isActive
    simp only [List.foldl_cons, List.foldl_nil, Bool.or_eq_true, decide_eq_true_eq]
    constructor
    · split_ifs <;> linarith
    · constructor
      · intro hact
        split_ifs <;> first | linarith | (rcases hact with (h | h) | h <;> linarith)
      · intro hpos
        by_contra hn
        push_neg at hn
        obtain ⟨⟨h1, h2⟩, h3⟩ := hn
        split_ifs at hpos <;> linarith
  exact ⟨(h f).1, (h f).2, (h _).1, (h _).2⟩

/-! ### Motor speed -/

/-- For a positive argument `slope` follows `1 - 1 / (1 + x)` and lies strictly
between 0 and 1. -/
theorem slope_of_pos (x : ℚ) (hx : 0 < x) :
    slope x = 1 - 1 / (1 + x) ∧ 0 < slope x ∧ slope x < 1 := by
  have h1 : (0 : ℚ) < 1 + x := by linarith
  have hs : slope x = 1 - 1 / (1 + x) := by
    unfold slope
    simp [hx]
  have hlt : 1 / (1 + x) < 1 := by
    rw [div_lt_one h1]
    linarith
  have hpos : 0 < 1 / (1 + x) := by positivity
  refine ⟨hs, ?_, ?_⟩ <;> rw [hs] <;> linarith

/-- Off the centre line, with non-zero clamp limits, both horizontal
coordinates produced by `dampenCgMovement` are strictly inside their clamp
limit. -/
theorem dampenCgMovement_off_centre_inside (c : SupportBase) (cg : Vec3) (k : ℚ)
    (hx : cg.x ≠ 0) (hz : cg.z ≠ 0)
    (hF : clampFront c k ≠ 0) (hB : clampBack c k ≠ 0)
    (hL : clampLeft c k ≠ 0) (hR : clampRight c k ≠ 0) :
    |(dampenCgMovement c cg k).x| <
        (if cg.x > 0 then |clampRight c k| else |clampLeft c k|) ∧
    |(dampenCgMovement c cg k).z| <
        (if cg.z < 0 then |clampFront c k| else |clampBack c k|) := by
  have key : ∀ d l : ℚ, d ≠ 0 → l ≠ 0 → |slope |d / l| * l| < |l| := by
    intro d l hd hl
    have hp : 0 < |d / l| := abs_pos.mpr (div_ne_zero hd hl)
    obtain ⟨_, h0, h1⟩ := slope_of_pos _ hp
    rw [abs_mul, abs_of_pos h0]
    have hl0 : 0 < |l| := abs_pos.mpr hl
    nlinarith
  unfold dampenCgMovement
  dsimp only
  constructor
  · split_ifs
    · exact key _ _ hx hR
    · exact key _ _ hx hL
  · split_ifs
    · exact key _ _ hz hF
    · exact key _ _ hz hB

/-- C26 fails at zero displacement: `slope 0` is `1`, not `0`, so for a centre
of gravity on the centre line (`x = 0`, `z = 0`) `dampenCgMovement` returns the
left and back clamp limits themselves, for every support base and scale; on
`sampleSupportBase` with scale 1 that is `(-0.25, 0, 0.12)`. -/
theorem dampenCgMovement_centred_on_limit (c : SupportBase) (y k : ℚ) :
    slope 0 = 1 ∧
    dampenCgMovement c ⟨0, y, 0⟩ k = ⟨clampLeft c k, 0, clampBack c k⟩ ∧
    dampenCgMovement sampleSupportBase ⟨0, 0, 0⟩ 1 = ⟨-(25 / 100), 0, 12 / 100⟩ ∧
    ¬ (|(dampenCgMovement sampleSupportBase ⟨0, 0, 0⟩ 1).x| <
        |clampLeft sampleSupportBase 1|) ∧
    ¬ (|(dampenCgMovement sampleSupportBase ⟨0, 0, 0⟩ 1).z| <
        |clampBack sampleSupportBase 1|) := by
  have h0 : slope 0 = 1 := by simp [slope]
  have hg : ∀ (c : SupportBase) (y k : ℚ),
      dampenCgMovement c ⟨0, y, 0⟩ k = ⟨clampLeft c k, 0, clampBack c k⟩ := by
    intro c y k
    simp [dampenCgMovement, h0]
  refine ⟨h0, hg c y k, ?_, ?_, ?_⟩
  · rw [hg]
    norm_num [clampLeft, clampBack, sampleSupportBase]
  · rw [hg]
    simp
  · rw [hg]
    simp

/-! ### Constant readings -/

/-- One step with the reading equal to the tipping point `T > 0`, the average
height and the standing-height mode both at `T`: the conditions are kept, the
new flag is the settled classification, and that classification is unchanged. -/
theorem updateSitStandState_constant_step (s : SitStandState) (T dt : ℚ)
    (hl : s._lockSitStandState = false) (ha : s._isAway = false)
    (hv : s.headPoseValid = true) (hT : 0 < T) (htip : s._tippingPoint = T)
    (havg : s._averageUserHeightSensorSpace = T) (hcs : s._currentStandingHeight = T) :
    (updateSitStandState s T dt)._lockSitStandState = false ∧
    (updateSitStandState s T dt)._isAway = false ∧
    (updateSitStandState s T dt).headPoseValid = true ∧
    (updateSitStandState s T dt)._tippingPoint = T ∧
    (updateSitStandState s T dt)._averageUserHeightSensorSpace = T ∧
    (updateSitStandState s T dt)._currentStandingHeight = T ∧
    (updateSitStandState s T dt)._isInSittingState = settledSitting s ∧
    settledSitting (updateSitStandState s T dt) = settledSitting s := by
  have h1 : ¬ T > STANDING_HEIGHT_MULTIPLE * T := by
    unfold STANDING_HEIGHT_MULTIPLE
    intro h
    linarith
  have h2 : ¬ T < SITTING_HEIGHT_MULTIPLE * T := by
    unfold SITTING_HEIGHT_MULTIPLE
    intro h
    linarith
  cases hs : s._isInSittingState
  · simp [updateSitStandState, settledSitting, hl, ha, hv, hs, htip, havg, hcs, h2]
  · by_cases hb : T > SITTING_UPPER_BOUND
    · simp [updateSitStandState, settledSitting, setIsInSittingState, hl, ha, hv, hs, htip,
        havg, hcs, h1, h2, hb]
    · simp [updateSitStandState, settledSitting, hl, ha, hv, hs, htip, havg, hcs, h1, h2, hb]

/-- A trace that repeats one flag changes at most once, and not at all when it
starts from that flag. -/
theorem countClassificationChanges_replicate (b c : Bool) (n : Nat) :
    countClassificationChanges c (List.replicate n c) = 0 ∧
    countClassificationChanges b (List.replicate n c) ≤ 1 := by
  have h0 : ∀ n, countClassificationChanges c (List.replicate n c) = 0 := by
    intro n
    induction n with
    | zero => rfl
    | succ k ih => simp [List.replicate_succ, countClassificationChanges, ih]
  refine ⟨h0 n, ?_⟩
  cases n with
  | zero => simp [countClassificationChanges]
  | succ k =>
    simp only [List.replicate_succ, countClassificationChanges, h0 k]
    split_ifs <;> simp

/-- C21: starting unlocked, tracked and not away, with tipping point, average
height and standing-height mode all at `T > 0`, feeding the constant reading
`T` for any frame times gives the same classification after every frame (the
settled one), so the classification changes at most once along the run. -/
theorem updateSitStandState_constant_no_oscillation (s : SitStandState) (T : ℚ)
    (dts : List ℚ)
    (hl : s._lockSitStandState = false) (ha : s._isAway = false)
    (hv : s.headPoseValid = true) (hT : 0 < T) (htip : s._tippingPoint = T)
    (havg : s._averageUserHeightSensorSpace = T) (hcs : s._currentStandingHeight = T) :
    sittingTrace s (constantSamples T dts) =
      List.replicate dts.length (settledSitting s) ∧
    countClassificationChanges s._isInSittingState
      (sittingTrace s (constantSamples T dts)) ≤ 1 ∧
    (feedSitStand s (constantSamples T dts))._isInSittingState =
      (if dts = [] then s._isInSittingState else settledSitting s) := by
  have htrace : ∀ (dts : List ℚ) (s : SitStandState),
      s._lockSitStandState = false → s._isAway = false → s.headPoseValid = true →
      s._tippingPoint = T → s._averageUserHeightSensorSpace = T →
      s._currentStandingHeight = T →
      sittingTrace s (constantSamples T dts) =
        List.replicate dts.length (settledSitting s) ∧
      (feedSitStand s (constantSamples T dts))._isInSittingState =
        (if dts = [] then s._isInSittingState else settledSitting s) := by
    intro dts
    induction dts with
    | nil =>
      intro s _ _ _ _ _ _
      simp [constantSamples, sittingTrace, feedSitStand]
    | cons dt rest ih =>
      intro s hl ha hv htip havg hcs
      obtain ⟨a1, a2, a3, a4, a5, a6, a7, a8⟩ :=
        updateSitStandState_constant_step s T dt hl ha hv hT htip havg hcs
      obtain ⟨i1, i2⟩ := ih (updateSitStandState s T dt) a1 a2 a3 a4 a5 a6
      constructor
      · simp only [constantSamples, List.map_cons, sittingTrace, List.length_cons,
          List.replicate_succ]
        rw [a7]
        simp only [constantSamples] at i1
        rw [i1, a8]
      · simp only [constantSamples, List.map_cons, feedSitStand, List.foldl_cons]
        simp only [constantSamples, feedSitStand] at i2
        rw [i2, a7, a8]
        simp
  obtain ⟨t1, t2⟩ := htrace dts s hl ha hv htip havg hcs
  refine ⟨t1, ?_, t2⟩
  rw [t1]
  exact (countClassificationChanges_replicate _ _ _).2

/-- Witness for C21 on `tallSittingStart` (sitting, everything at 1.7 m) with
five frames of one second: the flag drops to standing at the first frame and
stays there. -/
theorem updateSitStandState_constant_no_oscillation_witness :
    sittingTrace tallSittingStart (constantSamples (17 / 10) [1, 1, 1, 1, 1]) =
      [false, false, false, false, false] ∧
    countClassificationChanges tallSittingStart._isInSittingState
      (sittingTrace tallSittingStart (constantSamples (17 / 10) [1, 1, 1, 1, 1])) ≤ 1 := by
  have h := updateSitStandState_constant_no_oscillation tallSittingStart (17 / 10)
    [1, 1, 1, 1, 1] rfl rfl rfl (by norm_num) rfl rfl rfl
  refine ⟨?_, h.2.1⟩
  rw [h.1]
  norm_num [settledSitting, tallSittingStart, scenarioStart, SITTING_UPPER_BOUND,
    List.replicate]

/-! ### Activation only -/

/-- The activation half of `prePhysicsUpdate` is the sequence of its blocks. -/
theorem prePhysicsActivate_blocks (f : FollowHelper) (a : FollowAvatar) (i : FollowInputs)
    (hasDriveInput : Bool) :
    prePhysicsActivate f a i hasDriveInput =
      if a.hmdLeanRecenterEnabled && !a.cameraModeIsMirror then
        leanVerticalBlock
          (leanHorizontalBlock (leanRotationBlock f a i hasDriveInput) i hasDriveInput)
          i hasDriveInput
      else forcedBlocks f a := rfl

/-- Leaving the helper alone only activates. -/
theorem onlyActivates_refl (f : FollowHelper) : onlyActivates f f :=
  fun _ => Or.inl rfl

/-- Two activation-only steps in sequence are an activation-only step. -/
theorem onlyActivates_trans (f g h : FollowHelper) (h1 : onlyActivates f g)
    (h2 : onlyActivates g h) : onlyActivates f h := by
  intro t
  rcases h2 t with e2 | ⟨e2, c2⟩
  · rcases h1 t with e1 | ⟨e1, c1⟩
    · exact Or.inl (e2.trans e1)
    · exact Or.inr ⟨e2.trans e1, c1⟩
  · rcases c2 with c2 | c2
    · rcases h1 t with e1 | ⟨e1, c1⟩
      · refine Or.inr ⟨e2, Or.inl ?_⟩
        simpa [FollowHelper.isActive, e1] using c2
      · exfalso
        simp [FollowHelper.isActive, e1, FOLLOW_TIME] at c2
    · exact Or.inr ⟨e2, Or.inr c2⟩

/-- A change that keeps the timer array only activates. -/
theorem onlyActivates_of_timers (f g : FollowHelper)
    (h : g._timeRemaining = f._timeRemaining) : onlyActivates f g :=
  fun t => Or.inl (congrFun h t)

/-- `activate(Rotation)` is an activation-only step from any state. -/
theorem onlyActivates_activate_rotation (f : FollowHelper) :
    onlyActivates f (f.activate FollowType.Rotation) := by
  intro t
  rw [activate_timeRemaining]
  by_cases h : t = FollowType.Rotation
  · exact Or.inr ⟨by simp [h], Or.inr h⟩
  · exact Or.inl (by simp [h])

/-- `activate` of an inactive axis is an activation-only step. -/
theorem onlyActivates_activate_inactive (f : FollowHelper) (u : FollowType)
    (hu : f.isActive u = false) : onlyActivates f (f.activate u) := by
  intro t
  rw [activate_timeRemaining]
  by_cases h : t = u
  · exact Or.inr ⟨by simp [h], Or.inl (by rw [h]; exact hu)⟩
  · exact Or.inl (by simp [h])

/-- The rotation block only activates. -/
theorem onlyActivates_leanRotationBlock (f : FollowHelper) (a : FollowAvatar)
    (i : FollowInputs) (d : Bool) : onlyActivates f (leanRotationBlock f a i d).1 := by
  unfold leanRotationBlock
  split_ifs
  · exact onlyActivates_activate_rotation f
  · exact onlyActivates_refl f

/-- The horizontal block only activates. -/
theorem onlyActivates_leanHorizontalBlock (r : FollowHelper × FollowAvatar)
    (i : FollowInputs) (d : Bool) : onlyActivates r.1 (leanHorizontalBlock r i d).1 := by
  unfold leanHorizontalBlock
  dsimp only
  split_ifs with c1 c2 c3 c4 c5 c6
  all_goals first
    | exact onlyActivates_refl _
    | exact onlyActivates_activate_inactive _ _ (by simp_all)
    | exact onlyActivates_trans _ _ _ (onlyActivates_activate_inactive _ _ (by simp_all))
        (onlyActivates_activate_rotation _)

/-- The vertical block only activates. -/
theorem onlyActivates_leanVerticalBlock (r : FollowHelper × FollowAvatar)
    (i : FollowInputs) (d : Bool) : onlyActivates r.1 (leanVerticalBlock r i d).1 := by
  unfold leanVerticalBlock
  dsimp only
  split_ifs with c1 c2
  · exact onlyActivates_trans _ _ _ (onlyActivates_activate_inactive _ _ (by simp_all))
      (onlyActivates_of_timers _ _ rfl)
  · exact onlyActivates_activate_inactive _ _ (by simp_all)
  · exact onlyActivates_refl _

/-- The force-activate blocks only activate. -/
theorem onlyActivates_forcedBlocks (f : FollowHelper) (a : FollowAvatar) :
    onlyActivates f (forcedBlocks f a).1 := by
  unfold forcedBlocks
  dsimp only
  refine onlyActivates_trans f
    (if (!f.isActive FollowType.Rotation && f._forceActivateRotation) = true then
      ({ f.activate FollowType.Rotation with _forceActivateRotation := false },
        { a with headControllerFacingMovingAverage := a.headControllerFacing })
    else (f, a)).1 _ ?_ ?_
  · split_ifs
    · exact onlyActivates_trans _ _ _ (onlyActivates_activate_rotation f)
        (onlyActivates_of_timers _ _ rfl)
    · exact onlyActivates_refl f
  · generalize (if (!f.isActive FollowType.Rotation && f._forceActivateRotation) = true then
      (({ f.activate FollowType.Rotation with _forceActivateRotation := false } : FollowHelper),
        ({ a with headControllerFacingMovingAverage := a.headControllerFacing } : FollowAvatar))
      else (f, a)) = r1
    refine onlyActivates_trans r1.1
      (if (!r1.1.isActive FollowType.Horizontal && r1.1._forceActivateHorizontal) = true then
        { r1.1.activate FollowType.Horizontal with _forceActivateHorizontal := false }
      else r1.1) _ ?_ ?_
    · split_ifs with c
      · exact onlyActivates_trans _ _ _
          (onlyActivates_activate_inactive _ _ (by simp_all))
          (onlyActivates_of_timers _ _ rfl)
      · exact onlyActivates_refl _
    · generalize (if (!r1.1.isActive FollowType.Horizontal &&
          r1.1._forceActivateHorizontal) = true then
        ({ r1.1.activate FollowType.Horizontal with _forceActivateHorizontal := false } :
          FollowHelper)
        else r1.1) = f2
      split_ifs with c
      · exact onlyActivates_trans _ _ _
          (onlyActivates_activate_inactive _ _ (by simp_all))
          (onlyActivates_of_timers _ _ rfl)
      · exact onlyActivates_refl _

/-- After `prePhysicsUpdate` each timer is either untouched or freshly set to
`FOLLOW_TIME`, and a fresh horizontal or vertical timer replaces an inactive
one. -/
theorem onlyActivates_prePhysicsUpdate (f : FollowHelper) (a : FollowAvatar)
    (i : FollowInputs) (d : Bool) : onlyActivates f (prePhysicsUpdate f a i d).1 := by
  have h : (prePhysicsUpdate f a i d).1 = (prePhysicsActivate f a i d).1 := rfl
  rw [h, prePhysicsActivate_blocks]
  split_ifs
  · exact onlyActivates_trans _ _ _
      (onlyActivates_trans _ _ _ (onlyActivates_leanRotationBlock f a i d)
        (onlyActivates_leanHorizontalBlock _ i d))
      (onlyActivates_leanVerticalBlock _ i d)
  · exact onlyActivates_forcedBlocks f a




/-! ### The better position -/

/-- Whatever the clearing search returns is a landing result. -/
theorem landingResult_clearingSearch (env : LandingEnv) (ray : RayOracle)
    (positionIn out : Vec3) (n : Nat) :
    ∀ (upperIntersection : Vec3) (upperId : EntityItemID) (ignore : List EntityItemID)
      (r : Bool × Vec3),
      clearingSearch env ray env._worldUpDirection (1 / 2 * env.height) out n
        upperIntersection upperId ignore = ClearingOutcome.returned r →
      landingResult env ray positionIn out r := by
  induction n with
  | zero =>
    intro ui uid ign r h
    simp [clearingSearch] at h
  | succ k ih =>
    intro ui uid ign r h
    unfold clearingSearch at h
    dsimp only at h
    cases hf : findIntersection ray ui env._worldUpDirection [] (ign ++ [uid]) with
    | none =>
      rw [hf] at h
      simp only [ClearingOutcome.returned.injEq] at h
      exact Or.inl h.symm
    | some hit =>
      obtain ⟨p, id, nrm⟩ := hit
      rw [hf] at h
      dsimp only at h
      by_cases hu : env.isUp nrm = true
      · simp only [hu, if_true, ClearingOutcome.returned.injEq] at h
        subst h
        exact Or.inr ⟨rfl, ui, env._worldUpDirection, [], ign ++ [uid], p, id, nrm, hf, rfl,
          Or.inl ⟨rfl, hu⟩⟩
      · simp only [hu, if_false] at h
        exact ih _ _ _ _ h

/-- The cast from above gives a landing result. -/
theorem landingResult_castFromAbove (env : LandingEnv) (ray : RayOracle)
    (positionIn out : Vec3) (upperId : EntityItemID) (ignore : List EntityItemID) :
    landingResult env ray positionIn out
      (castFromAbove env ray positionIn env._worldUpDirection (1 / 2 * env.height) out
        upperId ignore) := by
  unfold castFromAbove
  dsimp only
  cases hf : findIntersection ray
      (positionIn.add (env._worldUpDirection.scale env.TREE_SCALE))
      env._worldUpDirection.neg [upperId] ignore with
  | none => exact Or.inl rfl
  | some hit =>
    obtain ⟨p, id, nrm⟩ := hit
    exact Or.inr ⟨rfl, _, _, _, _, p, id, nrm, hf, rfl, Or.inr ⟨rfl, rfl⟩⟩

/-- Every result of `requiresSafeLanding` on an entity tree is a landing
result; without a tree the answer is "no move". -/
theorem landingResult_requiresSafeLanding (env : LandingEnv) (positionIn out : Vec3) :
    requiresSafeLanding env positionIn out = (false, out) ∨
    ∃ ray, env.entityTree = some ray ∧
      landingResult env ray positionIn out (requiresSafeLanding env positionIn out) := by
  unfold requiresSafeLanding
  dsimp only
  split_ifs with h0
  · exact Or.inl rfl
  · cases htree : env.entityTree with
    | none => exact Or.inl rfl
    | some ray =>
      dsimp only
      cases hup : findIntersection ray positionIn env._worldUpDirection [] [] with
      | none => exact Or.inl rfl
      | some hitU =>
        obtain ⟨ui, uid, un⟩ := hitU
        dsimp only
        cases hdn : findIntersection ray positionIn env._worldUpDirection.neg [] [] with
        | none => exact Or.inl rfl
        | some hitD =>
          obtain ⟨li, lid, ln⟩ := hitD
          dsimp only
          refine Or.inr ⟨ray, rfl, ?_⟩
          split_ifs with c1 c2
          · cases hs : clearingSearch env ray env._worldUpDirection (1 / 2 * env.height) out
                iterationLimit ui uid [] with
            | returned r =>
              exact landingResult_clearingSearch env ray positionIn out _ _ _ _ r hs
            | exhausted a b c =>
              exact landingResult_castFromAbove env ray positionIn out _ _
          · exact landingResult_castFromAbove env ray positionIn out _ _
          · exact landingResult_castFromAbove env ray positionIn out _ _

/-- C27: whenever `requiresSafeLanding` returns `false` the output position is
left untouched, and whenever it returns `true` the better position is the hit
point of a ray cast plus the up direction times half the avatar height, that
cast being an upward re-cast that hit an upward-facing surface or the cast
straight down from `TREE_SCALE` above the candidate position. -/
theorem requiresSafeLanding_better_position (env : LandingEnv) (positionIn out : Vec3) :
    ((requiresSafeLanding env positionIn out).1 = false →
      (requiresSafeLanding env positionIn out).2 = out) ∧
    ((requiresSafeLanding env positionIn out).1 = true →
      ∃ ray start dir includeIds ignoreIds p id n,
        env.entityTree = some ray ∧
        findIntersection ray start dir includeIds ignoreIds = some (p, id, n) ∧
        (requiresSafeLanding env positionIn out).2 =
          p.add (env._worldUpDirection.scale (1 / 2 * env.height)) ∧
        ((dir = env._worldUpDirection ∧ env.isUp n = true) ∨
         (start = positionIn.add (env._worldUpDirection.scale env.TREE_SCALE) ∧
          dir = env._worldUpDirection.neg))) := by
  rcases landingResult_requiresSafeLanding env positionIn out with h | ⟨ray, htree, h | h⟩
  · rw [h]
    exact ⟨fun _ => rfl, fun hc => absurd hc (by simp)⟩
  · rw [h]
    exact ⟨fun _ => rfl, fun hc => absurd hc (by simp)⟩
  · obtain ⟨ht, start, dir, incl, ign, p, id, n, hf, hp, hd⟩ := h
    refine ⟨fun hc => ?_, fun _ => ⟨ray, start, dir, incl, ign, p, id, n, htree, hf, hp, hd⟩⟩
    rw [ht] at hc
    exact absurd hc (by simp)

/-- Witness for C27 in `enclosedScene`: the answer is `true`, the last re-cast
(upward from the ceiling hit, ignoring entity 1) hits the top of entity 3 at
height 6, and the better position is one half height above it. -/
theorem requiresSafeLanding_better_position_witness :
    (requiresSafeLanding enclosedScene ⟨0, 0, 0⟩ ⟨9, 9, 9⟩).1 = true ∧
    (requiresSafeLanding enclosedScene ⟨0, 0, 0⟩ ⟨9, 9, 9⟩).2 =
      (⟨0, 6, 0⟩ : Vec3).add (enclosedScene._worldUpDirection.scale
        (1 / 2 * enclosedScene.height)) ∧
    ∃ ray start dir includeIds ignoreIds p id n,
      enclosedScene.entityTree = some ray ∧
      findIntersection ray start dir includeIds ignoreIds = some (p, id, n) ∧
      (requiresSafeLanding enclosedScene ⟨0, 0, 0⟩ ⟨9, 9, 9⟩).2 =
        p.add (enclosedScene._worldUpDirection.scale (1 / 2 * enclosedScene.height)) ∧
      ((dir = enclosedScene._worldUpDirection ∧ enclosedScene.isUp n = true) ∨
       (start = (⟨0, 0, 0⟩ : Vec3).add
          (enclosedScene._worldUpDirection.scale enclosedScene.TREE_SCALE) ∧
        dir = enclosedScene._worldUpDirection.neg)) := by
  have hr : requiresSafeLanding enclosedScene ⟨0, 0, 0⟩ ⟨9, 9, 9⟩ = (true, ⟨0, 7, 0⟩) := by
    simp [requiresSafeLanding, enclosedScene, enclosedRay, findIntersection, Vec3.add,
      Vec3.scale, Vec3.neg, Vec3.distanceExceeds, Vec3.distanceSq, halfHeightFactor,
      iterationLimit, clearingSearch, mustMove]
    norm_num
  have h1 : (requiresSafeLanding enclosedScene ⟨0, 0, 0⟩ ⟨9, 9, 9⟩).1 = true := by
    rw [hr]
  refine ⟨h1, ?_,
    (requiresSafeLanding_better_position enclosedScene ⟨0, 0, 0⟩ ⟨9, 9, 9⟩).2 h1⟩
  rw [hr]
  norm_num [Vec3.add, Vec3.scale, enclosedScene]

/-! ### Deferred serialization -/

/-- Moving the last element of `b` to the front rearranges `b`. -/
theorem perm_dropLast_getLastD_cons (b : List QUuid) (y : QUuid) :
    (List.dropLast (b.getLastD y :: b)).Perm b := by
  cases b with
  | nil => simp [List.getLastD_nil]
  | cons h t =>
    have hne : (h :: t) ≠ [] := List.cons_ne_nil h t
    have hsplit := List.dropLast_append_getLast hne
    have hlast : (h :: t).getLastD y = (h :: t).getLast hne := by
      rw [List.getLastD_cons, List.getLast_eq_getLastD]
    rw [hlast, List.dropLast_cons₂]
    have hp : ((h :: t).getLast hne :: (h :: t).dropLast).Perm
        ((h :: t).dropLast ++ [(h :: t).getLast hne]) :=
      (List.perm_append_singleton _ _).symm
    rw [hsplit] at hp
    exact hp

/-- The single-removal search: an ID absent from the part not yet scanned
leaves the vector alone and answers `false`; an ID present there is found, and
the result holds one occurrence of it fewer and every other ID as often as
before. -/
theorem removeOneSkip_spec (id : QUuid) :
    ∀ (fuel : Nat) (a b : List QUuid), b.length ≤ fuel →
      (id ∉ b → removeOneSkip id fuel a.length (a ++ b) = (false, a ++ b)) ∧
      (id ∈ b → (removeOneSkip id fuel a.length (a ++ b)).1 = true ∧
        ∀ j, List.count j (removeOneSkip id fuel a.length (a ++ b)).2 +
          (if j = id then 1 else 0) = List.count j (a ++ b)) := by
  intro fuel
  induction fuel with
  | zero =>
    intro a b hb
    have : b = [] := List.length_eq_zero.mp (Nat.le_zero.mp hb)
    subst this
    simp [removeOneSkip]
  | succ k ih =>
    intro a b hb
    cases b with
    | nil => simp [removeOneSkip]
    | cons y b' =>
      have hlt : a.length < (a ++ y :: b').length := by simp
      have hget : (a ++ y :: b').getD a.length id = y := by
        rw [List.getD_append_right _ _ _ _ (le_refl _), Nat.sub_self, List.getD_cons_zero]
      rw [removeOneSkip, if_pos hlt, hget]
      by_cases hy : id = y
      · rw [if_pos hy]
        refine ⟨fun hn => absurd (hy ▸ List.mem_cons_self _ _) hn, fun _ => ⟨rfl, ?_⟩⟩
        intro j
        dsimp only
        rw [swapRemove_append, List.count_append, List.count_append,
          (perm_dropLast_getLastD_cons b' y).count_eq, List.count_cons, hy]
        by_cases hj : j = y
        · simp [hj]
          omega
        · have hj2 : ¬ y = j := fun h => hj h.symm
          simp [hj, hj2]
      · rw [if_neg hy]
        have e : a ++ y :: b' = (a ++ [y]) ++ b' := by simp
        have el : a.length + 1 = (a ++ [y]).length := by simp
        have hb2 : b'.length ≤ k := by
          simp only [List.length_cons] at hb
          omega
        obtain ⟨i1, i2⟩ := ih (a ++ [y]) b' hb2
        rw [e, el]
        refine ⟨fun hn => i1 (fun h => hn (List.mem_cons_of_mem _ h)), fun hm => i2 ?_⟩
        rcases List.mem_cons.mp hm with h | h
        · exact absurd h hy
        · exact h

/-- The loop "ADD/UPDATE cached blobs" leaves the cached blobs alone. -/
theorem markStaleBlobs_cache :
    ∀ (ids : List QUuid) (s : AvatarEntityState),
      (markStaleBlobs s ids)._cachedAvatarEntityBlobs = s._cachedAvatarEntityBlobs := by
  intro ids
  induction ids with
  | nil => intro s; rfl
  | cons id rest ih =>
    intro s
    unfold markStaleBlobs
    rw [List.foldl_cons]
    have h := ih (markStaleBlobs s [id])
    unfold markStaleBlobs at h
    rw [List.foldl_cons, List.foldl_nil] at h
    rw [h]
    dsimp only
    split_ifs <;> rfl

/-- A lookup that succeeds after an erasure succeeded before it, with the same
blob. -/
theorem find_erase_some (m : AvatarEntityMap) (id x : QUuid) (b : Blob)
    (h : (AvatarEntityMap.erase m id).find x = some b) : m.find x = some b := by
  induction m with
  | nil => simp [AvatarEntityMap.erase, AvatarEntityMap.find] at h
  | cons p rest ih =>
    simp only [AvatarEntityMap.erase, AvatarEntityMap.find] at h ih ⊢
    by_cases hp : p.1 = id
    · have hx : ¬ p.1 = x := by
        intro hpx
        have hxid : x = id := hpx ▸ hp
        subst hxid
        have hnone : List.find? (fun q => q.1 == x)
            (List.filter (fun q => q.1 != x) (p :: rest)) = none := by
          rw [List.find?_eq_none]
          intro q hq
          have := (List.mem_filter.mp hq).2
          simpa using this
        rw [hnone] at h
        simp at h
      have hf : List.filter (fun q => q.1 != id) (p :: rest) =
          List.filter (fun q => q.1 != id) rest := by
        simp [List.filter_cons, hp]
      rw [hf] at h
      rw [List.find?_cons_of_neg _ (by simpa using hx)]
      exact ih h
    · have hf : List.filter (fun q => q.1 != id) (p :: rest) =
          p :: List.filter (fun q => q.1 != id) rest := by
        simp [List.filter_cons, hp]
      rw [hf] at h
      by_cases hx : p.1 = x
      · rw [List.find?_cons_of_pos _ (by simpa using hx)] at h ⊢
        exact h
      · rw [List.find?_cons_of_neg _ (by simpa using hx)] at h ⊢
        exact ih h

/-- The loop "DELETE cached blobs" only erases: a blob found afterwards was
cached before, with the same bytes. -/
theorem deleteCachedBlobs_cache_sub (x : QUuid) (b : Blob) :
    ∀ (ids : List QUuid) (s : AvatarEntityState),
      (deleteCachedBlobs s ids)._cachedAvatarEntityBlobs.find x = some b →
      s._cachedAvatarEntityBlobs.find x = some b := by
  intro ids
  induction ids with
  | nil => intro s h; exact h
  | cons id rest ih =>
    intro s h
    unfold deleteCachedBlobs at h
    rw [List.foldl_cons] at h
    have h2 := ih _ h
    dsimp only at h2
    split_ifs at h2
    · exact find_erase_some _ _ _ _ h2
    · exact h2

/-- A pass that gets past its early returns ends with the loop "ADD/UPDATE
cached blobs" over the add/update list left by the overlap removal. -/
theorem handleChangedAvatarEntityData_ends_marking (env : ReconcilerEnv)
    (s : AvatarEntityState) (hruns : passRuns env s) :
    (handleChangedAvatarEntityData env s).1 =
      markStaleBlobs (passBeforeMarking env s) (passLists env s).cachedBlobsToUpdate := by
  unfold handleChangedAvatarEntityData
  rw [if_neg hruns.1]
  simp only [hruns.2, Bool.not_true, Bool.false_eq_true, if_false]
  rfl

/-- C28: a pass that gets past its early returns ends with the loop over the
blob add/update list left by the overlap removal, which handles one ID after
the other.  An ID absent from `_cachedAvatarEntityBlobUpdatesToSkip` when its
turn comes is only inserted into the stale set and the needs-save flag is set.
An ID present there is not marked stale (stale set and flag stay as they are)
and exactly one occurrence of it leaves the skip list.  The loop never touches
the cached blobs, and every blob cached after the pass was cached with the same
bytes when the pass moved its lists. -/
theorem handleChangedAvatarEntityData_defers_serialization (env : ReconcilerEnv)
    (s : AvatarEntityState) (hruns : passRuns env s) :
    (handleChangedAvatarEntityData env s).1 =
      markStaleBlobs (passBeforeMarking env s) (passLists env s).cachedBlobsToUpdate ∧
    (∀ (st : AvatarEntityState) (id : QUuid) (rest : List QUuid),
      markStaleBlobs st (id :: rest) = markStaleBlobs (markStaleBlobs st [id]) rest) ∧
    (∀ (st : AvatarEntityState) (id : QUuid),
      id ∉ st._cachedAvatarEntityBlobUpdatesToSkip →
      markStaleBlobs st [id] =
        { st with
          _staleCachedAvatarEntityBlobs := staleInsert st._staleCachedAvatarEntityBlobs id
          _needToSaveAvatarEntitySettings := true } ∧
      id ∈ (markStaleBlobs st [id])._staleCachedAvatarEntityBlobs) ∧
    (∀ (st : AvatarEntityState) (id : QUuid),
      id ∈ st._cachedAvatarEntityBlobUpdatesToSkip →
      (markStaleBlobs st [id])._staleCachedAvatarEntityBlobs =
        st._staleCachedAvatarEntityBlobs ∧
      (markStaleBlobs st [id])._needToSaveAvatarEntitySettings =
        st._needToSaveAvatarEntitySettings ∧
      ∀ j, List.count j (markStaleBlobs st [id])._cachedAvatarEntityBlobUpdatesToSkip +
        (if j = id then 1 else 0) = List.count j st._cachedAvatarEntityBlobUpdatesToSkip) ∧
    (∀ (st : AvatarEntityState) (ids : List QUuid),
      (markStaleBlobs st ids)._cachedAvatarEntityBlobs = st._cachedAvatarEntityBlobs) ∧
    (∀ (x : QUuid) (b : Blob),
      (handleChangedAvatarEntityData env s).1._cachedAvatarEntityBlobs.find x = some b →
      (passStart env s)._cachedAvatarEntityBlobs.find x = some b) := by
  have hend := handleChangedAvatarEntityData_ends_marking env s hruns
  refine ⟨hend, fun _ _ _ => rfl, ?_, ?_, fun st ids => markStaleBlobs_cache ids st, ?_⟩
  · intro st id hid
    have h := (removeOneSkip_spec id st._cachedAvatarEntityBlobUpdatesToSkip.length []
      st._cachedAvatarEntityBlobUpdatesToSkip (le_refl _)).1 hid
    simp only [List.nil_append, List.length_nil] at h
    have e : markStaleBlobs st [id] =
        { st with
          _staleCachedAvatarEntityBlobs := staleInsert st._staleCachedAvatarEntityBlobs id
          _needToSaveAvatarEntitySettings := true } := by
      unfold markStaleBlobs
      rw [List.foldl_cons, List.foldl_nil]
      dsimp only
      rw [h]
      simp
    refine ⟨e, ?_⟩
    rw [e]
    dsimp only
    unfold staleInsert
    split_ifs with hm
    · exact hm
    · exact (List.perm_insertionSort _ _).mem_iff.mpr (List.mem_cons_self _ _)
  · intro st id hid
    have h := (removeOneSkip_spec id st._cachedAvatarEntityBlobUpdatesToSkip.length []
      st._cachedAvatarEntityBlobUpdatesToSkip (le_refl _)).2 hid
    simp only [List.nil_append, List.length_nil] at h
    obtain ⟨h1, h2⟩ := h
    unfold markStaleBlobs
    rw [List.foldl_cons, List.foldl_nil]
    dsimp only
    rw [h1]
    simp only [if_true]
    exact ⟨trivial, trivial, h2⟩
  · intro x b hx
    rw [hend, markStaleBlobs_cache] at hx
    unfold passBeforeMarking at hx
    dsimp only at hx
    have h2 := deleteCachedBlobs_cache_sub x b _ _ hx
    exact h2
/-- Witness for C28 on `sceneChangedState`: of the changed entities 7 and 8,
entity 7 is in the skip list, so the pass removes it from there and marks only
8 as stale; the cached blobs are the same after the pass. -/
theorem handleChangedAvatarEntityData_defers_serialization_witness :
    passRuns permissiveEnv sceneChangedState ∧
    (passLists permissiveEnv sceneChangedState).cachedBlobsToUpdate = [7, 8] ∧
    (handleChangedAvatarEntityData permissiveEnv sceneChangedState).1 =
      markStaleBlobs (passBeforeMarking permissiveEnv sceneChangedState)
        (passLists permissiveEnv sceneChangedState).cachedBlobsToUpdate ∧
    (handleChangedAvatarEntityData permissiveEnv
      sceneChangedState).1._staleCachedAvatarEntityBlobs = [8] ∧
    (handleChangedAvatarEntityData permissiveEnv
      sceneChangedState).1._cachedAvatarEntityBlobUpdatesToSkip = [] ∧
    (handleChangedAvatarEntityData permissiveEnv
      sceneChangedState).1._needToSaveAvatarEntitySettings = true ∧
    (handleChangedAvatarEntityData permissiveEnv
      sceneChangedState).1._cachedAvatarEntityBlobs =
      sceneChangedState._cachedAvatarEntityBlobs := by
  have hruns : passRuns permissiveEnv sceneChangedState := by
    unfold passRuns
    decide
  exact ⟨hruns, by decide,
    (handleChangedAvatarEntityData_defers_serialization permissiveEnv sceneChangedState
      hruns).1, by decide, by decide, by decide, by decide⟩

/-! ### The partition made by `setAvatarEntityData` -/

/-- A key of the map is found in it. -/
theorem find_isSome_of_mem_keys (m : AvatarEntityMap) (id : QUuid)
    (h : id ∈ m.map Prod.fst) : (m.find id).isSome = true := by
  induction m with
  | nil => simp at h
  | cons p rest ih =>
    simp only [AvatarEntityMap.find] at ih ⊢
    by_cases hp : p.1 = id
    · rw [List.find?_cons_of_pos _ (by simpa using hp)]
      rfl
    · rw [List.find?_cons_of_neg _ (by simpa using hp)]
      apply ih
      simp only [List.map_cons, List.mem_cons] at h
      rcases h with h | h
      · exact absurd h.symm hp
      · exact h

/-- A lookup that succeeds names a key of the map. -/
theorem mem_keys_of_find_isSome (m : AvatarEntityMap) (id : QUuid)
    (h : (m.find id).isSome = true) : id ∈ m.map Prod.fst := by
  induction m with
  | nil => simp [AvatarEntityMap.find] at h
  | cons p rest ih =>
    simp only [AvatarEntityMap.find] at ih h
    by_cases hp : p.1 = id
    · simp [hp]
    · rw [List.find?_cons_of_neg _ (by simpa using hp)] at h
      exact List.mem_cons_of_mem _ (ih h)

/-- With distinct keys, a lookup returns `b` exactly when `(id, b)` is an entry. -/
theorem find_eq_some_iff_mem (m : AvatarEntityMap) (hnd : (m.map Prod.fst).Nodup)
    (id : QUuid) (b : Blob) : m.find id = some b ↔ (id, b) ∈ m := by
  induction m with
  | nil => simp [AvatarEntityMap.find]
  | cons p rest ih =>
    rw [List.map_cons, List.nodup_cons] at hnd
    have ih2 := ih hnd.2
    simp only [AvatarEntityMap.find] at ih2 ⊢
    by_cases hp : p.1 = id
    · rw [List.find?_cons_of_pos _ (by simpa using hp)]
      simp only [Option.map_some', Option.some.injEq, List.mem_cons]
      constructor
      · intro hb
        left
        rw [← hb, ← hp]
      · rintro (h | h)
        · rw [← h]
        · exfalso
          apply hnd.1
          rw [hp]
          exact List.mem_map.mpr ⟨(id, b), h, rfl⟩
    · rw [List.find?_cons_of_neg _ (by simpa using hp), ih2, List.mem_cons]
      constructor
      · exact Or.inr
      · rintro (h | h)
        · exfalso
          apply hp
          rw [← h]
        · exact h

/-- With distinct keys, lookups depend only on the set of entries. -/
theorem find_eq_of_perm (m m2 : AvatarEntityMap) (hnd : (m.map Prod.fst).Nodup)
    (hp : m2.Perm m) (id : QUuid) : m2.find id = m.find id := by
  have hnd2 : (m2.map Prod.fst).Nodup := (hp.map Prod.fst).nodup_iff.mpr hnd
  cases h : m.find id with
  | none =>
    cases h2 : m2.find id with
    | none => rfl
    | some b =>
      have := (find_eq_some_iff_mem m hnd id b).mpr
        (hp.mem_iff.mp ((find_eq_some_iff_mem m2 hnd2 id b).mp h2))
      rw [h] at this
      exact absurd this (by simp)
  | some b =>
    exact (find_eq_some_iff_mem m2 hnd2 id b).mpr
      (hp.mem_iff.mpr ((find_eq_some_iff_mem m hnd id b).mp h))

/-- Copying a map with distinct keys into a cache, entry by entry, gives the
entries of the map in reverse order followed by the cache entries under other
keys. -/
theorem foldl_insert_eq (m : AvatarEntityMap) :
    ∀ (c : AvatarEntityMap), (m.map Prod.fst).Nodup →
      m.foldl (fun acc p => AvatarEntityMap.insert acc p.1 p.2) c =
        m.reverse ++ c.filter (fun q => decide (q.1 ∉ m.map Prod.fst)) := by
  induction m with
  | nil => intro c _; simp
  | cons p rest ih =>
    intro c hnd
    rw [List.map_cons, List.nodup_cons] at hnd
    rw [List.foldl_cons, ih _ hnd.2, List.reverse_cons, List.append_assoc]
    congr 1
    unfold AvatarEntityMap.insert AvatarEntityMap.erase
    rw [List.filter_cons_of_pos (by simpa using hnd.1), List.filter_filter]
    simp only [List.singleton_append, List.cons.injEq, true_and]
    apply List.filter_congr
    intro q _
    by_cases hq : q.1 = p.1 <;> by_cases hr : q.1 ∈ List.map Prod.fst rest <;>
      simp [hq, hr]

/-- The loop "find new and updated IDs": the cached blobs are only read, new
keys are appended to `_entitiesToAdd` and cached keys to `_entitiesToUpdate`. -/
theorem classify_foldl (m : AvatarEntityMap) :
    ∀ st : AvatarEntityState,
      m.foldl
        (fun st p =>
          if (st._cachedAvatarEntityBlobs.find p.1).isNone then
            { st with _entitiesToAdd := st._entitiesToAdd ++ [p.1] }
          else
            { st with _entitiesToUpdate := st._entitiesToUpdate ++ [p.1] })
        st =
      { st with
        _entitiesToAdd := st._entitiesToAdd ++ (m.map Prod.fst).filter
          (fun id => (st._cachedAvatarEntityBlobs.find id).isNone)
        _entitiesToUpdate := st._entitiesToUpdate ++ (m.map Prod.fst).filter
          (fun id => (st._cachedAvatarEntityBlobs.find id).isSome) } := by
  induction m with
  | nil => intro st; simp
  | cons p rest ih =>
    intro st
    rw [List.foldl_cons, ih]
    cases hf : st._cachedAvatarEntityBlobs.find p.1 with
    | none => simp [hf, List.filter_cons]
    | some b => simp [hf, List.filter_cons]

/-- The loop "erase deleted IDs from `_packedAvatarEntityData`": every ID is
erased from the packed data and appended to `_entitiesToDelete`. -/
theorem erasePacked_foldl (ids : List QUuid) :
    ∀ st : AvatarEntityState,
      ids.foldl
        (fun st id =>
          { st with _packedAvatarEntityData := st._packedAvatarEntityData.erase id
                    _entitiesToDelete := st._entitiesToDelete ++ [id] })
        st =
      { st with
        _packedAvatarEntityData :=
          ids.foldl (fun pk id => AvatarEntityMap.erase pk id) st._packedAvatarEntityData
        _entitiesToDelete := st._entitiesToDelete ++ ids } := by
  induction ids with
  | nil => intro st; simp
  | cons id rest ih =>
    intro st
    rw [List.foldl_cons, ih]
    simp

/-- The parts of the state written by an accepted `setAvatarEntityData`. -/
theorem setAvatarEntityData_fields (MAX_NUM_AVATAR_ENTITIES : Nat) (s : AvatarEntityState)
    (m : AvatarEntityMap) (hsize : m.length ≤ MAX_NUM_AVATAR_ENTITIES) :
    (setAvatarEntityData MAX_NUM_AVATAR_ENTITIES s m)._entitiesToAdd =
      (m.map Prod.fst).filter (fun id => (s._cachedAvatarEntityBlobs.find id).isNone) ∧
    (setAvatarEntityData MAX_NUM_AVATAR_ENTITIES s m)._entitiesToUpdate =
      (m.map Prod.fst).filter (fun id => (s._cachedAvatarEntityBlobs.find id).isSome) ∧
    (setAvatarEntityData MAX_NUM_AVATAR_ENTITIES s m)._entitiesToDelete =
      (s._cachedAvatarEntityBlobs.map Prod.fst).filter
        (fun id => decide (id ∉ (m.map Prod.fst).filter
          (fun id => (s._cachedAvatarEntityBlobs.find id).isSome))) ∧
    (setAvatarEntityData MAX_NUM_AVATAR_ENTITIES s m)._cachedAvatarEntityBlobs =
      m.foldl (fun acc p => AvatarEntityMap.insert acc p.1 p.2)
        (s._cachedAvatarEntityBlobs.filter
          (fun p => decide (p.1 ∈ (m.map Prod.fst).filter
            (fun id => (s._cachedAvatarEntityBlobs.find id).isSome)))) := by
  unfold setAvatarEntityData
  rw [if_neg (Nat.not_lt.mpr hsize)]
  dsimp only
  rw [erasePacked_foldl, classify_foldl]
  simp

/-- C29: for an input map `m` with distinct keys and at most
`MAX_NUM_AVATAR_ENTITIES` entries, after `setAvatarEntityData` the cached blob
map has exactly the entries of `m` (every lookup agrees with `m`),
`_entitiesToAdd` holds the keys of `m` that were not cached before,
`_entitiesToUpdate` the keys of `m` that were cached before, `_entitiesToDelete`
the previously cached keys absent from `m`, and the three lists are pairwise
disjoint. -/
theorem setAvatarEntityData_partitions (MAX_NUM_AVATAR_ENTITIES : Nat)
    (s : AvatarEntityState) (m : AvatarEntityMap)
    (hsize : m.length ≤ MAX_NUM_AVATAR_ENTITIES) (hkeys : (m.map Prod.fst).Nodup) :
    (∀ id, (setAvatarEntityData MAX_NUM_AVATAR_ENTITIES s m)._cachedAvatarEntityBlobs.find id =
      m.find id) ∧
    ((setAvatarEntityData MAX_NUM_AVATAR_ENTITIES s m)._cachedAvatarEntityBlobs).Perm m ∧
    (setAvatarEntityData MAX_NUM_AVATAR_ENTITIES s m)._entitiesToAdd =
      (m.map Prod.fst).filter (fun id => (s._cachedAvatarEntityBlobs.find id).isNone) ∧
    (setAvatarEntityData MAX_NUM_AVATAR_ENTITIES s m)._entitiesToUpdate =
      (m.map Prod.fst).filter (fun id => (s._cachedAvatarEntityBlobs.find id).isSome) ∧
    (setAvatarEntityData MAX_NUM_AVATAR_ENTITIES s m)._entitiesToDelete =
      (s._cachedAvatarEntityBlobs.map Prod.fst).filter
        (fun id => decide (id ∉ m.map Prod.fst)) ∧
    (∀ id, ¬ (id ∈ (setAvatarEntityData MAX_NUM_AVATAR_ENTITIES s m)._entitiesToAdd ∧
      id ∈ (setAvatarEntityData MAX_NUM_AVATAR_ENTITIES s m)._entitiesToUpdate)) ∧
    (∀ id, ¬ (id ∈ (setAvatarEntityData MAX_NUM_AVATAR_ENTITIES s m)._entitiesToAdd ∧
      id ∈ (setAvatarEntityData MAX_NUM_AVATAR_ENTITIES s m)._entitiesToDelete)) ∧
    (∀ id, ¬ (id ∈ (setAvatarEntityData MAX_NUM_AVATAR_ENTITIES s m)._entitiesToUpdate ∧
      id ∈ (setAvatarEntityData MAX_NUM_AVATAR_ENTITIES s m)._entitiesToDelete)) := by
  obtain ⟨hadd, hupd, hdel, hcache⟩ :=
    setAvatarEntityData_fields MAX_NUM_AVATAR_ENTITIES s m hsize
  have hdel2 : (setAvatarEntityData MAX_NUM_AVATAR_ENTITIES s m)._entitiesToDelete =
      (s._cachedAvatarEntityBlobs.map Prod.fst).filter
        (fun id => decide (id ∉ m.map Prod.fst)) := by
    rw [hdel]
    apply List.filter_congr
    intro id hid
    have hsome := find_isSome_of_mem_keys _ _ hid
    simp [List.mem_filter, hsome]
  have hperm : ((setAvatarEntityData MAX_NUM_AVATAR_ENTITIES s m)._cachedAvatarEntityBlobs).Perm
      m := by
    rw [hcache, foldl_insert_eq m _ hkeys]
    have hnil : List.filter (fun q => decide (q.1 ∉ m.map Prod.fst))
        (s._cachedAvatarEntityBlobs.filter
          (fun p => decide (p.1 ∈ (m.map Prod.fst).filter
            (fun id => (s._cachedAvatarEntityBlobs.find id).isSome)))) = [] := by
      rw [List.filter_eq_nil_iff]
      intro q hq
      have h1 := (List.mem_filter.mp hq).2
      have h2 : q.1 ∈ (m.map Prod.fst).filter
          (fun id => (s._cachedAvatarEntityBlobs.find id).isSome) := by
        simpa using h1
      have h3 := (List.mem_filter.mp h2).1
      simpa using h3
    rw [hnil, List.append_nil]
    exact List.reverse_perm m
  refine ⟨fun id => find_eq_of_perm m _ hkeys hperm id, hperm, hadd, hupd, hdel2, ?_, ?_, ?_⟩
  · intro id h
    rw [hadd, hupd] at h
    have h1 := (List.mem_filter.mp h.1).2
    have h2 := (List.mem_filter.mp h.2).2
    cases hf : s._cachedAvatarEntityBlobs.find id <;> simp [hf] at h1 h2
  · intro id h
    rw [hadd, hdel2] at h
    have h1 := (List.mem_filter.mp h.1).2
    have h2 := find_isSome_of_mem_keys _ _ (List.mem_filter.mp h.2).1
    cases hf : s._cachedAvatarEntityBlobs.find id <;> simp [hf] at h1 h2
  · intro id h
    rw [hupd, hdel2] at h
    have h1 := (List.mem_filter.mp h.1).1
    have h2 := (List.mem_filter.mp h.2).2
    simp only [decide_eq_true_eq] at h2
    exact h2 h1

/-- Witness for C29 on `busyEntityState` (entities 5 and 6 cached) with the
input map of entities 6 and 9: 9 is added, 6 updated, 5 deleted, and the cache
holds the two input blobs. -/
theorem setAvatarEntityData_partitions_witness :
    (setAvatarEntityData 100 busyEntityState [(6, [7]), (9, [8])])._entitiesToAdd = [9] ∧
    (setAvatarEntityData 100 busyEntityState [(6, [7]), (9, [8])])._entitiesToUpdate = [6] ∧
    (setAvatarEntityData 100 busyEntityState [(6, [7]), (9, [8])])._entitiesToDelete = [5] ∧
    (∀ id, (setAvatarEntityData 100 busyEntityState
      [(6, [7]), (9, [8])])._cachedAvatarEntityBlobs.find id =
      AvatarEntityMap.find [(6, [7]), (9, [8])] id) :=
  ⟨by decide, by decide, by decide,
   (setAvatarEntityData_partitions 100 busyEntityState [(6, [7]), (9, [8])]
     (by decide) (by decide)).1⟩

/-! ### Timeouts under float rounding -/

/-- Without rounding, the float-explicit classifier is `updateSitStandState`. -/
theorem updateSitStandStateRounded_exact (s : SitStandState) (h dt : ℚ) :
    updateSitStandStateRounded (fun x => x) s h dt = updateSitStandState s h dt := rfl

/-- C15 (amended): in the unlocked, tracked, not-away standing state with a
reading below the threshold as the code computes it
(`h < 0.833f * tippingPoint`, both the literal and the product rounded to
float), `updateSitStandState(h, dt)` stores the rounded sum of the timer and
`dt` and switches to sitting exactly when that stored sum is strictly greater
than 4 s; on that switch the tipping point and the average height become `h`
and the timer becomes 0; otherwise the state stays standing and only the timer
changes.  This holds for every rounding function. -/
theorem updateSitStandState_standing_sits_after_timeout (fl : ℚ → ℚ) (s : SitStandState)
    (h dt : ℚ)
    (hl : s._lockSitStandState = false) (ha : s._isAway = false)
    (hv : s.headPoseValid = true) (hs : s._isInSittingState = false)
    (hh : h < fl (fl SITTING_HEIGHT_MULTIPLE * s._tippingPoint)) :
    ((updateSitStandStateRounded fl s h dt)._isInSittingState = true ↔
      fl (s._sitStandStateTimer + dt) > SITTING_TIMEOUT) ∧
    (fl (s._sitStandStateTimer + dt) > SITTING_TIMEOUT →
      (updateSitStandStateRounded fl s h dt)._tippingPoint = h ∧
      (updateSitStandStateRounded fl s h dt)._averageUserHeightSensorSpace = h ∧
      (updateSitStandStateRounded fl s h dt)._sitStandStateTimer = 0) ∧
    (¬ fl (s._sitStandStateTimer + dt) > SITTING_TIMEOUT →
      updateSitStandStateRounded fl s h dt =
        { s with _sitStandStateTimer := fl (s._sitStandStateTimer + dt) }) := by
  by_cases ht : fl (s._sitStandStateTimer + dt) > SITTING_TIMEOUT
  · simp [updateSitStandStateRounded, hl, ha, hv, hs, hh, ht, setIsInSittingState]
  · simp [updateSitStandStateRounded, hl, ha, hv, hs, hh, ht]

/-- Witness for the amended C15: 3 s accumulated, reading 1.1, `dt = 2`, all
sums exact. -/
theorem updateSitStandState_standing_sits_after_timeout_witness :
    (updateSitStandStateRounded (fun x => x) (standingAt scenarioStart (17 / 10) 3)
      (11 / 10) 2)._isInSittingState = true ∧
    (updateSitStandStateRounded (fun x => x) (standingAt scenarioStart (17 / 10) 3)
      (11 / 10) 2)._tippingPoint = 11 / 10 ∧
    (updateSitStandStateRounded (fun x => x) (standingAt scenarioStart (17 / 10) 3)
      (11 / 10) 2)._sitStandStateTimer = 0 :=
  have h := updateSitStandState_standing_sits_after_timeout (fun x => x)
    (standingAt scenarioStart (17 / 10) 3) (11 / 10) 2 rfl rfl rfl rfl
    (by norm_num [standingAt, scenarioStart, SITTING_HEIGHT_MULTIPLE])
  have ht : (standingAt scenarioStart (17 / 10) 3)._sitStandStateTimer + 2 > SITTING_TIMEOUT := by
    norm_num [standingAt, scenarioStart, SITTING_TIMEOUT]
  ⟨h.1.mpr ht, (h.2.1 ht).1, (h.2.1 ht).2.2⟩

/-- C16 (as stated) fails because the sitting state has one timer for both
thresholds.  Sitting at tipping point 1 m, three readings of 0.75 m (below
`0.833 x 1`) with `dt = 1` leave the state sitting with the timer at 3 s; a
reading of 1.25 m (above `1.2 x 1`) with `dt = 1/8` then switches to standing,
although the reading has been above the threshold for an eighth of a second
only.  Every value here is exact in float. -/
theorem updateSitStandState_sitting_stands_on_carried_timer :
    (feedSitStand sittingStart [(3 / 4, 1), (3 / 4, 1), (3 / 4, 1)])._isInSittingState = true ∧
    (feedSitStand sittingStart [(3 / 4, 1), (3 / 4, 1), (3 / 4, 1)])._tippingPoint = 1 ∧
    (feedSitStand sittingStart [(3 / 4, 1), (3 / 4, 1), (3 / 4, 1)])._sitStandStateTimer = 3 ∧
    (5 / 4 : ℚ) > STANDING_HEIGHT_MULTIPLE *
      (feedSitStand sittingStart [(3 / 4, 1), (3 / 4, 1), (3 / 4, 1)])._tippingPoint ∧
    (1 / 8 : ℚ) < 1 / 3 ∧
    (updateSitStandState (feedSitStand sittingStart [(3 / 4, 1), (3 / 4, 1), (3 / 4, 1)])
      (5 / 4) (1 / 8))._isInSittingState = false := by
  have hfeed : feedSitStand sittingStart [(3 / 4, 1), (3 / 4, 1), (3 / 4, 1)] =
      { sittingStart with _sitStandStateTimer := 3 } := by
    norm_num [feedSitStand, updateSitStandState, sittingStart, scenarioStart,
      STANDING_HEIGHT_MULTIPLE, SITTING_HEIGHT_MULTIPLE, SITTING_TIMEOUT]
  rw [hfeed]
  refine ⟨rfl, ?_, rfl, ?_, ?_, ?_⟩ <;>
    norm_num [updateSitStandState, sittingStart, scenarioStart, STANDING_HEIGHT_MULTIPLE,
      STANDING_TIMEOUT, setIsInSittingState]

/-- C16 (amended): in the unlocked, tracked, not-away sitting state with a
reading above the threshold as the code computes it
(`h > 1.2f * tippingPoint`, both the literal and the product rounded to float),
`updateSitStandState(h, dt)` stores the rounded sum of the timer and `dt` and
switches to standing exactly when that stored sum is strictly greater than
`STANDING_TIMEOUT` (`0.3333f`); on that switch the tipping point and the
average height become `h` and the timer becomes 0; otherwise the state stays
sitting and only the timer changes.  The timer is whatever the state holds,
also time accumulated below the lower threshold.  This holds for every
rounding function. -/
theorem updateSitStandState_sitting_above_spec (fl : ℚ → ℚ) (s : SitStandState) (h dt : ℚ)
    (hl : s._lockSitStandState = false) (ha : s._isAway = false)
    (hv : s.headPoseValid = true) (hs : s._isInSittingState = true)
    (hh : h > fl (fl STANDING_HEIGHT_MULTIPLE * s._tippingPoint)) :
    ((updateSitStandStateRounded fl s h dt)._isInSittingState = false ↔
      fl (s._sitStandStateTimer + dt) > fl STANDING_TIMEOUT) ∧
    (fl (s._sitStandStateTimer + dt) > fl STANDING_TIMEOUT →
      (updateSitStandStateRounded fl s h dt)._tippingPoint = h ∧
      (updateSitStandStateRounded fl s h dt)._averageUserHeightSensorSpace = h ∧
      (updateSitStandStateRounded fl s h dt)._sitStandStateTimer = 0) ∧
    (¬ fl (s._sitStandStateTimer + dt) > fl STANDING_TIMEOUT →
      updateSitStandStateRounded fl s h dt =
        { s with _sitStandStateTimer := fl (s._sitStandStateTimer + dt) }) := by
  by_cases ht : fl (s._sitStandStateTimer + dt) > fl STANDING_TIMEOUT
  · simp [updateSitStandStateRounded, hl, ha, hv, hs, hh, ht, setIsInSittingState]
  · simp [updateSitStandStateRounded, hl, ha, hv, hs, hh, ht]

/-- Witness for the amended C16: sitting at tipping point 1 m, reading 1.5 m,
half a second. -/
theorem updateSitStandState_sitting_above_spec_witness :
    (updateSitStandStateRounded (fun x => x) sittingStart (3 / 2) (1 / 2))._isInSittingState
      = false ∧
    (updateSitStandStateRounded (fun x => x) sittingStart (3 / 2) (1 / 2))._tippingPoint
      = 3 / 2 ∧
    (updateSitStandStateRounded (fun x => x) sittingStart
      (3 / 2) (1 / 2))._averageUserHeightSensorSpace = 3 / 2 ∧
    (updateSitStandStateRounded (fun x => x) sittingStart (3 / 2) (1 / 2))._sitStandStateTimer
      = 0 :=
  have h := updateSitStandState_sitting_above_spec (fun x => x) sittingStart (3 / 2) (1 / 2)
    rfl rfl rfl rfl (by norm_num [sittingStart, scenarioStart, STANDING_HEIGHT_MULTIPLE])
  have ht : sittingStart._sitStandStateTimer + 1 / 2 > STANDING_TIMEOUT := by
    norm_num [sittingStart, scenarioStart, STANDING_TIMEOUT]
  ⟨h.1.mpr ht, (h.2.1 ht).1, (h.2.1 ht).2.1, (h.2.1 ht).2.2⟩

/-! ### The clearing under float arithmetic -/

/-- When the clearing search over the given float operations is bound to end in
a miss, the loop returns `false` and leaves the output position untouched. -/
theorem clearingSearchWith_of_clearAboveWith (ops : LandingOps) (env : LandingEnv)
    (ray : RayOracle) (up : Vec3) (halfHeight : ℚ) (out : Vec3) :
    ∀ (n : Nat) (p : Vec3) (uid : EntityItemID) (ign : List EntityItemID),
      clearAboveWith ops env ray up n p uid ign →
      clearingSearchWith ops env ray up halfHeight out n p uid ign =
        ClearingOutcome.returned (false, out) := by
  intro n
  induction n with
  | zero =>
    intro p uid ign h
    exact absurd h (by simp [clearAboveWith])
  | succ k ih =>
    intro p uid ign h
    unfold clearAboveWith at h
    unfold clearingSearchWith findIntersectionWith
    cases hr : ray p up [] (ign ++ [uid]) with
    | none => simp [hr]
    | some hit =>
      rw [hr] at h
      simp only [] at h
      simp only [hr, h.1, Bool.false_eq_true, if_false]
      exact ih _ _ _ h.2

/-- With exact vector arithmetic and no rounding the enclosed scene gives the
same answer as in exact arithmetic: the gap of 10 m passes the test and the
first re-cast finds the top of the enclosing entity. -/
theorem requiresSafeLandingWith_enclosed :
    requiresSafeLandingWith sampleLandingOps enclosedScene ⟨0, 0, 0⟩ ⟨9, 9, 9⟩ =
      (true, ⟨0, 7, 0⟩) := by
  simp [requiresSafeLandingWith, sampleLandingOps, enclosedScene, enclosedRay,
    findIntersectionWith, Vec3.add, Vec3.scale, Vec3.neg, halfHeightFactor, iterationLimit,
    clearingSearchWith, mustMoveWith]
  norm_num

/-- C6 (amended): if the upward and the downward ray from the candidate
position both hit, the surface above faces down and the surface below faces
up, the distance between the two hits as the code computes it
(`glm::distance` in float) exceeds `2.25f * halfHeight` as the code computes
it, and the upward clearing search (at most 1000 re-casts) reaches a re-cast
that hits nothing before any re-cast hits an upward-facing surface, then
`requiresSafeLanding` returns `false` and leaves the output untouched.  This
holds for every rounding function and every float vector arithmetic. -/
theorem requiresSafeLanding_clearing_accepts (ops : LandingOps) (env : LandingEnv)
    (ray : RayOracle)
    (positionIn out upperHit lowerHit upperNormal lowerNormal : Vec3)
    (upperId lowerId : EntityItemID)
    (htree : env.entityTree = some ray)
    (hup : findIntersectionWith ops ray positionIn env._worldUpDirection [] [] =
      some (upperHit, upperId, upperNormal))
    (hdown : findIntersectionWith ops ray positionIn (ops.neg env._worldUpDirection) [] [] =
      some (lowerHit, lowerId, lowerNormal))
    (hfacing : env.isDown upperNormal = true ∧ env.isUp lowerNormal = true)
    (hgap : ops.distance upperHit lowerHit >
      ops.fl (halfHeightFactor * ops.fl (1 / 2 * env.height)))
    (hclear : clearAboveWith ops env ray env._worldUpDirection iterationLimit
      upperHit upperId []) :
    requiresSafeLandingWith ops env positionIn out = (false, out) := by
  unfold requiresSafeLandingWith
  simp only []
  split_ifs with h0
  · rfl
  · rw [htree]
    simp only [hup, hdown, hfacing.1, hfacing.2, Bool.and_self, if_true, hgap]
    rw [clearingSearchWith_of_clearAboveWith ops env ray _ _ out _ _ _ _ hclear]

/-- Witness for the amended C6: `roomScene`, a ceiling 5 m up and a floor 5 m
down with nothing above the ceiling; every quantity is exactly representable. -/
theorem requiresSafeLanding_clearing_accepts_witness :
    requiresSafeLandingWith sampleLandingOps roomScene ⟨0, 0, 0⟩ ⟨9, 9, 9⟩ =
      (false, ⟨9, 9, 9⟩) :=
  requiresSafeLanding_clearing_accepts sampleLandingOps roomScene roomRay
    ⟨0, 0, 0⟩ ⟨9, 9, 9⟩ ⟨0, 5, 0⟩ ⟨0, -5, 0⟩ ⟨0, -1, 0⟩ ⟨0, 1, 0⟩ 1 2
    rfl
    (by simp [findIntersectionWith, sampleLandingOps, roomScene, roomRay, Vec3.add, Vec3.scale])
    (by simp [findIntersectionWith, sampleLandingOps, roomScene, roomRay, Vec3.add,
          Vec3.scale, Vec3.neg]; norm_num)
    (by simp [roomScene])
    (by norm_num [sampleLandingOps, halfHeightFactor, roomScene, abs_of_nonneg])
    (by simp [clearAboveWith, iterationLimit, roomScene, roomRay])

/-! ### Activation keeps the timers -/

/-- The constructor state (all timers 0) has its timers within `FOLLOW_TIME`. -/
theorem timersWithinFollowTime_idle : timersWithinFollowTime idleFollow := by
  intro t
  norm_num [idleFollow, FOLLOW_TIME]

/-- `activate` keeps the timers within `FOLLOW_TIME`. -/
theorem timersWithinFollowTime_activate (f : FollowHelper) (u : FollowType)
    (h : timersWithinFollowTime f) : timersWithinFollowTime (f.activate u) := by
  intro t
  rw [activate_timeRemaining]
  split_ifs
  · exact le_refl _
  · exact h t

/-- `deactivate` keeps the timers within `FOLLOW_TIME`. -/
theorem timersWithinFollowTime_deactivate (f : FollowHelper) (u : FollowType)
    (h : timersWithinFollowTime f) : timersWithinFollowTime (f.deactivate u) := by
  intro t
  unfold FollowHelper.deactivate
  by_cases htu : t = u
  · subst htu
    norm_num [FOLLOW_TIME]
  · simp only [Function.update_noteq htu]
    exact h t

/-- `decrementTimeRemaining` with a non-negative time keeps the timers within
`FOLLOW_TIME`. -/
theorem timersWithinFollowTime_decrement (f : FollowHelper) (dt : ℚ) (hdt : 0 ≤ dt)
    (h : timersWithinFollowTime f) : timersWithinFollowTime (f.decrementTimeRemaining dt) := by
  intro t
  have := h t
  simp only [FollowHelper.decrementTimeRemaining]
  linarith

/-- `postPhysicsUpdate` with a non-negative follow time keeps the timers within
`FOLLOW_TIME`. -/
theorem timersWithinFollowTime_postPhysicsUpdate (ops : GlmOps) (env : BodyEnv)
    (headPose : HeadPose) (f : FollowHelper) (a : FollowAvatar) (c : FollowResult)
    (m : Mat4) (hdt : 0 ≤ c.followTime) (h : timersWithinFollowTime f) :
    timersWithinFollowTime (postPhysicsUpdate ops env headPose f a c m).1 := by
  unfold postPhysicsUpdate
  dsimp only
  split_ifs
  · exact timersWithinFollowTime_deactivate _ _ (timersWithinFollowTime_decrement f _ hdt h)
  · exact timersWithinFollowTime_decrement f _ hdt h
  · exact h

/-- C22: `prePhysicsUpdate` never deactivates a follow axis.  In every state the
helper can be in (every timer at most `FOLLOW_TIME`) and for every input, each
of the three timers after the call is at least its value before, and the timers
stay at most `FOLLOW_TIME`; in every state whatsoever an axis active before the
call is active after it, and a horizontal or vertical timer that was already
active is left unchanged. -/
theorem prePhysicsUpdate_never_deactivates (f : FollowHelper) (a : FollowAvatar)
    (i : FollowInputs) (hasDriveInput : Bool) :
    (timersWithinFollowTime f →
      ∀ t, f._timeRemaining t ≤ (prePhysicsUpdate f a i hasDriveInput).1._timeRemaining t) ∧
    (∀ t, f.isActive t = true →
      (prePhysicsUpdate f a i hasDriveInput).1.isActive t = true) ∧
    (f.isActive FollowType.Horizontal = true →
      (prePhysicsUpdate f a i hasDriveInput).1._timeRemaining FollowType.Horizontal =
        f._timeRemaining FollowType.Horizontal) ∧
    (f.isActive FollowType.Vertical = true →
      (prePhysicsUpdate f a i hasDriveInput).1._timeRemaining FollowType.Vertical =
        f._timeRemaining FollowType.Vertical) ∧
    (timersWithinFollowTime f →
      timersWithinFollowTime (prePhysicsUpdate f a i hasDriveInput).1) := by
  have hft : (0 : ℚ) < FOLLOW_TIME := by norm_num [FOLLOW_TIME]
  have key := onlyActivates_prePhysicsUpdate f a i hasDriveInput
  refine ⟨?_, ?_, ?_, ?_, ?_⟩
  · intro hreach t
    rcases key t with e | ⟨e, _⟩
    · exact le_of_eq e.symm
    · rw [e]
      exact hreach t
  · intro t ht
    rcases key t with e | ⟨e, _⟩
    · simpa [FollowHelper.isActive, e] using ht
    · simp [FollowHelper.isActive, e, hft]
  · intro hact
    rcases key FollowType.Horizontal with e | ⟨_, c | c⟩
    · exact e
    · rw [hact] at c
      exact absurd c (by decide)
    · exact absurd c (by decide)
  · intro hact
    rcases key FollowType.Vertical with e | ⟨_, c | c⟩
    · exact e
    · rw [hact] at c
      exact absurd c (by decide)
    · exact absurd c (by decide)
  · intro hreach t
    rcases key t with e | ⟨e, _⟩
    · rw [e]
      exact hreach t
    · rw [e]

/-- Witness for C22: `rotationOnlyFollow` is the constructor state after
`activate(Rotation)`; with drive input and step-reset-rotation enabled the
rotation timer is re-armed and does not drop, and the horizontal and vertical
axes start. -/
theorem prePhysicsUpdate_never_deactivates_witness :
    timersWithinFollowTime rotationOnlyFollow ∧
    rotationOnlyFollow.isActive FollowType.Rotation = true ∧
    (∀ t, rotationOnlyFollow._timeRemaining t ≤
      (prePhysicsUpdate rotationOnlyFollow stepResetAvatar quietInputs true).1._timeRemaining
        t) ∧
    (prePhysicsUpdate rotationOnlyFollow stepResetAvatar quietInputs true).1.isActive
      FollowType.Rotation = true := by
  have hreach : timersWithinFollowTime rotationOnlyFollow := by
    intro t
    unfold rotationOnlyFollow
    dsimp only
    split_ifs <;> norm_num [FOLLOW_TIME]
  have hact : rotationOnlyFollow.isActive FollowType.Rotation = true := by
    norm_num [FollowHelper.isActive, rotationOnlyFollow, FOLLOW_TIME]
  have h := prePhysicsUpdate_never_deactivates rotationOnlyFollow stepResetAvatar
    quietInputs true
  exact ⟨hreach, hact, h.1 hreach, h.2.1 _ hact⟩

end MyAvatar
